import Mathlib

/-!
MedGuardian: schedule and reminder engine

A shallow embedding of the MedGuardian managers (`scheduleManager.js`,
`medicineManager.js`, `notificationManager.js`, `utils/fileManager.js`) and
theorems about them.

Conventions of the embedding.

* Instants are `Nat` milliseconds since the epoch (`Date.now()`); an ISO
  timestamp (`new Date().toISOString()`) is represented by the instant it
  renders.
* A JSON document of the data channel is a structure; a JavaScript `Map`
  is an association list in insertion order.
* `moment` and `moment-timezone` are external libraries.
  `moment.tz(text, 'HH:mm', zone)` is modelled by the forgiving parse of the
  text into minutes after midnight, put on the date the library takes for a
  time-only text and turned into an instant with the data of the zone (its
  changes of UTC offset and the way a wall-clock time is resolved around
  them); `subtract` and `diff` work on instants.
-/

namespace MedGuardian

/-! ## JavaScript helpers -/

/-- JavaScript `a || d` for an integer `a`: the only falsy integer is `0`. -/
def numOr (a d : Int) : Int := if a = 0 then d else a

/-- JavaScript `a || d` for a string `a`: the only falsy string is the empty one. -/
def strOr (a d : String) : String := if a = "" then d else a

/-- JavaScript `s.startsWith(p)`. -/
def startsWith (s p : String) : Bool := p.data.isPrefixOf s.data

/-- Replacement of the first occurrence of `pat` in a list of characters. -/
def replaceFirstChars (pat rep : List Char) : List Char → List Char
  | [] => if pat = [] then rep else []
  | c :: cs =>
    if pat.isPrefixOf (c :: cs) then rep ++ (c :: cs).drop pat.length
    else c :: replaceFirstChars pat rep cs

/-- JavaScript `s.replace(pat, rep)` for a string pattern: only the first
occurrence is replaced. -/
def replaceFirst (s pat rep : String) : String :=
  String.mk (replaceFirstChars pat.data rep.data s.data)

/-- Result of reading the property `k` of a plain JavaScript object. -/
inductive JsProp (α : Type) where
  | own (v : α)
  | inherited
  | missing
  deriving Repr, DecidableEq

/-- Property names every plain object inherits from `Object.prototype`; each of
them reads as a truthy value that has no `start` and no `end` property. -/
def objectPrototypeKeys : List String :=
  ["constructor", "__proto__", "hasOwnProperty", "isPrototypeOf",
   "propertyIsEnumerable", "toLocaleString", "toString", "valueOf",
   "__defineGetter__", "__defineSetter__", "__lookupGetter__", "__lookupSetter__"]

/-- JavaScript `obj[k]` on a plain object given by its own entries. -/
def getProp {α : Type} (obj : List (String × α)) (k : String) : JsProp α :=
  match obj.find? (fun e => e.1 == k) with
  | some e => .own e.2
  | none => if k ∈ objectPrototypeKeys then .inherited else .missing

/-! ## Times of day (`moment`, format `HH:mm`) -/

/-- Two decimal digits of a number below 100. -/
def pad2 (n : Nat) : String :=
  String.mk [Char.ofNat (48 + n / 10 % 10), Char.ofNat (48 + n % 10)]

/-- The text `moment#format('HH:mm')` gives for a valid moment that lies
`t` minutes after a local midnight. -/
def formatHHmm (t : Nat) : String :=
  pad2 (t % 1440 / 60) ++ ":" ++ pad2 (t % 60)

/-- First match of the regular expression `\d\d?` in the input: the number
matched and the input that follows the match. -/
def matchDigits1to2 : List Char → Option (Nat × List Char)
  | [] => none
  | c :: cs =>
    if c.isDigit then
      match cs with
      | [] => some (c.toNat - 48, [])
      | d :: ds =>
        if d.isDigit then some ((c.toNat - 48) * 10 + (d.toNat - 48), ds)
        else some (c.toNat - 48, d :: ds)
    else matchDigits1to2 cs

/-- First match of the literal `:` of the format: the input after it, or the
input itself when there is no colon. -/
def skipColon (cs : List Char) : List Char :=
  match cs.dropWhile (fun c => c != ':') with
  | [] => cs
  | _ :: rest => rest

/-- Overflow check of `moment`: hours 0..23 with minutes 0..59, or `24:00`. -/
def validHourMinute (h m : Nat) : Option Nat :=
  if h ≤ 23 ∧ m ≤ 59 then some (h * 60 + m)
  else if h = 24 ∧ m = 0 then some 1440
  else none

/-- Forgiving parse of `moment(text, 'HH:mm')`: the minutes after today's
local midnight, or `none` for an invalid moment.  The token `HH` takes the
first one or two digits found, the literal `:` is skipped when present, the
token `mm` takes the next one or two digits (minute 0 when there are none);
a text without any digit parses nothing and is invalid. -/
def parseHHmm (s : String) : Option Nat :=
  match matchDigits1to2 s.data with
  | none => none
  | some (h, rest) =>
    match matchDigits1to2 (skipColon rest) with
    | none => validHourMinute h 0
    | some (m, _) => validHourMinute h m

/-- The parse `moment.tz(input, 'HH:mm', zone)` of a property that may be
`undefined` (the text `undefined` has no digit). -/
def momentHHmm (input : Option String) : Option Nat :=
  input.bind parseHHmm

/-! ## Time zones (`moment-timezone`) -/

/-- The data `moment-timezone` holds for one zone: each segment gives the
instant (milliseconds since the epoch) up to which an offset applies and that
offset in minutes west of UTC, in the order of time; `last` is the offset after
the last of these instants, whose own end is `Infinity`. -/
structure Zone where
  segments : List (Int × Int) := []
  last : Int
  deriving Repr, DecidableEq

/-- Library `Zone.utcOffset(timestamp)`: the offset, in minutes west of UTC, in
force at an instant. -/
def Zone.utcOffset (zone : Zone) (timestamp : Int) : Int :=
  match zone.segments.find? (fun seg => decide (timestamp < seg.1)) with
  | some seg => seg.2
  | none => zone.last

/-- The loop of library `Zone.parse(timestamp)` from one segment on, for a
wall-clock time given as if it were an instant; `offsetPrev` is the offset of
the segment before (of the segment itself for the first one).  With the
defaults of the library (`moveInvalidForward` set, `moveAmbiguousForward` not) a
wall-clock time that a forward change skips is read with the offset before the
change, and one that a backward change repeats is read as its first
occurrence. -/
def Zone.parseFrom (last target : Int) : Int → List (Int × Int) → Int
  | _, [] => last
  | offsetPrev, (untilMs, offset) :: rest =>
    let bound := if offset > offsetPrev then offsetPrev else offset
    if target < untilMs - bound * 60000 then offset
    else Zone.parseFrom last target offset rest

/-- Library `Zone.parse(timestamp)`: the offset, in minutes west of UTC, to add
to a wall-clock time of the zone to get its instant. -/
def Zone.parse (zone : Zone) (target : Int) : Int :=
  match zone.segments with
  | [] => zone.last
  | seg :: _ => Zone.parseFrom zone.last target seg.2 zone.segments

/-- The zone keeps one offset, `c` minutes west of UTC, at every instant and
for every wall-clock time: it has no clock change. -/
def Zone.isFixed (zone : Zone) (c : Int) : Prop :=
  ∀ t, zone.utcOffset t = c ∧ zone.parse t = c

/-! ## Clock readings -/

/-- One reading of the clock, with what `moment` knows about zones: the instant
`Date.now()`, the UTC offset in minutes east of the server's zone at that
instant (used by `moment()`), the data of every named zone (a name without data
reads as UTC, so it is represented by the zone with the offset 0), and whether
`moment.tz(text, 'HH:mm', zone)` dates a text that holds only a time on the
current UTC date, as `moment-timezone` below 0.6.4 does, or on the current date
of the zone. -/
structure Clock where
  now : Nat
  localOffset : Int
  zone : String → Zone
  datesOnUtc : Bool

/-- Day number (days since 1970-01-01) of the server-local calendar date. -/
def Clock.localDay (clk : Clock) : Int :=
  ((clk.now : Int) + clk.localOffset * 60000) / 86400000

/-- The UTC offset, in minutes east, of the named zone at the instant of the
reading. -/
def Clock.zoneOffset (clk : Clock) (zone : String) : Int :=
  -((clk.zone zone).utcOffset clk.now)

/-- Milliseconds since local midnight in the named zone. -/
def Clock.msOfDay (clk : Clock) (zone : String) : Int :=
  ((clk.now : Int) + clk.zoneOffset zone * 60000) % 86400000

/-- Day number of the current calendar date in the named zone. -/
def Clock.zoneDay (clk : Clock) (zone : String) : Int :=
  ((clk.now : Int) + clk.zoneOffset zone * 60000) / 86400000

/-- Day number of the date on which `moment.tz(text, 'HH:mm', zone)` puts a
text that holds only a time. -/
def Clock.parseDay (clk : Clock) (zone : String) : Int :=
  if clk.datesOnUtc then (clk.now : Int) / 86400000 else clk.zoneDay zone

/-- The instant of `moment.tz(input, 'HH:mm', zone)`, in milliseconds since the
epoch, or `none` for an invalid moment: the time of day is put on the date of
`parseDay` as a wall-clock time and the zone gives the offset to add. -/
def momentTz (clk : Clock) (input : Option String) (zone : String) : Option Int :=
  match momentHHmm input with
  | none => none
  | some t =>
    let wall := clk.parseDay zone * 86400000 + (t : Int) * 60000
    some (wall + (clk.zone zone).parse wall * 60000)

/-- The text of `moment.tz(input, 'HH:mm', zone).subtract(minutes, 'minutes').format('HH:mm')`:
the minutes are subtracted from the instant and the result is shown on the
wall clock of the zone at the new instant. -/
def subtractMinutesFormat (clk : Clock) (input : Option String) (zone : String)
    (minutes : Int) : String :=
  match momentTz clk input zone with
  | none => "Invalid date"
  | some instant =>
    let shifted := instant - minutes * 60000
    let wall := shifted - (clk.zone zone).utcOffset shifted * 60000
    formatHHmm ((wall / 60000) % 1440).toNat

/-! ## Documents -/

/-- One meal window of `settings.json`. -/
structure MealWindow where
  start : String
  end_ : String
  deriving Repr, DecidableEq

/-- The document `settings.json`. -/
structure Settings where
  version : String := "1.0"
  guild_id : Option String := none
  meal_times : List (String × MealWindow)
  timezone : String
  reminder_advance_minutes : Int
  updated_at : Option Nat := none
  updated_by : Option String := none
  deriving Repr, DecidableEq

/-- One medicine of `medicines.json`. -/
structure Medicine where
  id : String
  created_at : Nat
  name : String
  dosage : String
  frequency : List String
  inventory : Int
  target_id : String
  added_by : String
  updated_at : Option Nat := none
  updated_by : Option String := none
  deriving Repr, DecidableEq

/-- One slot of `schedules.json`.  `reminder_time` is `none` when the source
computes `undefined` for it. -/
structure Schedule where
  id : String
  medicine_id : String
  medicine_name : String
  target_id : String
  frequency : String
  meal_time : String
  timing : String
  reminder_time : Option String
  timezone : String
  active : Bool
  created_at : Nat
  deriving Repr, DecidableEq

/-! ## scheduleManager.js -/

/-- The `start` property of what `mealTimes[mealTime]` evaluates to. -/
def JsProp.start : JsProp MealWindow → Option String
  | .own w => some w.start
  | _ => none

/-- The `end` property of what `mealTimes[mealTime]` evaluates to. -/
def JsProp.end_ : JsProp MealWindow → Option String
  | .own w => some w.end_
  | _ => none

/-- The branch on the prefix of the frequency tag: timing and meal name. -/
def splitFrequency (frequency : String) : Option (String × String) :=
  if startsWith frequency "before_" then
    some ("before", replaceFirst frequency "before_" "")
  else if startsWith frequency "after_" then
    some ("after", replaceFirst frequency "after_" "")
  else none

/-- Source `createScheduleFromFrequency(medicine, frequency, settings)`, evaluated at
the clock reading `clk`; `none` is the source's `null`. -/
def createScheduleFromFrequency (clk : Clock) (medicine : Medicine) (frequency : String)
    (settings : Settings) : Option Schedule :=
  let mealTimes := settings.meal_times
  let timezone := strOr settings.timezone "Asia/Kolkata"
  let advanceMinutes := numOr settings.reminder_advance_minutes 15
  match splitFrequency frequency with
  | none => none
  | some (timing, mealTime) =>
    match getProp mealTimes mealTime with
    | .missing => none
    | window =>
      let reminderTime :=
        if timing = "before" then
          some (subtractMinutesFormat clk window.start timezone advanceMinutes)
        else window.end_
      some {
        id := "sched_" ++ medicine.id ++ "_" ++ frequency
        medicine_id := medicine.id
        medicine_name := medicine.name
        target_id := medicine.target_id
        frequency := frequency
        meal_time := mealTime
        timing := timing
        reminder_time := reminderTime
        timezone := timezone
        active := true
        created_at := clk.now }


/-! ## The data channel and the messages of a guild -/

/-- The document `medicines.json`. -/
structure MedicinesDoc where
  version : String := "1.0"
  guild_id : Option String := none
  medicines : List Medicine := []
  deriving Repr, DecidableEq

/-- The document `schedules.json`. -/
structure SchedulesDoc where
  version : String := "1.0"
  guild_id : Option String := none
  generated_at : Option Nat := none
  schedules : List Schedule := []
  deriving Repr, DecidableEq

/-- The argument of `logActivity`: the `type` tag and the remaining
properties, each rendered as text (a nested property is named by its path). -/
structure Activity where
  type : String
  fields : List (String × String) := []
  deriving Repr, DecidableEq

/-- One entry of `logs.json`: `{ id, timestamp, guild_id, ...activity }`. -/
structure LogEntry where
  id : String
  timestamp : Nat
  guild_id : String
  type : String
  fields : List (String × String)
  deriving Repr, DecidableEq

/-- The document `logs.json`, newest entry first. -/
structure LogsDoc where
  version : String := "1.0"
  guild_id : Option String := none
  logs : List LogEntry := []
  deriving Repr, DecidableEq

/-- What a posted message shows; the text of the embeds is not modelled. -/
inductive MessageKind where
  | medicineReminder
  | reminderExpired
  | missedDoseAlert
  | snoozeReminder
  | logNotice (type : String)
  | responseRecorded
  | verificationComplete
  | manualIntakeAudit
  | dailySummary (taken missed : Nat) (compliance : String)
  deriving Repr, DecidableEq

/-- A message the bot posted in a channel of the guild, with the custom ids of
its buttons.  The id of a message is its position in `Guild.messages`. -/
structure Message where
  channel : String
  kind : MessageKind
  buttons : List String := []
  deriving Repr, DecidableEq

/-- A guild as the bot sees it: its id, the four documents kept in the data
channel (a file that is absent reads as its default document, so it is
represented by that document) and the messages posted so far. -/
structure Guild where
  id : String
  medicines : MedicinesDoc := {}
  schedules : SchedulesDoc := {}
  settings : Settings
  logs : LogsDoc := {}
  messages : List Message := []
  deriving Repr, DecidableEq

/-- Outcome of the external calls during one operation: whether reading or
writing a file of the data channel fails, and whether posting to a channel
fails.  A failed write leaves the data channel as it was. -/
structure Faults where
  readFails : String → Bool := fun _ => false
  writeFails : String → Bool := fun _ => false
  sendFails : String → Bool := fun _ => false

/-- Every external call succeeds. -/
def noFaults : Faults := {}

/-! ## utils/fileManager.js -/

/-- Source `getDefaultData('settings.json')`. -/
def defaultSettings : Settings :=
  { meal_times :=
      [("breakfast", { start := "07:00", end_ := "10:00" }),
       ("lunch", { start := "12:00", end_ := "14:00" }),
       ("dinner", { start := "19:00", end_ := "21:00" })]
    timezone := "Asia/Kolkata"
    reminder_advance_minutes := 15 }

/-- Source `readData(guild, 'medicines.json')`: the default document on a failure. -/
def readMedicines (io : Faults) (guild : Guild) : MedicinesDoc :=
  if io.readFails "medicines.json" then {} else guild.medicines

/-- Source `readData(guild, 'schedules.json')`. -/
def readSchedules (io : Faults) (guild : Guild) : SchedulesDoc :=
  if io.readFails "schedules.json" then {} else guild.schedules

/-- Source `readData(guild, 'settings.json')`. -/
def readSettings (io : Faults) (guild : Guild) : Settings :=
  if io.readFails "settings.json" then defaultSettings else guild.settings

/-- Source `readData(guild, 'logs.json')`. -/
def readLogs (io : Faults) (guild : Guild) : LogsDoc :=
  if io.readFails "logs.json" then {} else guild.logs

/-- Source `writeData(guild, 'medicines.json', data)` with its boolean result. -/
def writeMedicines (io : Faults) (guild : Guild) (data : MedicinesDoc) : Guild × Bool :=
  if io.writeFails "medicines.json" then (guild, false)
  else ({ guild with medicines := data }, true)

/-- Source `writeData(guild, 'schedules.json', data)`. -/
def writeSchedules (io : Faults) (guild : Guild) (data : SchedulesDoc) : Guild × Bool :=
  if io.writeFails "schedules.json" then (guild, false)
  else ({ guild with schedules := data }, true)

/-- Source `writeData(guild, 'settings.json', data)`. -/
def writeSettings (io : Faults) (guild : Guild) (data : Settings) : Guild × Bool :=
  if io.writeFails "settings.json" then (guild, false)
  else ({ guild with settings := data }, true)

/-- Source `writeData(guild, 'logs.json', data)`. -/
def writeLogs (io : Faults) (guild : Guild) (data : LogsDoc) : Guild × Bool :=
  if io.writeFails "logs.json" then (guild, false)
  else ({ guild with logs := data }, true)

/-- Source `channel.send(message)` on the channel named in the message: the guild
with the message posted and the id of the message, or `none` when the call
throws. -/
def channelSend (io : Faults) (guild : Guild) (message : Message) : Option (Guild × Nat) :=
  if io.sendFails message.channel then none
  else some ({ guild with messages := guild.messages ++ [message] }, guild.messages.length)

/-- Source `message.edit({ embeds, components: [] })`: the message shows `kind` and
loses its buttons. -/
def messageEdit (guild : Guild) (messageId : Nat) (kind : MessageKind) : Guild :=
  { guild with
    messages := guild.messages.modify (fun m => { m with kind := kind, buttons := [] }) messageId }

/-- Source `sendToLogChannel(guild, logEntry)`; an error of the send is swallowed. -/
def sendToLogChannel (io : Faults) (guild : Guild) (logEntry : LogEntry) : Guild :=
  if logEntry.type = "medicine_missed" ∨ logEntry.type = "inventory_low"
      ∨ logEntry.type = "setup_complete" then
    match channelSend io guild
        { channel := "medicine-logs", kind := .logNotice logEntry.type } with
    | some (guild', _) => guild'
    | none => guild
  else guild

/-- Source `logActivity(guild, activity)` at the instant `now`. -/
def logActivity (io : Faults) (now : Nat) (guild : Guild) (activity : Activity) : Guild × Bool :=
  let logs := readLogs io guild
  let logEntry : LogEntry :=
    { id := toString now
      timestamp := now
      guild_id := guild.id
      type := activity.type
      fields := activity.fields }
  let unshifted := logEntry :: logs.logs
  let kept := if unshifted.length > 1000 then unshifted.take 1000 else unshifted
  let guild := (writeLogs io guild { logs with logs := kept }).1
  let guild :=
    if activity.type ∈ ["medicine_missed", "inventory_low", "setup_complete"] then
      sendToLogChannel io guild logEntry
    else guild
  (guild, true)

/-! ## managers/medicineManager.js -/

/-- The `updates` argument of `updateMedicine`: the properties it carries. -/
structure MedicineUpdates where
  name : Option String := none
  dosage : Option String := none
  frequency : Option (List String) := none
  inventory : Option Int := none
  target_id : Option String := none
  updated_by : Option String := none
  deriving Repr, DecidableEq

/-- JavaScript `array.findIndex(p)`; `none` is the source's `-1`. -/
def findIndex {α : Type} (p : α → Bool) : List α → Option Nat
  | [] => none
  | a :: as => if p a then some 0 else (findIndex p as).map (fun i => i + 1)

/-- Source `getMedicines(guild)`. -/
def getMedicines (io : Faults) (guild : Guild) : List Medicine :=
  (readMedicines io guild).medicines

/-- Source `getMedicineById(guild, medicineId)`. -/
def getMedicineById (io : Faults) (guild : Guild) (medicineId : String) : Option Medicine :=
  (getMedicines io guild).find? (fun med => med.id == medicineId)

/-- The object `{ ...medicine, ...updates, updated_at }` of `updateMedicine`. -/
def mergeUpdates (now : Nat) (medicine : Medicine) (updates : MedicineUpdates) : Medicine :=
  { medicine with
    name := updates.name.getD medicine.name
    dosage := updates.dosage.getD medicine.dosage
    frequency := updates.frequency.getD medicine.frequency
    inventory := updates.inventory.getD medicine.inventory
    target_id := updates.target_id.getD medicine.target_id
    updated_by := updates.updated_by.orElse (fun _ => medicine.updated_by)
    updated_at := some now }

/-- Source `getChanges(oldMed, newMed)`: for each of the five compared fields that
differs, its old and its new value. -/
def getChanges (oldMed newMed : Medicine) : List (String × String) :=
  (if oldMed.name ≠ newMed.name then
    [("changes.name.old", oldMed.name), ("changes.name.new", newMed.name)] else [])
  ++ (if oldMed.dosage ≠ newMed.dosage then
    [("changes.dosage.old", oldMed.dosage), ("changes.dosage.new", newMed.dosage)] else [])
  ++ (if oldMed.frequency ≠ newMed.frequency then
    [("changes.frequency.old", ",".intercalate oldMed.frequency),
     ("changes.frequency.new", ",".intercalate newMed.frequency)] else [])
  ++ (if oldMed.inventory ≠ newMed.inventory then
    [("changes.inventory.old", toString oldMed.inventory),
     ("changes.inventory.new", toString newMed.inventory)] else [])
  ++ (if oldMed.target_id ≠ newMed.target_id then
    [("changes.target_id.old", oldMed.target_id),
     ("changes.target_id.new", newMed.target_id)] else [])

/-- Source `updateMedicine(guild, medicineId, updates)` at the instant `now`. -/
def updateMedicine (io : Faults) (now : Nat) (guild : Guild) (medicineId : String)
    (updates : MedicineUpdates) : Guild × Bool :=
  let medicines := readMedicines io guild
  match findIndex (fun med => med.id == medicineId) medicines.medicines with
  | none => (guild, false)
  | some medicineIndex =>
    match medicines.medicines[medicineIndex]? with
    | none => (guild, false)
    | some oldMedicine =>
      let newMedicine := mergeUpdates now oldMedicine updates
      let medicines :=
        { medicines with medicines := medicines.medicines.set medicineIndex newMedicine }
      let (guild, success) := writeMedicines io guild medicines
      if success then
        let guild := (logActivity io now guild
          { type := "medicine_updated"
            fields :=
              [("medicine_id", medicineId), ("medicine_name", newMedicine.name),
               ("updated_by", updates.updated_by.getD "")]
              ++ getChanges oldMedicine newMedicine
              ++ [("message", "Medicine " ++ newMedicine.name ++ " updated")] }).1
        (guild, success)
      else (guild, success)

/-- Source `updateInventory(guild, medicineId, change, updatedBy)` at the instant `now`. -/
def updateInventory (io : Faults) (now : Nat) (guild : Guild) (medicineId : String)
    (change : Int) (updatedBy : String) : Guild × Bool :=
  match getMedicineById io guild medicineId with
  | none => (guild, false)
  | some medicine =>
    let newInventory := max 0 (numOr medicine.inventory 0 + change)
    let (guild, success) := updateMedicine io now guild medicineId
      { inventory := some newInventory, updated_by := some updatedBy }
    let guild :=
      if newInventory ≤ 5 ∧ newInventory > 0 then
        (logActivity io now guild
          { type := "inventory_low"
            fields :=
              [("medicine_id", medicineId), ("medicine_name", medicine.name),
               ("remaining_count", toString newInventory),
               ("message", "Low inventory alert for " ++ medicine.name)] }).1
      else guild
    (guild, success)

/-! ## Calendar dates -/

/-- Decimal digits of a number, left-padded with zeros to four places. -/
def pad4 (n : Nat) : String :=
  let s := toString n
  String.mk (List.replicate (4 - s.length) '0') ++ s

/-- The text `moment().format('YYYY-MM-DD')` gives for the calendar date with
the given day number (proleptic Gregorian calendar, years 0 to 9999). -/
def formatDate (day : Int) : String :=
  let z := day + 719468
  let era := z / 146097
  let doe := z - era * 146097
  let yoe := (doe - doe / 1460 + doe / 36524 - doe / 146096) / 365
  let doy := doe - (365 * yoe + yoe / 4 - yoe / 100)
  let mp := (5 * doy + 2) / 153
  let d := doy - (153 * mp + 2) / 5 + 1
  let m := if mp < 10 then mp + 3 else mp - 9
  let y := yoe + era * 400 + (if m ≤ 2 then 1 else 0)
  pad4 y.toNat ++ "-" ++ pad2 m.toNat ++ "-" ++ pad2 d.toNat

/-! ## managers/scheduleManager.js, reading the schedules -/

/-- Source `getSchedules(guild)`. -/
def getSchedules (io : Faults) (guild : Guild) : List Schedule :=
  (readSchedules io guild).schedules

/-- Source `getSettings(guild)`. -/
def getSettings (io : Faults) (guild : Guild) : Settings :=
  readSettings io guild

/-- The filter of `getTodaysSchedules`: the slot is active and its reminder
time, as the moment `moment.tz(reminder_time, 'HH:mm', timezone)`, is valid and
at most one whole minute away from now (`diff` takes the difference of the
instants and truncates it towards zero; an invalid moment gives `NaN`, which
fails the comparison). -/
def isDue (clk : Clock) (timezone : String) (schedule : Schedule) : Bool :=
  if !schedule.active then false
  else
    match momentTz clk schedule.reminder_time timezone with
    | none => false
    | some reminderTime =>
      let timeDiff := (Int.tdiv ((clk.now : Int) - reminderTime) 60000).natAbs
      decide (timeDiff ≤ 1)

/-- Source `getTodaysSchedules(guild)` at the clock reading `clk`. -/
def getTodaysSchedules (io : Faults) (clk : Clock) (guild : Guild) : List Schedule :=
  let schedules := getSchedules io guild
  let settings := getSettings io guild
  let timezone := strOr settings.timezone "Asia/Kolkata"
  schedules.filter (isDue clk timezone)

/-! ## managers/notificationManager.js -/

/-- JavaScript `map.has(k)`. -/
def mapHas {β : Type} (m : List (String × β)) (k : String) : Bool :=
  m.any (fun e => e.1 == k)

/-- JavaScript `map.get(k)`. -/
def mapGet {β : Type} (m : List (String × β)) (k : String) : Option β :=
  (m.find? (fun e => e.1 == k)).map (fun e => e.2)

/-- JavaScript `map.set(k, v)`: an existing key keeps its place. -/
def mapSet {β : Type} (m : List (String × β)) (k : String) (v : β) : List (String × β) :=
  if mapHas m k then m.map (fun e => if e.1 == k then (k, v) else e)
  else m ++ [(k, v)]

/-- JavaScript `map.delete(k)`. -/
def mapDelete {β : Type} (m : List (String × β)) (k : String) : List (String × β) :=
  m.filter (fun e => e.1 != k)

/-- A value of the map `reminderTimeouts`. -/
structure ReminderData where
  timeout : Nat
  messageId : Nat
  channelId : String
  medicine : Medicine
  targetId : String
  scheduleId : String
  deriving Repr, DecidableEq

/-- What a pending `setTimeout` will run, with the values its closure holds. -/
inductive TimerCallback where
  | missedTimeout (medicine : Medicine) (targetId : String) (reminderKey : String)
  | snoozeReminder (medicine : Medicine) (targetId : String)
  deriving Repr, DecidableEq

/-- A pending `setTimeout`: its handle, the instant it is due, its callback. -/
structure Timer where
  handle : Nat
  fireAt : Nat
  callback : TimerCallback
  deriving Repr, DecidableEq

/-- The notification manager together with the guild it is working in: the
maps `activeReminders` and `reminderTimeouts`, the pending timers and the next
free timer handle. -/
structure State where
  guild : Guild
  activeReminders : List (String × Nat) := []
  reminderTimeouts : List (String × ReminderData) := []
  timers : List Timer := []
  nextTimer : Nat := 0
  deriving Repr, DecidableEq

/-- The parts of a button interaction the handlers read: the user, whether the
member has the Administrator permission, and the message the button is on. -/
structure Interaction where
  user_id : String
  administrator : Bool
  message : Nat
  deriving Repr, DecidableEq

/-- What the handler answers: an ephemeral `interaction.reply` or an
`interaction.update` of the message. -/
inductive Reply where
  | reply (content : String)
  | update
  deriving Repr, DecidableEq

/-- JavaScript `clearTimeout(handle)`. -/
def clearTimeout (timers : List Timer) (handle : Nat) : List Timer :=
  timers.filter (fun t => t.handle != handle)

/-- Source `notifyTrackersOfMissedDose(guild, medicine, targetId)` at the instant
`now`; an error of the send is swallowed. -/
def notifyTrackersOfMissedDose (io : Faults) (now : Nat) (guild : Guild) (medicine : Medicine)
    (targetId : String) : Guild :=
  match channelSend io guild
      { channel := "medicine-logs"
        kind := .missedDoseAlert
        buttons :=
          ["verify_taken_" ++ medicine.id ++ "_" ++ targetId ++ "_" ++ toString now,
           "verify_missed_" ++ medicine.id ++ "_" ++ targetId ++ "_" ++ toString now,
           "verify_late_" ++ medicine.id ++ "_" ++ targetId ++ "_" ++ toString now] } with
  | some (guild', _) => guild'
  | none => guild

/-- Source `handleAutomaticMissedDose(guild, medicine, targetId, reminderKey)`. -/
def handleAutomaticMissedDose (io : Faults) (now : Nat) (s : State) (medicine : Medicine)
    (targetId reminderKey : String) : State :=
  let guild := (logActivity io now s.guild
    { type := "medicine_missed_auto"
      fields :=
        [("medicine_id", medicine.id), ("medicine_name", medicine.name),
         ("target_id", targetId), ("reminder_key", reminderKey),
         ("missed_at", toString now), ("detection_method", "automatic_timeout"),
         ("message", "Automatic missed dose detection for " ++ medicine.name)] }).1
  let guild := notifyTrackersOfMissedDose io now guild medicine targetId
  let guild :=
    match mapGet s.reminderTimeouts reminderKey with
    | some reminderData => messageEdit guild reminderData.messageId .reminderExpired
    | none => guild
  { s with guild := guild }

/-- The callback `sendMedicineReminder` hands to `setTimeout` (30 minutes). -/
def missedTimeoutCallback (io : Faults) (now : Nat) (s : State) (medicine : Medicine)
    (targetId reminderKey : String) : State :=
  if !mapHas s.reminderTimeouts reminderKey then s
  else
    let s := handleAutomaticMissedDose io now s medicine targetId reminderKey
    { s with reminderTimeouts := mapDelete s.reminderTimeouts reminderKey }

/-- JavaScript `s.length`: the number of UTF-16 code units of the text. -/
def jsLength (s : String) : Nat :=
  (s.data.map (fun c => if c.toNat < 65536 then 1 else 2)).sum

/-- The check of `ButtonBuilder.setCustomId`: a custom id holds 1 to 100
characters; for any other text the call throws. -/
def validCustomId (id : String) : Bool :=
  decide (1 ≤ jsLength id) && decide (jsLength id ≤ 100)

/-- Source `sendMedicineReminder(guild, schedule)` at the instant `now`.  The
three buttons are built before the send, so a custom id that `setCustomId`
refuses ends the call, inside its `try`, with nothing sent. -/
def sendMedicineReminder (io : Faults) (now : Nat) (s : State) (schedule : Schedule) : State :=
  match getMedicineById io s.guild schedule.medicine_id with
  | none => s
  | some medicine =>
    let reminderKey :=
      s.guild.id ++ "_" ++ schedule.medicine_id ++ "_" ++ schedule.target_id ++ "_" ++ toString now
    let customIds :=
      ["taken_" ++ schedule.medicine_id ++ "_" ++ schedule.target_id ++ "_" ++ reminderKey,
       "missed_" ++ schedule.medicine_id ++ "_" ++ schedule.target_id ++ "_" ++ reminderKey,
       "snooze_" ++ schedule.medicine_id ++ "_" ++ schedule.target_id ++ "_" ++ reminderKey]
    if !customIds.all validCustomId then s
    else
    match channelSend io s.guild
        { channel := "medicine-reminders"
          kind := .medicineReminder
          buttons := customIds } with
    | none => s
    | some (guild, messageId) =>
      let missedTimeout : Timer :=
        { handle := s.nextTimer
          fireAt := now + 30 * 60 * 1000
          callback := .missedTimeout medicine schedule.target_id reminderKey }
      let reminderTimeouts := mapSet s.reminderTimeouts reminderKey
        { timeout := missedTimeout.handle
          messageId := messageId
          channelId := "medicine-reminders"
          medicine := medicine
          targetId := schedule.target_id
          scheduleId := schedule.id }
      let guild := (logActivity io now guild
        { type := "reminder_sent"
          fields :=
            [("schedule_id", schedule.id), ("medicine_id", schedule.medicine_id),
             ("medicine_name", medicine.name), ("target_id", schedule.target_id),
             ("reminder_time", schedule.reminder_time.getD ""),
             ("reminder_key", reminderKey),
             ("message", "Reminder sent for " ++ medicine.name)] }).1
      { s with
        guild := guild
        reminderTimeouts := reminderTimeouts
        timers := s.timers ++ [missedTimeout]
        nextTimer := s.nextTimer + 1 }

/-- The callback `scheduleSnoozeReminder` hands to `setTimeout`. -/
def snoozeCallback (io : Faults) (s : State) (medicine : Medicine) (targetId : String) : State :=
  match channelSend io s.guild
      { channel := "medicine-reminders"
        kind := .snoozeReminder
        buttons :=
          ["taken_" ++ medicine.id ++ "_" ++ targetId,
           "missed_" ++ medicine.id ++ "_" ++ targetId,
           "snooze_" ++ medicine.id ++ "_" ++ targetId] } with
  | some (guild, _) => { s with guild := guild }
  | none => s

/-- Source `scheduleSnoozeReminder(guild, medicine, targetId, minutes)`. -/
def scheduleSnoozeReminder (now : Nat) (s : State) (medicine : Medicine) (targetId : String)
    (minutes : Nat) : State :=
  { s with
    timers := s.timers ++
      [{ handle := s.nextTimer
         fireAt := now + minutes * 60 * 1000
         callback := .snoozeReminder medicine targetId }]
    nextTimer := s.nextTimer + 1 }

/-- A pending timer comes due: it leaves the pending timers and its callback
runs at the instant `now`. -/
def fireTimer (io : Faults) (now : Nat) (s : State) (handle : Nat) : State :=
  match s.timers.find? (fun t => t.handle == handle) with
  | none => s
  | some timer =>
    let s := { s with timers := clearTimeout s.timers handle }
    match timer.callback with
    | .missedTimeout medicine targetId reminderKey =>
      missedTimeoutCallback io now s medicine targetId reminderKey
    | .snoozeReminder medicine targetId => snoozeCallback io s medicine targetId

/-- The cancellation at the head of `handleMedicineResponse`. -/
def cancelMissedTimeout (s : State) (reminderKey : Option String) : State :=
  match reminderKey with
  | none => s
  | some key =>
    if key ≠ "" ∧ mapHas s.reminderTimeouts key then
      match mapGet s.reminderTimeouts key with
      | none => s
      | some reminderData =>
        { s with
          timers := clearTimeout s.timers reminderData.timeout
          reminderTimeouts := mapDelete s.reminderTimeouts key }
    else s

/-- Source `handleMedicineResponse(interaction, action, medicineId, targetId, reminderKey)`
at the instant `now`; `reminderKey` is `none` when the button id carries none. -/
def handleMedicineResponse (io : Faults) (now : Nat) (s : State) (interaction : Interaction)
    (action medicineId targetId : String) (reminderKey : Option String) : State × Reply :=
  if interaction.user_id ≠ targetId then
    (s, .reply "You can only respond to your own medicine reminders.")
  else
    let s := cancelMissedTimeout s reminderKey
    match getMedicineById io s.guild medicineId with
    | none => (s, .reply "Medicine not found.")
    | some medicine =>
      let s :=
        if action = "taken" then
          let guild := (updateInventory io now s.guild medicineId (-1) interaction.user_id).1
          let guild := (logActivity io now guild
            { type := "medicine_taken"
              fields :=
                [("medicine_id", medicineId), ("medicine_name", medicine.name),
                 ("target_id", targetId), ("taken_at", toString now),
                 ("taken_by", interaction.user_id),
                 ("reminder_key", reminderKey.getD ""),
                 ("response_method", "button_click"),
                 ("message", medicine.name ++ " taken by target")] }).1
          { s with guild := guild }
        else if action = "missed" then
          let guild := (logActivity io now s.guild
            { type := "medicine_missed_manual"
              fields :=
                [("medicine_id", medicineId), ("medicine_name", medicine.name),
                 ("target_id", targetId), ("missed_at", toString now),
                 ("reported_by", interaction.user_id),
                 ("reminder_key", reminderKey.getD ""),
                 ("response_method", "button_click"),
                 ("message", medicine.name ++ " marked as missed by target")] }).1
          let guild := notifyTrackersOfMissedDose io now guild medicine targetId
          { s with guild := guild }
        else if action = "snooze" then
          let guild := (logActivity io now s.guild
            { type := "medicine_snoozed"
              fields :=
                [("medicine_id", medicineId), ("medicine_name", medicine.name),
                 ("target_id", targetId), ("snoozed_at", toString now),
                 ("snoozed_by", interaction.user_id),
                 ("reminder_key", reminderKey.getD ""),
                 ("snooze_duration", "15"),
                 ("message", medicine.name ++ " snoozed for 15 minutes")] }).1
          scheduleSnoozeReminder now { s with guild := guild } medicine targetId 15
        else s
      ({ s with guild := messageEdit s.guild interaction.message .responseRecorded }, .update)

/-- The `switch (verifyAction)` of `handleTrackerVerification`: log type and
inventory change. -/
def verificationOutcome (verifyAction : String) : String × Int :=
  if verifyAction = "taken" then ("medicine_taken_verified", -1)
  else if verifyAction = "missed" then ("medicine_missed_confirmed", 0)
  else if verifyAction = "late" then ("medicine_taken_late", -1)
  else ("", 0)

/-- Source `handleTrackerVerification(interaction, verifyAction, medicineId, targetId, timestamp)`
at the instant `now`. -/
def handleTrackerVerification (io : Faults) (now : Nat) (s : State) (interaction : Interaction)
    (verifyAction medicineId targetId timestamp : String) : State × Reply :=
  if !interaction.administrator then
    (s, .reply "Only administrators (trackers) can verify medicine intake status.")
  else
    match getMedicineById io s.guild medicineId with
    | none => (s, .reply "Medicine not found.")
    | some medicine =>
      let (logType, inventoryChange) := verificationOutcome verifyAction
      let guild :=
        if inventoryChange ≠ 0 then
          (updateInventory io now s.guild medicineId inventoryChange interaction.user_id).1
        else s.guild
      let guild := (logActivity io now guild
        { type := logType
          fields :=
            [("medicine_id", medicineId), ("medicine_name", medicine.name),
             ("target_id", targetId), ("verified_by", interaction.user_id),
             ("verified_at", toString now), ("original_timestamp", timestamp),
             ("message", "Tracker verified " ++ verifyAction ++ " status for " ++ medicine.name)] }).1
      ({ s with guild := messageEdit guild interaction.message .verificationComplete }, .update)

/-- Source `cleanupOldReminders()` at the instant `now`. -/
def cleanupOldReminders (now : Nat) (s : State) : State :=
  let oneDayAgo : Int := (now : Int) - 24 * 60 * 60 * 1000
  { s with activeReminders := s.activeReminders.filter (fun e => !decide ((e.2 : Int) < oneDayAgo)) }

/-- The key `processGuildReminders` keeps in `activeReminders` for a slot. -/
def dedupKey (clk : Clock) (guildId : String) (schedule : Schedule) : String :=
  guildId ++ "_" ++ schedule.id ++ "_" ++ formatDate clk.localDay

/-- One turn of the loop of `processGuildReminders`; the second component
collects the slots `sendMedicineReminder` was called for. -/
def processSchedule (io : Faults) (clk : Clock) (acc : State × List Schedule)
    (schedule : Schedule) : State × List Schedule :=
  let reminderKey := dedupKey clk acc.1.guild.id schedule
  if mapHas acc.1.activeReminders reminderKey then acc
  else
    let s := sendMedicineReminder io clk.now acc.1 schedule
    ({ s with activeReminders := mapSet s.activeReminders reminderKey clk.now },
      acc.2 ++ [schedule])

/-- Source `processGuildReminders(guild)` at the clock reading `clk`: the state it
leaves and the slots it called `sendMedicineReminder` for, in order. -/
def processGuildReminders (io : Faults) (clk : Clock) (s : State) : State × List Schedule :=
  let dueSchedules := getTodaysSchedules io clk s.guild
  let (s, sent) := dueSchedules.foldl (processSchedule io clk) (s, [])
  (cleanupOldReminders clk.now s, sent)

/-! ## Observations used in the statements -/

/-- The types of the stored log entries, newest first. -/
def logTypes (guild : Guild) : List String :=
  guild.logs.logs.map (fun e => e.type)

/-- The inventory of the stored medicine with the given id. -/
def inventoryOf (guild : Guild) (medicineId : String) : Option Int :=
  (getMedicineById noFaults guild medicineId).map (fun med => med.inventory)

/-- The types `updateInventory` logs for a new count, newest first: the
low-stock entry, when there is one, is logged after `medicine_updated`. -/
def inventoryLogTypes (newInventory : Int) : List String :=
  (if newInventory ≤ 5 ∧ newInventory > 0 then ["inventory_low"] else []) ++ ["medicine_updated"]

/-- One call of `updateInventory`: the outcome of its external calls, the
instant and the arguments. -/
structure InventoryCall where
  io : Faults
  now : Nat
  medicineId : String
  change : Int
  updatedBy : String

/-- The guild after a sequence of `updateInventory` calls. -/
def applyInventoryCalls (guild : Guild) (calls : List InventoryCall) : Guild :=
  calls.foldl
    (fun g c => (updateInventory c.io c.now g c.medicineId c.change c.updatedBy).1) guild

/-! ## Sample data -/

/-- A medicine `med_1` of target `u1` with the given count. -/
def sampleMedicine (inventory : Int) : Medicine :=
  { id := "med_1", created_at := 0, name := "Aspirin", dosage := "100mg",
    frequency := ["before_breakfast"], inventory := inventory, target_id := "u1",
    added_by := "t1" }

/-- A guild that stores `sampleMedicine` and the default settings. -/
def sampleGuild (inventory : Int) : Guild :=
  { id := "g1"
    medicines := { guild_id := some "g1", medicines := [sampleMedicine inventory] }
    settings := defaultSettings }

/-- The target of `sampleMedicine` pressing a button of message 0. -/
def sampleTarget : Interaction :=
  { user_id := "u1", administrator := false, message := 0 }

/-- A tracker pressing a button of message 1. -/
def sampleTracker : Interaction :=
  { user_id := "t1", administrator := true, message := 1 }

/-- The slot of `sampleMedicine` for the tag `before_breakfast`. -/
def sampleSchedule : Schedule :=
  { id := "sched_med_1_before_breakfast", medicine_id := "med_1", medicine_name := "Aspirin",
    target_id := "u1", frequency := "before_breakfast", meal_time := "breakfast",
    timing := "before", reminder_time := some "06:45", timezone := "Asia/Kolkata",
    active := true, created_at := 0 }

/-- A manager with empty maps in `sampleGuild`. -/
def sampleState (inventory : Int) : State :=
  { guild := sampleGuild inventory }

/-- The state after the reminder for `sampleSchedule` was sent at instant 1000,
with 30 doses in stock: message 0 carries the buttons and the escalation timer
is armed under `sampleKey`. -/
def sampleDelivered : State :=
  sendMedicineReminder noFaults 1000 (sampleState 30) sampleSchedule

/-- The reminder key of `sampleDelivered`. -/
def sampleKey : String := "g1_med_1_u1_1000"

/-- The target answers `taken` at instant 2000. -/
def sampleTakenOnce : State × Reply :=
  handleMedicineResponse noFaults 2000 sampleDelivered sampleTarget "taken" "med_1" "u1"
    (some sampleKey)

/-- The target answers `taken` a second time, at instant 3000, for the same
reminder key. -/
def sampleTakenTwice : State × Reply :=
  handleMedicineResponse noFaults 3000 sampleTakenOnce.1 sampleTarget "taken" "med_1" "u1"
    (some sampleKey)

/-- No answer arrives and the escalation timer of `sampleDelivered` fires when
it is due. -/
def sampleEscalated : State :=
  fireTimer noFaults 1801000 sampleDelivered 0

/-- The target answers `taken` after the escalation. -/
def sampleLateResponse : State × Reply :=
  handleMedicineResponse noFaults 1900000 sampleEscalated sampleTarget "taken" "med_1" "u1"
    (some sampleKey)

/-- A tracker then verifies the escalated dose as taken late. -/
def sampleVerifiedLate : State × Reply :=
  handleTrackerVerification noFaults 2400000 sampleLateResponse.1 sampleTracker "late" "med_1"
    "u1" "1801000"

/-- A manager with empty maps in a guild that stores `sampleMedicine` (30
doses) and its slot `sampleSchedule`, due at 06:45 in Asia/Kolkata. -/
def sampleScheduled : State :=
  { guild :=
      { sampleGuild 30 with
        schedules := { guild_id := some "g1", schedules := [sampleSchedule] } } }

/-- A reading of a clock whose server and zones all keep the same UTC offset,
in minutes east. -/
def fixedClock (now : Nat) (offset : Int) (datesOnUtc : Bool) : Clock :=
  { now := now, localOffset := offset, zone := fun _ => { last := -offset },
    datesOnUtc := datesOnUtc }

/-- A clock reading of a server and a tenant that are both 330 minutes east of
UTC, with a `moment-timezone` below 0.6.4; the instant 4500000 is 06:45:00
there, on 1970-01-01. -/
def sampleTick (now : Nat) : Clock :=
  fixedClock now 330 true

/-! ## managers/scheduleManager.js, compiling the schedules -/

/-- The two nested loops of `generateSchedules`: for every medicine, in stored
order, and every tag of its frequency list, in order, the slot
`createScheduleFromFrequency` returns, when it returns one. -/
def compileSchedules (clk : Clock) (medicines : List Medicine) (settings : Settings) :
    List Schedule :=
  (medicines.map (fun medicine =>
    medicine.frequency.filterMap (fun freq =>
      createScheduleFromFrequency clk medicine freq settings))).flatten

/-- Source `generateSchedules(guild)` at the clock reading `clk`: the result of
`writeData` is not looked at and `true` is returned. -/
def generateSchedules (io : Faults) (clk : Clock) (guild : Guild) : Guild × Bool :=
  let medicines := readMedicines io guild
  let settings := getSettings io guild
  let schedules := compileSchedules clk medicines.medicines settings
  let scheduleData : SchedulesDoc :=
    { version := "1.0"
      guild_id := some guild.id
      generated_at := some clk.now
      schedules := schedules }
  let guild := (writeSchedules io guild scheduleData).1
  (guild, true)

/-- The list `validFrequencies` of `handleAddMedicineModal`. -/
def validFrequencies : List String :=
  ["before_breakfast", "after_breakfast", "before_lunch", "after_lunch",
   "before_dinner", "after_dinner"]

/-- The list `invalidFreqs` of `handleAddMedicineModal`; the frequency list is
accepted when it is empty. -/
def invalidFreqs (frequencies : List String) : List String :=
  frequencies.filter (fun f => !validFrequencies.contains f)

/-- Spec wording of the selection of due slots: the slot is active, its
reminder time reads as a time of today in the zone, and the whole minutes that
lie between that time and now, in either direction, are at most one. -/
def dueWithinOneMinute (clk : Clock) (timezone : String) (slot : Schedule) : Prop :=
  slot.active = true
    ∧ ∃ t, momentHHmm slot.reminder_time = some t
        ∧ |clk.msOfDay timezone - (t : Int) * 60000| / 60000 ≤ 1

/-! ## bot.js -/

/-- The parts of a list of characters between the occurrences of `sep`. -/
def splitChars (sep : Char) : List Char → List (List Char)
  | [] => [[]]
  | c :: cs =>
    if c == sep then [] :: splitChars sep cs
    else
      match splitChars sep cs with
      | [] => [[c]]
      | part :: parts => (c :: part) :: parts

/-- JavaScript `s.split(sep)` for a one-character separator. -/
def jsSplit (s : String) (sep : Char) : List String :=
  (splitChars sep s.data).map String.mk

/-- Source `handleButtonInteraction(interaction)` for the custom id of the
pressed button, at the instant `now`; `none` when no handler is called.  A
part the destructuring leaves `undefined` is passed on as such: an `undefined`
target id differs from every user id, an `undefined` medicine id is the id of
no medicine, and an `undefined` target id or timestamp of a verification only
reaches the log entry, where it is rendered as the empty text. -/
def handleButtonInteraction (io : Faults) (now : Nat) (s : State) (interaction : Interaction)
    (customId : String) : State × Option Reply :=
  let customIdParts := jsSplit customId '_'
  let action := customIdParts[0]?.getD ""
  if action = "taken" ∨ action = "missed" ∨ action = "snooze" then
    match customIdParts[2]? with
    | none => (s, some (.reply "You can only respond to your own medicine reminders."))
    | some targetId =>
      let r := handleMedicineResponse io now s interaction action
        (customIdParts[1]?.getD "") targetId customIdParts[3]?
      (r.1, some r.2)
  else if action = "verify" then
    match customIdParts[2]? with
    | none =>
      if !interaction.administrator then
        (s, some (.reply "Only administrators (trackers) can verify medicine intake status."))
      else (s, some (.reply "Medicine not found."))
    | some medicineId =>
      let r := handleTrackerVerification io now s interaction
        (customIdParts[1]?.getD "") medicineId (customIdParts[3]?.getD "")
        (customIdParts[4]?.getD "")
      (r.1, some r.2)
  else (s, none)

/-! ## commands/update-intake.js -/

/-- The `switch (status)` of the command: log type and inventory change. -/
def intakeOutcome (status : String) : String × Int :=
  if status = "taken" then ("medicine_taken_manual", -1)
  else if status = "taken_late" then ("medicine_taken_late_manual", -1)
  else if status = "missed" then ("medicine_missed_manual", 0)
  else if status = "undo_missed" then ("medicine_missed_corrected", -1)
  else ("", 0)

/-- Source `execute(interaction, managers)` of the command `update-intake` at
the instant `now`, for the options `medicine_id`, `target` (the id of the
user), `status` and `notes`; display names are not modelled. -/
def updateIntake (io : Faults) (now : Nat) (guild : Guild) (interaction : Interaction)
    (medicineId targetUserId status notes : String) : Guild × Reply :=
  match getMedicineById io guild medicineId with
  | none => (guild, .reply "Medicine not found.")
  | some medicine =>
    if medicine.target_id ≠ targetUserId then
      (guild, .reply ("Medicine " ++ medicine.name ++ " is not assigned to this target."))
    else
      let (logType, inventoryChange) := intakeOutcome status
      let (guild, success) :=
        if inventoryChange ≠ 0 then
          updateInventory io now guild medicineId inventoryChange interaction.user_id
        else (guild, true)
      if !success then (guild, .reply "Failed to update inventory. Please try again.")
      else
        let guild := (logActivity io now guild
          { type := logType
            fields :=
              [("medicine_id", medicineId), ("medicine_name", medicine.name),
               ("target_id", targetUserId), ("updated_by", interaction.user_id),
               ("status", status), ("notes", notes), ("manual_entry", "true"),
               ("timestamp", toString now),
               ("message", "Manual intake update: " ++ status ++ " for " ++ medicine.name)] }).1
        let guild :=
          match channelSend io guild
              { channel := "medicine-logs", kind := .manualIntakeAudit } with
          | some (guild', _) => guild'
          | none => guild
        (guild, .reply "Manual Intake Update")

/-! ## Sample data, continued -/

/-- The target answers `snooze` at instant 2000. -/
def sampleSnoozed : State × Reply :=
  handleMedicineResponse noFaults 2000 sampleDelivered sampleTarget "snooze" "med_1" "u1"
    (some sampleKey)

/-- The snooze timer of `sampleSnoozed` fires 15 minutes later. -/
def sampleSnoozeFired : State :=
  fireTimer noFaults 902000 sampleSnoozed.1 1

/-- A medicine whose frequency list names the same tag twice; the validation
of the add-medicine form accepts the list. -/
def sampleTwiceDaily : Medicine :=
  { sampleMedicine 30 with frequency := ["before_breakfast", "before_breakfast"] }

/-- A slot with its `created_at` stamp blanked, for comparing compilations made
at different instants. -/
def withoutCreatedAt (slot : Schedule) : Schedule :=
  { slot with created_at := 0 }

/-- A guild whose stored slot of `sampleMedicine` was switched off. -/
def sampleInactive : Guild :=
  { sampleGuild 30 with
    schedules :=
      { guild_id := some "g1", schedules := [{ sampleSchedule with active := false }] } }

/-- A medicine whose frequency list holds a tag that names no meal window but
a property every JavaScript object inherits, next to an ordinary tag. -/
def sampleOddTag : Medicine :=
  { sampleMedicine 30 with frequency := ["before_toString", "before_breakfast"] }

/-- Settings whose breakfast starts at 00:10, with the advance of 15 minutes. -/
def sampleEarlySettings : Settings :=
  { defaultSettings with
    meal_times := [("breakfast", { start := "00:10", end_ := "01:00" })] }

/-- A guild that stores `sampleOddTag` and the default settings. -/
def sampleOddGuild : Guild :=
  { sampleGuild 30 with medicines := { medicines := [sampleOddTag] } }

/-- A guild that stores `sampleTwiceDaily` and the default settings. -/
def sampleTwiceGuild : Guild :=
  { sampleGuild 30 with medicines := { medicines := [sampleTwiceDaily] } }

/-! ## Numbers of JavaScript: `Math.round((taken / total) * 100)` -/

/-- The integer nearest to `n / d`, a tie going to the even one: the rounding
of every operation on IEEE doubles. -/
def roundHalfEven (n d : Nat) : Nat :=
  let q := n / d
  let r := n % d
  if 2 * r < d then q
  else if 2 * r > d then q + 1
  else if q % 2 = 0 then q
  else q + 1

/-- The least exponent `e`, from `e` upwards and within the fuel, with
`2^52 <= (n / d) * 2^e`; for a positive ratio below `2^52` the significand of
the double nearest to `n / d` is then `(n / d) * 2^e` rounded. -/
def binaryExponent (n d : Nat) : Nat → Nat → Nat
  | 0, e => e
  | fuel + 1, e => if 2 ^ 52 * d ≤ n * 2 ^ e then e else binaryExponent n d fuel (e + 1)

/-- The double nearest to the positive ratio `n / d` (between `2^-1000` and
`2^52`), as the pair `(m, e)` that stands for `m / 2^e`. -/
def nearestDouble (n d : Nat) : Nat × Nat :=
  let e := binaryExponent n d 1100 0
  (roundHalfEven (n * 2 ^ e) d, e)

/-- JavaScript `Math.round(x)` for the double `x = m / 2^e`: the integer
`floor(x + 1/2)`. -/
def mathRound (x : Nat × Nat) : Nat :=
  (2 * x.1 + 2 ^ x.2) / 2 ^ (x.2 + 1)

/-- JavaScript `Math.round((taken / total) * 100)` for counts with
`0 < total`: the quotient is rounded to a double, its product with 100 is
rounded to a double, and that double is rounded to an integer. -/
def compliancePercent (taken total : Nat) : Nat :=
  if taken = 0 then 0
  else
    let quotient := nearestDouble taken total
    let product := nearestDouble (100 * quotient.1) (2 ^ quotient.2)
    mathRound product

/-- Spec wording of the percentage: `100 * taken / total` rounded to the
nearest integer, a half going up. -/
def roundedPercent (taken total : Nat) : Nat :=
  (200 * taken + total) / (2 * total)

/-! ## More JavaScript helpers -/

/-- JavaScript `s.endsWith(p)`. -/
def endsWith (s p : String) : Bool := p.data.isSuffixOf s.data

/-- The characters `trim` and `parseInt` strip: the white space and the line
terminators of ECMAScript. -/
def jsIsWhiteSpace (c : Char) : Bool :=
  c.toNat ∈ [0x9, 0xA, 0xB, 0xC, 0xD, 0x20, 0xA0, 0x1680, 0x2028, 0x2029, 0x202F, 0x205F,
      0x3000, 0xFEFF]
    || (0x2000 ≤ c.toNat && c.toNat ≤ 0x200A)

/-- JavaScript `s.trim()`. -/
def jsTrim (s : String) : String :=
  String.mk ((s.data.dropWhile jsIsWhiteSpace).reverse.dropWhile jsIsWhiteSpace).reverse

/-- The value of a character as a digit of the radix, when it is one. -/
def digitValue (radix : Nat) (c : Char) : Option Nat :=
  let v :=
    if '0' ≤ c ∧ c ≤ '9' then some (c.toNat - 48)
    else if 'a' ≤ c ∧ c ≤ 'z' then some (c.toNat - 87)
    else if 'A' ≤ c ∧ c ≤ 'Z' then some (c.toNat - 55)
    else none
  v.filter (fun d => d < radix)

/-- The values of the longest prefix made of digits of the radix. -/
def leadingDigits (radix : Nat) : List Char → List Nat
  | [] => []
  | c :: cs =>
    match digitValue radix c with
    | some d => d :: leadingDigits radix cs
    | none => []

/-- JavaScript `parseInt(s)` without a radix; `none` is `NaN`.  Leading white
space is skipped, a sign is read, the prefix `0x` selects radix 16, and the
longest run of digits is the value.  The value is exact: the fields parsed with
it hold at most 10 characters. -/
def parseInt (s : String) : Option Int :=
  let afterSpace := s.data.dropWhile jsIsWhiteSpace
  let (sign, afterSign) : Int × List Char :=
    match afterSpace with
    | '-' :: rest => (-1, rest)
    | '+' :: rest => (1, rest)
    | _ => (1, afterSpace)
  let (radix, digits) : Nat × List Char :=
    match afterSign with
    | '0' :: 'x' :: rest => (16, rest)
    | '0' :: 'X' :: rest => (16, rest)
    | _ => (10, afterSign)
  match leadingDigits radix digits with
  | [] => none
  | ds => some (sign * ((ds.foldl (fun acc d => acc * radix + d) 0 : Nat) : Int))

/-- The test of the regular expression `^\d{2}:\d{2}$`. -/
def matchesHHMM (s : String) : Bool :=
  match s.data with
  | [a, b, ':', c, d] => a.isDigit && b.isDigit && c.isDigit && d.isDigit
  | _ => false

/-! ## managers/scheduleManager.js, the settings form -/

/-- The `updates` argument of `updateSettings` as `handleMealTimesModal`
builds it. -/
structure SettingsUpdates where
  meal_times : List (String × MealWindow)
  timezone : String
  reminder_advance_minutes : Int
  deriving Repr, DecidableEq

/-- Source `updateSettings(guild, updates, updatedBy)` at the instant `now`. -/
def updateSettings (io : Faults) (now : Nat) (guild : Guild) (updates : SettingsUpdates)
    (updatedBy : String) : Guild × Bool :=
  let settings := getSettings io guild
  let updatedSettings : Settings :=
    { settings with
      meal_times := updates.meal_times
      timezone := updates.timezone
      reminder_advance_minutes := updates.reminder_advance_minutes
      updated_at := some now
      updated_by := some updatedBy }
  let (guild, success) := writeSettings io guild updatedSettings
  if success then
    let guild := (logActivity io now guild
      { type := "settings_updated"
        fields := [("updated_by", updatedBy), ("message", "Guild settings updated")] }).1
    (guild, success)
  else (guild, success)

/-- The function `parseTimeRange` of `handleMealTimesModal`; `none` stands for
the error it throws. -/
def parseTimeRange (timeRange : String) : Option MealWindow :=
  let parts := (jsSplit timeRange '-').map jsTrim
  match parts[0]?, parts[1]? with
  | some start, some end_ =>
    if start = "" ∨ end_ = "" then none
    else if !matchesHHMM start || !matchesHHMM end_ then none
    else some { start := start, end_ := end_ }
  | _, _ => none

/-- Source `handleMealTimesModal(interaction)` at the clock reading `clk`, for the
five texts of the form; `isZone` tells whether `moment.tz.zone` knows the
name. -/
def handleMealTimesModal (io : Faults) (clk : Clock) (guild : Guild) (isZone : String → Bool)
    (interaction : Interaction)
    (breakfastTimes lunchTimes dinnerTimes timezone advanceText : String) : Guild × Reply :=
  let advanceMinutes := parseInt advanceText
  match parseTimeRange breakfastTimes, parseTimeRange lunchTimes, parseTimeRange dinnerTimes with
  | some breakfast, some lunch, some dinner =>
    let mealTimes := [("breakfast", breakfast), ("lunch", lunch), ("dinner", dinner)]
    if !isZone timezone then (guild, .reply "Invalid timezone.")
    else
      match advanceMinutes with
      | none => (guild, .reply "Reminder advance time must be a number between 0 and 60 minutes.")
      | some advance =>
        if advance < 0 ∨ advance > 60 then
          (guild, .reply "Reminder advance time must be a number between 0 and 60 minutes.")
        else
          let (guild, success) := updateSettings io clk.now guild
            { meal_times := mealTimes, timezone := timezone,
              reminder_advance_minutes := advance } interaction.user_id
          if success then
            let guild := (generateSchedules io clk guild).1
            (guild, .reply "Meal Times Updated Successfully")
          else (guild, .reply "Failed to update meal times. Please try again.")
  | _, _, _ => (guild, .reply "Error: invalid time range")

/-! ## managers/medicineManager.js, adding a medicine -/

/-- The argument `medicineData` of `addMedicine`; `id` and `created_at` are
present only when the caller passes such properties, which then replace the
generated ones. -/
structure MedicineData where
  name : String
  dosage : String
  frequency : List String
  inventory : Int
  target_id : String
  added_by : String
  id : Option String := none
  created_at : Option Nat := none
  deriving Repr, DecidableEq

/-- The object `{ id, created_at, ...medicineData }` of `addMedicine`. -/
def newMedicine (now : Nat) (medicineData : MedicineData) : Medicine :=
  { id := medicineData.id.getD ("med_" ++ toString now)
    created_at := medicineData.created_at.getD now
    name := medicineData.name
    dosage := medicineData.dosage
    frequency := medicineData.frequency
    inventory := medicineData.inventory
    target_id := medicineData.target_id
    added_by := medicineData.added_by }

/-- Source `addMedicine(guild, medicineData)` at the instant `now`; `none` is
the source's `null`. -/
def addMedicine (io : Faults) (now : Nat) (guild : Guild) (medicineData : MedicineData) :
    Guild × Option Medicine :=
  let medicines := readMedicines io guild
  let added := newMedicine now medicineData
  let medicines : MedicinesDoc :=
    { medicines with
      medicines := medicines.medicines ++ [added]
      guild_id := some guild.id }
  let (guild, success) := writeMedicines io guild medicines
  if success then
    let guild := (logActivity io now guild
      { type := "medicine_added"
        fields :=
          [("medicine_id", added.id), ("medicine_name", added.name),
           ("added_by", medicineData.added_by),
           ("message", "Medicine " ++ added.name ++ " added")] }).1
    (guild, some added)
  else (guild, none)

/-- Source `handleAddMedicineModal(interaction)` at the instant `now`, for the
five texts of the form; `isMember` tells whether `guild.members.fetch` finds
the user. -/
def handleAddMedicineModal (io : Faults) (now : Nat) (guild : Guild) (isMember : String → Bool)
    (interaction : Interaction) (name dosage frequency inventoryText targetInput : String) :
    Guild × Reply :=
  let inventory := parseInt inventoryText
  let targetId := String.mk (targetInput.data.filter (fun c => !"<@!>".data.contains c))
  if !isMember targetId then (guild, .reply "Invalid target user.")
  else
    let frequencies := (jsSplit frequency ',').map jsTrim
    if invalidFreqs frequencies ≠ [] then (guild, .reply "Invalid frequency options.")
    else
      let medicineData : MedicineData :=
        { name := name
          dosage := dosage
          frequency := frequencies
          inventory := match inventory with
            | none => 0
            | some n => n
          target_id := targetId
          added_by := interaction.user_id }
      match addMedicine io now guild medicineData with
      | (guild, some _) => (guild, .reply "Medicine Added Successfully")
      | (guild, none) => (guild, .reply "Failed to add medicine. Please try again.")

/-- One call of `addMedicine`: the outcome of its external calls, the clock
reading and the argument. -/
structure AddCall where
  io : Faults
  now : Nat
  medicineData : MedicineData

/-- The guild after a sequence of `addMedicine` calls. -/
def applyAddCalls (guild : Guild) (calls : List AddCall) : Guild :=
  calls.foldl (fun g c => (addMedicine c.io c.now g c.medicineData).1) guild

/-- At each call of the sequence, the id the call gives the new medicine is the
id of no medicine stored at that moment. -/
def freshIds : Guild → List AddCall → Bool
  | _, [] => true
  | guild, c :: cs =>
    guild.medicines.medicines.all (fun m => m.id != (newMedicine c.now c.medicineData).id)
      && freshIds (addMedicine c.io c.now guild c.medicineData).1 cs

/-- The ids of the stored medicines, in stored order. -/
def medicineIds (guild : Guild) : List String :=
  guild.medicines.medicines.map (fun m => m.id)

/-! ## managers/notificationManager.js, the daily summary -/

/-- Three decimal digits of a number below 1000. -/
def pad3 (n : Nat) : String :=
  String.mk [Char.ofNat (48 + n / 100 % 10), Char.ofNat (48 + n / 10 % 10),
    Char.ofNat (48 + n % 10)]

/-- The text of `new Date(t).toISOString()`, in UTC (years 0 to 9999). -/
def toISOString (t : Nat) : String :=
  formatDate ((t / 86400000 : Nat) : Int) ++ "T" ++ pad2 (t / 3600000 % 24) ++ ":"
    ++ pad2 (t / 60000 % 60) ++ ":" ++ pad2 (t / 1000 % 60) ++ "." ++ pad3 (t % 1000) ++ "Z"

/-- The filter of `sendDailySummary`: the entry's timestamp starts with the
server-local date of the clock reading. -/
def isTodaysLog (clk : Clock) (log : LogEntry) : Bool :=
  startsWith (toISOString log.timestamp) (formatDate clk.localDay)

/-- The number of today's entries of the log whose type is exactly `type`. -/
def countToday (clk : Clock) (logs : List LogEntry) (type : String) : Nat :=
  ((logs.filter (isTodaysLog clk)).filter (fun log => log.type == type)).length

/-- Source `sendDailySummary(guild)` at the clock reading `clk`; an error of
the send is swallowed. -/
def sendDailySummary (io : Faults) (clk : Clock) (guild : Guild) : Guild :=
  let logs := readLogs io guild
  let todaysLogs := logs.logs.filter (isTodaysLog clk)
  let taken := (todaysLogs.filter (fun log => log.type == "medicine_taken")).length
  let missed := (todaysLogs.filter (fun log => log.type == "medicine_missed")).length
  let total := taken + missed
  let compliance :=
    if total > 0 then toString (compliancePercent taken total) ++ "%" else "N/A"
  match channelSend io guild
      { channel := "medicine-logs", kind := .dailySummary taken missed compliance } with
  | some (guild', _) => guild'
  | none => guild

/-- The state after a sequence of ticks of `processGuildReminders`, each with
the outcome of its external calls and its clock reading. -/
def runTicks (s : State) (ticks : List (Faults × Clock)) : State :=
  ticks.foldl (fun st t => (processGuildReminders t.1 t.2 st).1) s

/-! ## Sample data for the failure cases -/

/-- The data channel is down: every read and every write fails. -/
def storeDown : Faults :=
  { readFails := fun _ => true, writeFails := fun _ => true }

/-- Only the read of `logs.json` fails. -/
def logsUnreadable : Faults :=
  { readFails := fun f => f == "logs.json" }

/-- The target answers the reminder of `sampleDelivered` with the id of a
medicine that is not stored. -/
def sampleUnknownMedicine : State × Reply :=
  handleMedicineResponse noFaults 2000 sampleDelivered sampleTarget "taken" "med_9" "u1"
    (some sampleKey)

/-- The data of a second medicine for the target `u2`. -/
def sampleData : MedicineData :=
  { name := "Ibuprofen", dosage := "200mg", frequency := ["after_lunch"], inventory := 10,
    target_id := "u2", added_by := "t1" }

/-- Two `addMedicine` calls within the same millisecond. -/
def sampleAddedTwice : Guild :=
  applyAddCalls (sampleGuild 30)
    [{ io := noFaults, now := 5, medicineData := sampleData },
     { io := noFaults, now := 5, medicineData := sampleData }]

/-- The add-medicine form submitted by a tracker with the inventory text `-5`. -/
def sampleNegativeStock : Guild × Reply :=
  handleAddMedicineModal noFaults 5 (sampleGuild 30) (fun _ => true) sampleTracker
    "Ibuprofen" "200mg" "after_lunch" "-5" "<@u2>"

/-- The meal-times form submitted with a breakfast window that starts at the
text `99:99`. -/
def sampleBadRange : Guild × Reply :=
  handleMealTimesModal noFaults (sampleTick 5) sampleScheduled.guild (fun _ => true) sampleTracker
    "99:99-10:00" "12:00-14:00" "19:00-21:00" "Asia/Kolkata" "15"

/-- The meal-times form submitted with a breakfast window whose end precedes
its start. -/
def sampleReversedRange : Guild × Reply :=
  handleMealTimesModal noFaults (sampleTick 5) sampleScheduled.guild (fun _ => true) sampleTracker
    "10:00-07:00" "12:00-14:00" "19:00-21:00" "Asia/Kolkata" "15"

/-- The guild of `sampleScheduled` after the medicine of its slot was deleted
while the slot is still stored. -/
def sampleOrphanSlot : State :=
  { guild := { sampleScheduled.guild with medicines := { guild_id := some "g1" } } }

/-- A log entry of the given type written at the instant 4500000, which is
01:15 UTC on 1970-01-01. -/
def sampleEntry (type : String) : LogEntry :=
  { id := "4500000", timestamp := 4500000, guild_id := "g1", type := type, fields := [] }

/-- A guild whose log of the day holds 23 entries `medicine_taken`, 17 entries
`medicine_missed` and one entry of each variant type. -/
def sampleDayLog : Guild :=
  { sampleGuild 30 with
    logs :=
      { guild_id := some "g1"
        logs :=
          List.replicate 23 (sampleEntry "medicine_taken")
            ++ List.replicate 17 (sampleEntry "medicine_missed")
            ++ [sampleEntry "medicine_taken_verified", sampleEntry "medicine_taken_late",
                sampleEntry "medicine_taken_manual", sampleEntry "medicine_missed_manual",
                sampleEntry "medicine_missed_auto", sampleEntry "medicine_missed_confirmed"] } }

/-! ## Sample zones with clock changes -/

/-- The changes of America/New_York in 2025 and 2026: summer time (240 minutes
west) from 2025-03-09T07:00Z to 2025-11-02T06:00Z and from 2026-03-08T07:00Z to
2026-11-01T06:00Z, standard time (300 minutes west) otherwise. -/
def sampleNewYork : Zone :=
  { segments :=
      [(1741503600000, 300), (1762063200000, 240), (1772953200000, 300), (1793512800000, 240)]
    last := 300 }

/-- The changes of America/Nuuk in 2025 and 2026: summer time (60 minutes west)
from 2025-03-30T01:00Z to 2025-10-26T01:00Z and from 2026-03-29T01:00Z to
2026-10-25T01:00Z, standard time (120 minutes west) otherwise; the clocks go
from 23:00 to 00:00 in spring. -/
def sampleNuuk : Zone :=
  { segments :=
      [(1743296400000, 120), (1761440400000, 60), (1774746000000, 120), (1792890000000, 60)]
    last := 120 }

/-- The zone data of the samples. -/
def sampleZones (name : String) : Zone :=
  if name = "America/New_York" then sampleNewYork
  else if name = "America/Nuuk" then sampleNuuk
  else if name = "Asia/Kolkata" then { last := -330 }
  else { last := 0 }

/-- A reading of the clock of a server on UTC with the sample zone data and a
`moment-timezone` below 0.6.4. -/
def zonedClock (now : Nat) : Clock :=
  { now := now, localOffset := 0, zone := sampleZones, datesOnUtc := true }

/-- Settings of a tenant in America/New_York whose breakfast starts at 03:10,
with the advance of 15 minutes. -/
def sampleNewYorkSettings : Settings :=
  { defaultSettings with
    meal_times := [("breakfast", { start := "03:10", end_ := "04:00" })]
    timezone := "America/New_York" }

/-- Settings of a tenant in America/Nuuk whose breakfast starts at 00:10, with
the advance of 15 minutes. -/
def sampleNuukSettings : Settings :=
  { defaultSettings with
    meal_times := [("breakfast", { start := "00:10", end_ := "01:00" })]
    timezone := "America/Nuuk" }

/-- A slot with its `created_at` stamp and its reminder time blanked, for
comparing compilations made at clock readings of different dates. -/
def withoutTimes (slot : Schedule) : Schedule :=
  { slot with created_at := 0, reminder_time := none }

/-- A guild of a tenant in America/New_York that stores `sampleMedicine`. -/
def sampleNewYorkGuild : Guild :=
  { sampleGuild 30 with settings := sampleNewYorkSettings }

/-- A guild that stores two medicines with two tags each. -/
def sampleTwoMedicines : Guild :=
  { sampleGuild 30 with
    medicines :=
      { guild_id := some "g1"
        medicines :=
          [{ sampleMedicine 30 with frequency := ["before_breakfast", "after_lunch"] },
           { sampleMedicine 30 with
             id := "med_2", name := "Ibuprofen", frequency := ["before_breakfast", "after_dinner"] }] } }

/-- A guild whose stored slot reminds at 00:30 in Asia/Kolkata. -/
def sampleEarlySlot : Guild :=
  { sampleGuild 30 with
    schedules :=
      { guild_id := some "g1"
        schedules := [{ sampleSchedule with reminder_time := some "00:30" }] } }

/-- A manager in a guild with ids of the size Discord gives (18 digits) and a
medicine id of the form `addMedicine` generates. -/
def sampleDiscordIds : State :=
  { guild :=
      { id := "112233445566778899"
        medicines :=
          { guild_id := some "112233445566778899"
            medicines :=
              [{ sampleMedicine 30 with id := "med_1772971200000", target_id := "998877665544332211" }] }
        settings := defaultSettings } }

/-- The slot of the medicine of `sampleDiscordIds` for `before_breakfast`. -/
def sampleDiscordSlot : Schedule :=
  { sampleSchedule with
    id := "sched_med_1772971200000_before_breakfast", medicine_id := "med_1772971200000",
    target_id := "998877665544332211" }
/-! ## Lemmas on the string helpers -/

theorem startsWith_append (p x : String) : startsWith (p ++ x) p = true := by
  simp [startsWith, String.data_append]

theorem replaceFirstChars_of_append (p x : List Char) (hp : p ≠ []) :
    replaceFirstChars p [] (p ++ x) = x := by
  cases p with
  | nil => exact absurd rfl hp
  | cons c cs => simp [replaceFirstChars]

theorem replaceFirst_of_append (p x : String) (hp : p.data ≠ []) :
    replaceFirst (p ++ x) p "" = x := by
  simp [replaceFirst, String.data_append, replaceFirstChars_of_append _ _ hp]

theorem splitFrequency_before (x : String) :
    splitFrequency ("before_" ++ x) = some ("before", x) := by
  have h := replaceFirst_of_append "before_" x (by decide)
  simp [splitFrequency, startsWith_append, h]

theorem splitFrequency_after (x : String) :
    splitFrequency ("after_" ++ x) = some ("after", x) := by
  have h := replaceFirst_of_append "after_" x (by decide)
  have hb : startsWith ("after_" ++ x) "before_" = false := by
    simp [startsWith, String.data_append, List.isPrefixOf]
  simp [splitFrequency, startsWith_append, h, hb]

theorem digit_isDigit (d : Nat) (h : d < 10) : (Char.ofNat (48 + d)).isDigit = true := by
  interval_cases d <;> decide

theorem digit_toNat (d : Nat) (h : d < 10) : (Char.ofNat (48 + d)).toNat - 48 = d := by
  interval_cases d <;> decide

theorem parseHHmm_pad2 (h m : Nat) (hh : h < 100) (hm : m < 100) :
    parseHHmm (pad2 h ++ ":" ++ pad2 m) = validHourMinute h m := by
  have h1 : h / 10 % 10 < 10 := Nat.mod_lt _ (by decide)
  have h2 : h % 10 < 10 := Nat.mod_lt _ (by decide)
  have m1 : m / 10 % 10 < 10 := Nat.mod_lt _ (by decide)
  have m2 : m % 10 < 10 := Nat.mod_lt _ (by decide)
  have eh : h / 10 % 10 * 10 + h % 10 = h := by omega
  have em : m / 10 % 10 * 10 + m % 10 = m := by omega
  simp [parseHHmm, pad2, String.data_append, matchDigits1to2, skipColon,
    digit_isDigit _ h1, digit_isDigit _ h2, digit_isDigit _ m1, digit_isDigit _ m2,
    digit_toNat _ h1, digit_toNat _ h2, digit_toNat _ m1, digit_toNat _ m2, eh, em]

theorem parseHHmm_formatHHmm (t : Nat) (ht : t < 1440) : parseHHmm (formatHHmm t) = some t := by
  have e : t % 1440 = t := Nat.mod_eq_of_lt ht
  have hh : t / 60 < 24 := by omega
  have hm : t % 60 < 60 := Nat.mod_lt _ (by decide)
  rw [formatHHmm, e, parseHHmm_pad2 _ _ (by omega) (by omega)]
  have : t / 60 * 60 + t % 60 = t := by omega
  simp [validHourMinute, this]
  omega


/-! ## Lemmas on the file manager -/

theorem take_cons_take {α : Type} (a : α) (l : List α) (n : Nat) :
    (a :: l.take (n + 1)).take (n + 1) = (a :: l).take (n + 1) := by
  simp [List.take_succ_cons, List.take_take]

theorem cap_eq_take {α : Type} (l : List α) :
    (if l.length > 1000 then l.take 1000 else l) = l.take 1000 := by
  split
  · rfl
  · rw [List.take_of_length_le (by omega)]

theorem sendToLogChannel_medicines (io : Faults) (g : Guild) (e : LogEntry) :
    (sendToLogChannel io g e).medicines = g.medicines := by
  simp only [sendToLogChannel, channelSend]
  split_ifs <;> rfl

theorem sendToLogChannel_logs (io : Faults) (g : Guild) (e : LogEntry) :
    (sendToLogChannel io g e).logs = g.logs := by
  simp only [sendToLogChannel, channelSend]
  split_ifs <;> rfl

theorem sendToLogChannel_id (io : Faults) (g : Guild) (e : LogEntry) :
    (sendToLogChannel io g e).id = g.id := by
  simp only [sendToLogChannel, channelSend]
  split_ifs <;> rfl

theorem logActivity_medicines (io : Faults) (now : Nat) (g : Guild) (a : Activity) :
    (logActivity io now g a).1.medicines = g.medicines := by
  simp only [logActivity, writeLogs]
  split_ifs <;> simp [sendToLogChannel_medicines]

theorem logActivity_id (io : Faults) (now : Nat) (g : Guild) (a : Activity) :
    (logActivity io now g a).1.id = g.id := by
  simp only [logActivity, writeLogs]
  split_ifs <;> simp [sendToLogChannel_id]

theorem logActivity_logs (now : Nat) (g : Guild) (a : Activity) :
    (logActivity noFaults now g a).1.logs.logs
      = ({ id := toString now, timestamp := now, guild_id := g.id, type := a.type,
           fields := a.fields } :: g.logs.logs).take 1000 := by
  simp only [logActivity, writeLogs, readLogs, noFaults, cap_eq_take]
  split_ifs <;> simp_all [sendToLogChannel_logs]

theorem logTypes_logActivity (now : Nat) (g : Guild) (a : Activity) :
    logTypes (logActivity noFaults now g a).1 = (a.type :: logTypes g).take 1000 := by
  simp [logTypes, logActivity_logs, List.map_take]


/-! ## Lemmas on the medicine manager -/

theorem findIndex_of_find? {α : Type} (p : α → Bool) (l : List α) (a : α)
    (h : l.find? p = some a) :
    ∃ i, findIndex p l = some i ∧ l[i]? = some a := by
  induction l with
  | nil => simp at h
  | cons x xs ih =>
    by_cases hx : p x = true
    · refine ⟨0, ?_, ?_⟩
      · simp [findIndex, hx]
      · simpa [List.find?, hx] using h
    · have hxs : xs.find? p = some a := by simpa [List.find?, hx] using h
      obtain ⟨i, hi, hg⟩ := ih hxs
      exact ⟨i + 1, by simp [findIndex, hx, hi], by simpa using hg⟩

theorem find?_set_findIndex {α : Type} (p : α → Bool) (l : List α) (i : Nat) (b : α)
    (h : findIndex p l = some i) (hb : p b = true) : (l.set i b).find? p = some b := by
  induction l generalizing i with
  | nil => simp [findIndex] at h
  | cons x xs ih =>
    by_cases hx : p x = true
    · simp [findIndex, hx] at h
      subst h
      simp [List.find?, hb]
    · simp only [findIndex, hx] at h
      cases hi : findIndex p xs with
      | none => simp [hi] at h
      | some j =>
        simp [hi] at h
        subst h
        simp [List.find?, hx, ih j hi]

theorem find?_set_other {α : Type} (q : α → Bool) (l : List α) (i : Nat) (a b : α)
    (hg : l[i]? = some a) (ha : q a = false) (hb : q b = false) :
    (l.set i b).find? q = l.find? q := by
  induction l generalizing i with
  | nil => simp at hg
  | cons x xs ih =>
    cases i with
    | zero =>
      simp at hg
      subst hg
      simp [List.find?, ha, hb]
    | succ j =>
      simp at hg
      simp [List.find?, ih j hg]

theorem mergeUpdates_id (now : Nat) (m : Medicine) (u : MedicineUpdates) :
    (mergeUpdates now m u).id = m.id := rfl

/-- With a working store, `updateMedicine` on a stored medicine replaces it in
place, logs `medicine_updated` and reports success. -/
theorem updateMedicine_stored (now : Nat) (g : Guild) (medicineId : String)
    (u : MedicineUpdates) (old : Medicine)
    (h : getMedicineById noFaults g medicineId = some old) :
    ∃ i, findIndex (fun med => med.id == medicineId) g.medicines.medicines = some i
      ∧ g.medicines.medicines[i]? = some old
      ∧ (updateMedicine noFaults now g medicineId u).2 = true
      ∧ (updateMedicine noFaults now g medicineId u).1.medicines.medicines
          = g.medicines.medicines.set i (mergeUpdates now old u)
      ∧ (updateMedicine noFaults now g medicineId u).1.id = g.id
      ∧ logTypes (updateMedicine noFaults now g medicineId u).1
          = ("medicine_updated" :: logTypes g).take 1000 := by
  have h' : g.medicines.medicines.find? (fun med => med.id == medicineId) = some old := by
    simpa [getMedicineById, getMedicines, readMedicines, noFaults] using h
  obtain ⟨i, hi, hg⟩ := findIndex_of_find? _ _ _ h'
  refine ⟨i, hi, hg, ?_, ?_, ?_, ?_⟩ <;>
    simp [updateMedicine, readMedicines, writeMedicines, noFaults, hi, hg,
      logActivity_medicines, logActivity_id]
  · have := logTypes_logActivity
    simp only [noFaults] at this
    rw [this]
    simp [logTypes]


theorem numOr_zero (a : Int) : numOr a 0 = a := by
  unfold numOr
  split <;> simp_all

/-- With a working store, `updateInventory` on a stored medicine replaces it in
place by the medicine with the clamped count, logs `medicine_updated` and then,
for a count from 1 to 5, `inventory_low`, and reports success. -/
theorem updateInventory_stored (now : Nat) (g : Guild) (medicineId : String) (change : Int)
    (updatedBy : String) (medicine : Medicine)
    (h : getMedicineById noFaults g medicineId = some medicine) :
    ∃ i, findIndex (fun med => med.id == medicineId) g.medicines.medicines = some i
      ∧ g.medicines.medicines[i]? = some medicine
      ∧ (updateInventory noFaults now g medicineId change updatedBy).2 = true
      ∧ (updateInventory noFaults now g medicineId change updatedBy).1.medicines.medicines
          = g.medicines.medicines.set i
              { medicine with
                inventory := max 0 (medicine.inventory + change)
                updated_by := some updatedBy
                updated_at := some now }
      ∧ (updateInventory noFaults now g medicineId change updatedBy).1.id = g.id
      ∧ logTypes (updateInventory noFaults now g medicineId change updatedBy).1
          = (inventoryLogTypes (max 0 (medicine.inventory + change)) ++ logTypes g).take 1000 := by
  obtain ⟨i, hi, hg, h2, hm, hid, hl⟩ := updateMedicine_stored now g medicineId
    { inventory := some (max 0 (medicine.inventory + change)), updated_by := some updatedBy }
    medicine h
  refine ⟨i, hi, hg, ?_, ?_, ?_, ?_⟩
  · simp [updateInventory, h, numOr_zero, h2]
  · simp only [updateInventory, h, numOr_zero]
    split_ifs
    · simp only [logActivity_medicines, hm]
      rfl
    · simp only [hm]
      rfl
  · simp only [updateInventory, h, numOr_zero]
    split_ifs
    · simp only [logActivity_id, hid]
    · simp only [hid]
  · simp only [updateInventory, h, numOr_zero, inventoryLogTypes]
    split_ifs
    · simp only [logTypes_logActivity, hl]
      simp [List.take_take]
    · simp only [hl]
      simp

theorem getMedicineById_eq (g : Guild) (medicineId : String) :
    getMedicineById noFaults g medicineId
      = g.medicines.medicines.find? (fun med => med.id == medicineId) := by
  simp [getMedicineById, getMedicines, readMedicines, noFaults]

theorem getMedicineById_id (g : Guild) (medicineId : String) (medicine : Medicine)
    (h : getMedicineById noFaults g medicineId = some medicine) : medicine.id = medicineId := by
  rw [getMedicineById_eq] at h
  have := List.find?_some h
  simpa using this


/-! ## Lemmas on the maps of the notification manager -/

theorem mapHas_mapDelete_self {β : Type} (m : List (String × β)) (k : String) :
    mapHas (mapDelete m k) k = false := by
  simp [mapHas, mapDelete]

theorem mapDelete_of_not_has {β : Type} (m : List (String × β)) (k : String)
    (h : mapHas m k = false) : mapDelete m k = m := by
  simp only [mapHas, List.any_eq_false] at h
  simp only [mapDelete, List.filter_eq_self]
  intro e he
  simpa using h e he

theorem mapHas_mapSet {β : Type} (m : List (String × β)) (k k' : String) (v : β) :
    mapHas (mapSet m k v) k' = (decide (k = k') || mapHas m k') := by
  unfold mapSet
  by_cases hk : mapHas m k = true
  · simp only [hk, if_true]
    by_cases e : k = k'
    · subst e
      simp only [decide_True, Bool.true_or]
      simp only [mapHas, List.any_eq_true] at hk ⊢
      obtain ⟨x, hx, hxk⟩ := hk
      refine ⟨(k, v), ?_, by simp⟩
      simp only [List.mem_map]
      exact ⟨x, hx, by simp [hxk]⟩
    · simp only [e, decide_False, Bool.false_or]
      simp only [mapHas, List.any_map]
      congr 1
      funext x
      by_cases hx : x.1 = k
      · simp [hx, e]
      · simp [hx]
  · simp only [hk]
    simp only [Bool.not_eq_true] at hk
    simp [mapHas, List.any_append, Bool.or_comm] at hk ⊢
    by_cases e : k = k' <;> simp [e]

theorem mem_mapSet {β : Type} (m : List (String × β)) (k : String) (v : β) (e : String × β)
    (he : e ∈ mapSet m k v) : e ∈ m ∨ e = (k, v) := by
  unfold mapSet at he
  split at he
  · simp only [List.mem_map] at he
    obtain ⟨x, hx, hxe⟩ := he
    split at hxe
    · exact Or.inr hxe.symm
    · exact Or.inl (hxe ▸ hx)
  · simpa using he

theorem mapHas_eq_true_iff {β : Type} (m : List (String × β)) (k : String) :
    mapHas m k = true ↔ ∃ e ∈ m, e.1 = k := by
  simp [mapHas]

/-! ## Frame lemmas of the notification manager -/

theorem cancelMissedTimeout_guild (s : State) (k : Option String) :
    (cancelMissedTimeout s k).guild = s.guild := by
  unfold cancelMissedTimeout
  split
  · rfl
  · split
    · split <;> rfl
    · rfl

theorem cancelMissedTimeout_of_not_has (s : State) (k : String)
    (h : mapHas s.reminderTimeouts k = false) : cancelMissedTimeout s (some k) = s := by
  simp [cancelMissedTimeout, h]

theorem cancelMissedTimeout_has (s : State) (k : String) (hk : k ≠ "") :
    mapHas (cancelMissedTimeout s (some k)).reminderTimeouts k = false := by
  by_cases h : mapHas s.reminderTimeouts k = true
  · obtain ⟨e, he, hek⟩ := (mapHas_eq_true_iff _ _).1 h
    have hget : ∃ d, mapGet s.reminderTimeouts k = some d := by
      unfold mapGet
      cases hf : s.reminderTimeouts.find? (fun e => e.1 == k) with
      | none =>
        rw [List.find?_eq_none] at hf
        exact absurd (by simpa using hek) (hf e he)
      | some x => exact ⟨x.2, rfl⟩
    obtain ⟨d, hd⟩ := hget
    simp [cancelMissedTimeout, h, hk, hd, mapHas_mapDelete_self]
  · simp only [Bool.not_eq_true] at h
    rw [cancelMissedTimeout_of_not_has s k h]
    exact h

theorem messageEdit_medicines (g : Guild) (i : Nat) (k : MessageKind) :
    (messageEdit g i k).medicines = g.medicines := rfl

theorem messageEdit_logs (g : Guild) (i : Nat) (k : MessageKind) :
    (messageEdit g i k).logs = g.logs := rfl

theorem messageEdit_id (g : Guild) (i : Nat) (k : MessageKind) :
    (messageEdit g i k).id = g.id := rfl

theorem notifyTrackersOfMissedDose_medicines (io : Faults) (now : Nat) (g : Guild)
    (m : Medicine) (t : String) :
    (notifyTrackersOfMissedDose io now g m t).medicines = g.medicines := by
  simp only [notifyTrackersOfMissedDose, channelSend]
  split_ifs <;> rfl

theorem notifyTrackersOfMissedDose_logs (io : Faults) (now : Nat) (g : Guild)
    (m : Medicine) (t : String) :
    (notifyTrackersOfMissedDose io now g m t).logs = g.logs := by
  simp only [notifyTrackersOfMissedDose, channelSend]
  split_ifs <;> rfl

theorem notifyTrackersOfMissedDose_id (io : Faults) (now : Nat) (g : Guild)
    (m : Medicine) (t : String) :
    (notifyTrackersOfMissedDose io now g m t).id = g.id := by
  simp only [notifyTrackersOfMissedDose, channelSend]
  split_ifs <;> rfl

theorem logTypes_congr (g g' : Guild) (h : g'.logs = g.logs) : logTypes g' = logTypes g := by
  simp [logTypes, h]

theorem inventoryOf_congr (g g' : Guild) (h : g'.medicines = g.medicines) (id : String) :
    inventoryOf g' id = inventoryOf g id := by
  simp [inventoryOf, getMedicineById_eq, h]

theorem take_append_take {α : Type} (a l : List α) (n : Nat) :
    (a ++ l.take n).take n = (a ++ l).take n := by
  simp only [List.take_append_eq_append_take, List.take_take]
  congr 2
  omega


/-! ## Schedule derivation -/

/-! ### Zones without clock changes -/

theorem isFixed_of_no_segments (c : Int) : Zone.isFixed { last := c } c := by
  intro t
  exact ⟨rfl, rfl⟩

theorem fixedClock_isFixed (now : Nat) (offset : Int) (datesOnUtc : Bool) (zone : String) :
    ((fixedClock now offset datesOnUtc).zone zone).isFixed (-offset) :=
  isFixed_of_no_segments (-offset)

theorem momentTz_fixed (clk : Clock) (input : Option String) (zone : String) (c : Int) (t : Nat)
    (hfixed : (clk.zone zone).isFixed c) (ht : momentHHmm input = some t) :
    momentTz clk input zone
      = some (clk.parseDay zone * 86400000 + (t : Int) * 60000 + c * 60000) := by
  simp only [momentTz, ht, (hfixed _).2]

/-- In a zone without clock changes the subtraction works on the time of day
alone, modulo 24 hours, whatever the date. -/
theorem subtractMinutesFormat_fixed (clk : Clock) (input : Option String) (zone : String)
    (c : Int) (t : Nat) (minutes : Int)
    (hfixed : (clk.zone zone).isFixed c) (ht : momentHHmm input = some t) :
    subtractMinutesFormat clk input zone minutes
      = formatHHmm (((t : Int) - minutes) % 1440).toNat := by
  simp only [subtractMinutesFormat, momentTz_fixed clk input zone c t hfixed ht, (hfixed _).1]
  congr 2
  omega

/-- The text `subtractMinutesFormat` gives for a valid moment is a time of day. -/
theorem subtractMinutesFormat_valid (clk : Clock) (input : Option String) (zone : String)
    (t : Nat) (minutes : Int) (ht : momentHHmm input = some t) :
    ∃ r, r < 1440 ∧ subtractMinutesFormat clk input zone minutes = formatHHmm r := by
  simp only [subtractMinutesFormat, momentTz, ht]
  refine ⟨_, ?_, rfl⟩
  omega

/-- For a `before_` tag whose meal is an own entry of the settings with a valid
start time, in a zone without clock changes, the slot reminds at the start minus
the advance the code uses, `reminder_advance_minutes || 15`, modulo 24 hours. -/
theorem createScheduleFromFrequency_before_numOr (clk : Clock) (medicine : Medicine)
    (mealName : String) (settings : Settings) (w : MealWindow) (t : Nat) (c : Int)
    (hfixed : (clk.zone (strOr settings.timezone "Asia/Kolkata")).isFixed c)
    (hw : getProp settings.meal_times mealName = .own w) (ht : t < 1440)
    (hs : w.start = formatHHmm t) :
    ∃ slot, createScheduleFromFrequency clk medicine ("before_" ++ mealName) settings = some slot
      ∧ slot.reminder_time
          = some (formatHHmm
              (((t : Int) - numOr settings.reminder_advance_minutes 15) % 1440).toNat) := by
  have hm : momentHHmm (some w.start) = some t := by
    simp [momentHHmm, hs, parseHHmm_formatHHmm t ht]
  simp [createScheduleFromFrequency, splitFrequency_before, hw, JsProp.start,
    subtractMinutesFormat_fixed clk (some w.start) _ c t _ hfixed hm]

/-- For a `before_` tag whose meal is an own entry of the settings with a valid
start time, in a zone without clock changes, and an advance other than 0, the
slot reminds at the start minus the advance, modulo 24 hours. -/
theorem createScheduleFromFrequency_before (clk : Clock) (medicine : Medicine)
    (mealName : String) (settings : Settings) (w : MealWindow) (t : Nat) (c : Int)
    (hfixed : (clk.zone (strOr settings.timezone "Asia/Kolkata")).isFixed c)
    (hw : getProp settings.meal_times mealName = .own w) (ht : t < 1440)
    (hs : w.start = formatHHmm t) (ha : settings.reminder_advance_minutes ≠ 0) :
    ∃ slot, createScheduleFromFrequency clk medicine ("before_" ++ mealName) settings = some slot
      ∧ slot.reminder_time
          = some (formatHHmm (((t : Int) - settings.reminder_advance_minutes) % 1440).toNat) := by
  obtain ⟨slot, hslot, htime⟩ :=
    createScheduleFromFrequency_before_numOr clk medicine mealName settings w t c hfixed hw ht hs
  exact ⟨slot, hslot, by simpa [numOr, ha] using htime⟩

/-- C1, at the failing input: with `reminder_advance_minutes` set to 0, breakfast
starting at 07:00 and the tag `before_breakfast`, at every reading of a clock
without clock changes the slot reminds at 06:45, the start minus 15 minutes,
whereas the start minus the configured 0 minutes is 07:00. -/
theorem createScheduleFromFrequency_before_advance_zero (now : Nat) (offset : Int)
    (datesOnUtc : Bool) (medicine : Medicine) :
    (createScheduleFromFrequency (fixedClock now offset datesOnUtc) medicine "before_breakfast"
        { defaultSettings with reminder_advance_minutes := 0 }).map (fun slot => slot.reminder_time)
      = some (some "06:45")
    ∧ formatHHmm (((420 : Int) - 0) % 1440).toNat = "07:00" := by
  refine ⟨?_, rfl⟩
  obtain ⟨slot, hslot, htime⟩ :=
    createScheduleFromFrequency_before_numOr (fixedClock now offset datesOnUtc) medicine
      "breakfast" { defaultSettings with reminder_advance_minutes := 0 }
      { start := "07:00", end_ := "10:00" } 420 (-offset) (fixedClock_isFixed _ _ _ _)
      (by decide) (by decide) (by decide)
  have hname : "before_" ++ "breakfast" = "before_breakfast" := by decide
  rw [hname] at hslot
  rw [hslot, Option.map_some', htime]
  rfl

/-- C2: for an `after_` tag whose meal is an entry of the settings, the slot
reminds exactly at the configured end of the meal window, whatever the start of
the window and the advance minutes are. -/
theorem createScheduleFromFrequency_after (clk : Clock) (medicine : Medicine) (mealName : String)
    (settings : Settings) (w : MealWindow)
    (hw : getProp settings.meal_times mealName = .own w) :
    ∃ slot, createScheduleFromFrequency clk medicine ("after_" ++ mealName) settings = some slot
      ∧ slot.reminder_time = some w.end_ := by
  simp [createScheduleFromFrequency, splitFrequency_after, hw, JsProp.end_]

theorem createScheduleFromFrequency_after_witness :
    getProp defaultSettings.meal_times "lunch" = .own { start := "12:00", end_ := "14:00" }
    ∧ ∃ slot, createScheduleFromFrequency (sampleTick 0)
          { id := "med_1", created_at := 0, name := "Aspirin", dosage := "100mg",
            frequency := ["after_lunch"], inventory := 30, target_id := "u1", added_by := "t1" }
          ("after_" ++ "lunch") defaultSettings = some slot
        ∧ slot.reminder_time = some "14:00" :=
  ⟨by decide, createScheduleFromFrequency_after (sampleTick 0) _ "lunch" defaultSettings
    { start := "12:00", end_ := "14:00" } (by decide)⟩


/-! ## Inventory ledger -/

theorem readMedicines_nonneg (io : Faults) (g : Guild)
    (hall : ∀ m ∈ g.medicines.medicines, 0 ≤ m.inventory) :
    ∀ m ∈ (readMedicines io g).medicines, 0 ≤ m.inventory := by
  unfold readMedicines
  split
  · intro m hm
    simp at hm
  · exact hall

theorem updateMedicine_nonneg (io : Faults) (now : Nat) (g : Guild) (medicineId : String)
    (u : MedicineUpdates) (hu : ∀ x, u.inventory = some x → 0 ≤ x)
    (hall : ∀ m ∈ g.medicines.medicines, 0 ≤ m.inventory) :
    ∀ m ∈ (updateMedicine io now g medicineId u).1.medicines.medicines, 0 ≤ m.inventory := by
  have hread := readMedicines_nonneg io g hall
  unfold updateMedicine
  simp only
  split
  · exact hall
  · split
    · exact hall
    · rename_i i _ old hold
      have hmem : old ∈ (readMedicines io g).medicines := List.mem_iff_getElem?.2 ⟨_, hold⟩
      have hnew : 0 ≤ (mergeUpdates now old u).inventory := by
        cases hi : u.inventory with
        | none => simpa [mergeUpdates, hi] using hread old hmem
        | some x => simpa [mergeUpdates, hi] using hu x hi
      by_cases hw : io.writeFails "medicines.json" = true
      · simpa [writeMedicines, hw] using hall
      · simp only [Bool.not_eq_true] at hw
        simp only [writeMedicines, hw, Bool.false_eq_true, if_false, if_true,
          logActivity_medicines]
        intro m hm
        rcases List.mem_or_eq_of_mem_set hm with hm' | hm'
        · exact hread m hm'
        · subst hm'
          exact hnew

theorem updateInventory_nonneg (io : Faults) (now : Nat) (g : Guild) (medicineId : String)
    (change : Int) (updatedBy : String)
    (hall : ∀ m ∈ g.medicines.medicines, 0 ≤ m.inventory) :
    ∀ m ∈ (updateInventory io now g medicineId change updatedBy).1.medicines.medicines,
      0 ≤ m.inventory := by
  unfold updateInventory
  split
  · exact hall
  · rename_i medicine _
    have hu := updateMedicine_nonneg io now g medicineId
      { inventory := some (max 0 (numOr medicine.inventory 0 + change)),
        updated_by := some updatedBy }
      (by intro x hx; simp at hx; subst hx; exact le_max_left _ _) hall
    simp only
    split_ifs
    · simpa only [logActivity_medicines] using hu
    · exact hu

theorem applyInventoryCalls_nonneg (calls : List InventoryCall) (g : Guild)
    (hall : ∀ m ∈ g.medicines.medicines, 0 ≤ m.inventory) :
    ∀ m ∈ (applyInventoryCalls g calls).medicines.medicines, 0 ≤ m.inventory := by
  induction calls generalizing g with
  | nil => exact hall
  | cons c cs ih =>
    exact ih _ (updateInventory_nonneg c.io c.now g c.medicineId c.change c.updatedBy hall)

theorem inventoryOf_updateInventory (now : Nat) (g : Guild) (medicineId : String) (change : Int)
    (updatedBy : String) (medicine : Medicine)
    (h : getMedicineById noFaults g medicineId = some medicine) :
    getMedicineById noFaults (updateInventory noFaults now g medicineId change updatedBy).1
        medicineId
      = some { medicine with
               inventory := max 0 (medicine.inventory + change)
               updated_by := some updatedBy
               updated_at := some now } := by
  obtain ⟨i, hi, _, _, hm, _, _⟩ :=
    updateInventory_stored now g medicineId change updatedBy medicine h
  rw [getMedicineById_eq, hm]
  apply find?_set_findIndex _ _ _ _ hi
  simpa using getMedicineById_id g medicineId medicine h

/-- C9: with a working store, `updateInventory` stores the count
`max(0, n + change)` for a stored medicine with count `n`; and when every
stored count is at least 0, every stored count is still at least 0 after any
sequence of `updateInventory` calls, whatever the outcome of their reads and
writes. -/
theorem updateInventory_floor (g : Guild)
    (hall : ∀ m ∈ g.medicines.medicines, 0 ≤ m.inventory) :
    (∀ (now : Nat) (medicineId : String) (change : Int) (updatedBy : String)
        (medicine : Medicine),
        getMedicineById noFaults g medicineId = some medicine →
        inventoryOf (updateInventory noFaults now g medicineId change updatedBy).1 medicineId
          = some (max 0 (medicine.inventory + change)))
    ∧ ∀ calls : List InventoryCall,
        ∀ m ∈ (applyInventoryCalls g calls).medicines.medicines, 0 ≤ m.inventory := by
  refine ⟨?_, fun calls => applyInventoryCalls_nonneg calls g hall⟩
  intro now medicineId change updatedBy medicine h
  simp [inventoryOf, inventoryOf_updateInventory now g medicineId change updatedBy medicine h]

/-- C10: with a working store, one call of `updateInventory` on a stored
medicine logs `medicine_updated` and, exactly when the new count is from 1 to
5, one `inventory_low` entry on top of it: one for 6 to 5 and for 5 to 4, none
for 7 to 6, 1 to 0 and 0 to 0. -/
theorem updateInventory_low_stock (now : Nat) (g : Guild) (medicineId : String) (change : Int)
    (updatedBy : String) (medicine : Medicine)
    (h : getMedicineById noFaults g medicineId = some medicine) :
    logTypes (updateInventory noFaults now g medicineId change updatedBy).1
        = (inventoryLogTypes (max 0 (medicine.inventory + change)) ++ logTypes g).take 1000
    ∧ (inventoryLogTypes (max 0 (medicine.inventory + change))).count "inventory_low"
        = (if 0 < max 0 (medicine.inventory + change) ∧ max 0 (medicine.inventory + change) ≤ 5
            then 1 else 0)
    ∧ (inventoryLogTypes (max 0 (6 + -1))).count "inventory_low" = 1
    ∧ (inventoryLogTypes (max 0 (5 + -1))).count "inventory_low" = 1
    ∧ (inventoryLogTypes (max 0 (7 + -1))).count "inventory_low" = 0
    ∧ (inventoryLogTypes (max 0 (1 + -1))).count "inventory_low" = 0
    ∧ (inventoryLogTypes (max 0 (0 + -1))).count "inventory_low" = 0 := by
  obtain ⟨i, _, _, _, _, _, hl⟩ :=
    updateInventory_stored now g medicineId change updatedBy medicine h
  refine ⟨hl, ?_, by decide, by decide, by decide, by decide, by decide⟩
  unfold inventoryLogTypes
  split_ifs with h1 h2 h2
  · rfl
  · exact absurd ⟨h1.2, h1.1⟩ h2
  · exact absurd ⟨h2.2, h2.1⟩ h1
  · rfl


theorem updateInventory_floor_witness :
    (∀ m ∈ (sampleGuild 1).medicines.medicines, 0 ≤ m.inventory)
    ∧ (∀ (now : Nat) (medicineId : String) (change : Int) (updatedBy : String)
        (medicine : Medicine),
        getMedicineById noFaults (sampleGuild 1) medicineId = some medicine →
        inventoryOf (updateInventory noFaults now (sampleGuild 1) medicineId change updatedBy).1
            medicineId
          = some (max 0 (medicine.inventory + change)))
    ∧ ∀ calls : List InventoryCall,
        ∀ m ∈ (applyInventoryCalls (sampleGuild 1) calls).medicines.medicines, 0 ≤ m.inventory :=
  ⟨by decide, updateInventory_floor (sampleGuild 1) (by decide)⟩

theorem updateInventory_low_stock_witness :
    getMedicineById noFaults (sampleGuild 6) "med_1" = some (sampleMedicine 6)
    ∧ logTypes (updateInventory noFaults 0 (sampleGuild 6) "med_1" (-1) "u1").1
        = (inventoryLogTypes (max 0 ((sampleMedicine 6).inventory + -1))
            ++ logTypes (sampleGuild 6)).take 1000
    ∧ (inventoryLogTypes (max 0 ((sampleMedicine 6).inventory + -1))).count "inventory_low"
        = (if 0 < max 0 ((sampleMedicine 6).inventory + -1)
              ∧ max 0 ((sampleMedicine 6).inventory + -1) ≤ 5
            then 1 else 0)
    ∧ (inventoryLogTypes (max 0 (6 + -1))).count "inventory_low" = 1
    ∧ (inventoryLogTypes (max 0 (5 + -1))).count "inventory_low" = 1
    ∧ (inventoryLogTypes (max 0 (7 + -1))).count "inventory_low" = 0
    ∧ (inventoryLogTypes (max 0 (1 + -1))).count "inventory_low" = 0
    ∧ (inventoryLogTypes (max 0 (0 + -1))).count "inventory_low" = 0 :=
  ⟨by decide, updateInventory_low_stock 0 (sampleGuild 6) "med_1" (-1) "u1" (sampleMedicine 6)
    (by decide)⟩

/-! ## Responses and verifications -/

/-- The `taken` effects: `updateInventory` by -1 followed by one log entry. -/
theorem taken_effects (now : Nat) (g : Guild) (medicineId updatedBy : String)
    (medicine : Medicine) (a : Activity)
    (h : getMedicineById noFaults g medicineId = some medicine) :
    getMedicineById noFaults
        (logActivity noFaults now (updateInventory noFaults now g medicineId (-1) updatedBy).1 a).1
        medicineId
      = some { medicine with
               inventory := max 0 (medicine.inventory - 1)
               updated_by := some updatedBy
               updated_at := some now }
    ∧ logTypes
        (logActivity noFaults now (updateInventory noFaults now g medicineId (-1) updatedBy).1 a).1
      = (a.type :: inventoryLogTypes (max 0 (medicine.inventory - 1)) ++ logTypes g).take 1000 := by
  constructor
  · rw [getMedicineById_eq, logActivity_medicines, ← getMedicineById_eq,
      inventoryOf_updateInventory now g medicineId (-1) updatedBy medicine h]
    rfl
  · obtain ⟨i, _, _, _, _, _, hl⟩ :=
      updateInventory_stored now g medicineId (-1) updatedBy medicine h
    rw [logTypes_logActivity, hl]
    have := take_append_take [a.type]
      (inventoryLogTypes (max 0 (medicine.inventory + -1)) ++ logTypes g) 1000
    simpa [Int.sub_eq_add_neg] using this


/-- C4: with a working store, `handleMedicineResponse` called by the target for
a stored medicine with count `n` stores the count `max(0, n - 1)` and logs
`medicine_taken` for the action `taken`, and leaves the medicines as they are
and logs `medicine_missed_manual` for `missed` and `medicine_snoozed` for
`snooze`. -/
theorem handleMedicineResponse_effects (now : Nat) (s : State) (interaction : Interaction)
    (medicineId targetId : String) (reminderKey : Option String) (medicine : Medicine)
    (hcaller : interaction.user_id = targetId)
    (hstored : getMedicineById noFaults s.guild medicineId = some medicine) :
    (inventoryOf
          (handleMedicineResponse noFaults now s interaction "taken" medicineId targetId
            reminderKey).1.guild medicineId
        = some (max 0 (medicine.inventory - 1))
      ∧ logTypes
          (handleMedicineResponse noFaults now s interaction "taken" medicineId targetId
            reminderKey).1.guild
        = ("medicine_taken" :: inventoryLogTypes (max 0 (medicine.inventory - 1))
            ++ logTypes s.guild).take 1000)
    ∧ ((handleMedicineResponse noFaults now s interaction "missed" medicineId targetId
            reminderKey).1.guild.medicines = s.guild.medicines
      ∧ inventoryOf
          (handleMedicineResponse noFaults now s interaction "missed" medicineId targetId
            reminderKey).1.guild medicineId
        = some medicine.inventory
      ∧ logTypes
          (handleMedicineResponse noFaults now s interaction "missed" medicineId targetId
            reminderKey).1.guild
        = ("medicine_missed_manual" :: logTypes s.guild).take 1000)
    ∧ ((handleMedicineResponse noFaults now s interaction "snooze" medicineId targetId
            reminderKey).1.guild.medicines = s.guild.medicines
      ∧ inventoryOf
          (handleMedicineResponse noFaults now s interaction "snooze" medicineId targetId
            reminderKey).1.guild medicineId
        = some medicine.inventory
      ∧ logTypes
          (handleMedicineResponse noFaults now s interaction "snooze" medicineId targetId
            reminderKey).1.guild
        = ("medicine_snoozed" :: logTypes s.guild).take 1000) := by
  have hinv : inventoryOf s.guild medicineId = some medicine.inventory := by
    simp [inventoryOf, hstored]
  have hg := cancelMissedTimeout_guild s reminderKey
  refine ⟨?_, ?_, ?_⟩
  · have ht := taken_effects now s.guild medicineId interaction.user_id medicine
      { type := "medicine_taken"
        fields :=
          [("medicine_id", medicineId), ("medicine_name", medicine.name),
           ("target_id", targetId), ("taken_at", toString now),
           ("taken_by", interaction.user_id), ("reminder_key", reminderKey.getD ""),
           ("response_method", "button_click"),
           ("message", medicine.name ++ " taken by target")] } hstored
    simp only [handleMedicineResponse, hcaller, ne_eq, not_true_eq_false, if_false, hg, hstored,
      if_true]
    constructor
    · rw [inventoryOf_congr _ _ (messageEdit_medicines _ _ _), inventoryOf]
      rw [hcaller] at ht
      rw [ht.1]
      rfl
    · rw [logTypes_congr _ _ (messageEdit_logs _ _ _)]
      rw [hcaller] at ht
      exact ht.2
  · simp only [handleMedicineResponse, hcaller, ne_eq, not_true_eq_false, if_false, hg, hstored]
    have hm : ∀ a : Activity,
        (messageEdit (notifyTrackersOfMissedDose noFaults now
          (logActivity noFaults now s.guild a).1 medicine targetId)
          interaction.message MessageKind.responseRecorded).medicines = s.guild.medicines := by
      intro a
      rw [messageEdit_medicines, notifyTrackersOfMissedDose_medicines, logActivity_medicines]
    refine ⟨by simpa using hm _, ?_, ?_⟩
    · rw [← hinv]
      exact inventoryOf_congr _ _ (by simpa using hm _) _
    · simp only [show ("missed" = "taken") = False by decide, if_false, if_true]
      rw [logTypes_congr _ _ (messageEdit_logs _ _ _),
        logTypes_congr _ _ (notifyTrackersOfMissedDose_logs _ _ _ _ _), logTypes_logActivity]
  · simp only [handleMedicineResponse, hcaller, ne_eq, not_true_eq_false, if_false, hg, hstored]
    simp only [show ("snooze" = "taken") = False by decide,
      show ("snooze" = "missed") = False by decide, if_false, if_true, scheduleSnoozeReminder]
    refine ⟨?_, ?_, ?_⟩
    · rw [messageEdit_medicines, logActivity_medicines]
    · rw [← hinv]
      exact inventoryOf_congr _ _ (by rw [messageEdit_medicines, logActivity_medicines]) _
    · rw [logTypes_congr _ _ (messageEdit_logs _ _ _), logTypes_logActivity]


/-- The state `handleMedicineResponse` leaves for `taken`, called by the target
for a stored medicine with a working store. -/
theorem handleMedicineResponse_taken (now : Nat) (s : State) (interaction : Interaction)
    (medicineId targetId : String) (reminderKey : Option String) (medicine : Medicine)
    (hcaller : interaction.user_id = targetId)
    (hstored : getMedicineById noFaults s.guild medicineId = some medicine) :
    getMedicineById noFaults
        (handleMedicineResponse noFaults now s interaction "taken" medicineId targetId
          reminderKey).1.guild medicineId
      = some { medicine with
               inventory := max 0 (medicine.inventory - 1)
               updated_by := some interaction.user_id
               updated_at := some now }
    ∧ logTypes
        (handleMedicineResponse noFaults now s interaction "taken" medicineId targetId
          reminderKey).1.guild
      = ("medicine_taken" :: inventoryLogTypes (max 0 (medicine.inventory - 1))
          ++ logTypes s.guild).take 1000
    ∧ (handleMedicineResponse noFaults now s interaction "taken" medicineId targetId
          reminderKey).1.reminderTimeouts = (cancelMissedTimeout s reminderKey).reminderTimeouts
    ∧ (handleMedicineResponse noFaults now s interaction "taken" medicineId targetId
          reminderKey).1.timers = (cancelMissedTimeout s reminderKey).timers
    ∧ (handleMedicineResponse noFaults now s interaction "taken" medicineId targetId
          reminderKey).2 = Reply.update := by
  have hg := cancelMissedTimeout_guild s reminderKey
  have ht := taken_effects now s.guild medicineId interaction.user_id medicine
    { type := "medicine_taken"
      fields :=
        [("medicine_id", medicineId), ("medicine_name", medicine.name),
         ("target_id", targetId), ("taken_at", toString now),
         ("taken_by", interaction.user_id), ("reminder_key", reminderKey.getD ""),
         ("response_method", "button_click"),
         ("message", medicine.name ++ " taken by target")] } hstored
  simp only [handleMedicineResponse, hcaller, ne_eq, not_true_eq_false, if_false, hg, hstored,
    if_true]
  rw [hcaller] at ht
  refine ⟨?_, ?_, ?_⟩
  · rw [getMedicineById_eq, messageEdit_medicines, ← getMedicineById_eq]
    exact ht.1
  · rw [logTypes_congr _ _ (messageEdit_logs _ _ _)]
    exact ht.2
  · simp

/-- The state `handleTrackerVerification` leaves for `taken` and for `late`,
called by an administrator for a stored medicine with a working store. -/
theorem handleTrackerVerification_decrement (now : Nat) (s : State) (interaction : Interaction)
    (verifyAction medicineId targetId timestamp : String) (medicine : Medicine)
    (hadmin : interaction.administrator = true)
    (hstored : getMedicineById noFaults s.guild medicineId = some medicine)
    (ha : verifyAction = "taken" ∨ verifyAction = "late") :
    getMedicineById noFaults
        (handleTrackerVerification noFaults now s interaction verifyAction medicineId targetId
          timestamp).1.guild medicineId
      = some { medicine with
               inventory := max 0 (medicine.inventory - 1)
               updated_by := some interaction.user_id
               updated_at := some now }
    ∧ logTypes
        (handleTrackerVerification noFaults now s interaction verifyAction medicineId targetId
          timestamp).1.guild
      = ((verificationOutcome verifyAction).1
          :: inventoryLogTypes (max 0 (medicine.inventory - 1)) ++ logTypes s.guild).take 1000 := by
  have ho : (verificationOutcome verifyAction).2 = -1 := by
    rcases ha with ha | ha <;> subst ha <;> decide
  have ht := taken_effects now s.guild medicineId interaction.user_id medicine
    { type := (verificationOutcome verifyAction).1
      fields :=
        [("medicine_id", medicineId), ("medicine_name", medicine.name),
         ("target_id", targetId), ("verified_by", interaction.user_id),
         ("verified_at", toString now), ("original_timestamp", timestamp),
         ("message", "Tracker verified " ++ verifyAction ++ " status for " ++ medicine.name)] }
    hstored
  simp only [handleTrackerVerification, hadmin, Bool.not_true, Bool.false_eq_true, if_false,
    hstored, ho, ne_eq, show ((-1 : Int) = 0) = False by decide, not_false_eq_true, if_true]
  constructor
  · rw [getMedicineById_eq, messageEdit_medicines, ← getMedicineById_eq]
    exact ht.1
  · rw [logTypes_congr _ _ (messageEdit_logs _ _ _)]
    exact ht.2

/-- C7: with a working store, `handleTrackerVerification` called by an
administrator for a stored medicine with count `n` stores the count
`max(0, n - 1)`, one decrement, and logs `medicine_taken_verified` for the
outcome `taken` and `medicine_taken_late` for `late`, and leaves the medicines
as they are and logs `medicine_missed_confirmed` for `missed`. -/
theorem handleTrackerVerification_effects (now : Nat) (s : State) (interaction : Interaction)
    (medicineId targetId timestamp : String) (medicine : Medicine)
    (hadmin : interaction.administrator = true)
    (hstored : getMedicineById noFaults s.guild medicineId = some medicine) :
    (inventoryOf
          (handleTrackerVerification noFaults now s interaction "taken" medicineId targetId
            timestamp).1.guild medicineId
        = some (max 0 (medicine.inventory - 1))
      ∧ logTypes
          (handleTrackerVerification noFaults now s interaction "taken" medicineId targetId
            timestamp).1.guild
        = ("medicine_taken_verified" :: inventoryLogTypes (max 0 (medicine.inventory - 1))
            ++ logTypes s.guild).take 1000)
    ∧ (inventoryOf
          (handleTrackerVerification noFaults now s interaction "late" medicineId targetId
            timestamp).1.guild medicineId
        = some (max 0 (medicine.inventory - 1))
      ∧ logTypes
          (handleTrackerVerification noFaults now s interaction "late" medicineId targetId
            timestamp).1.guild
        = ("medicine_taken_late" :: inventoryLogTypes (max 0 (medicine.inventory - 1))
            ++ logTypes s.guild).take 1000)
    ∧ ((handleTrackerVerification noFaults now s interaction "missed" medicineId targetId
            timestamp).1.guild.medicines = s.guild.medicines
      ∧ inventoryOf
          (handleTrackerVerification noFaults now s interaction "missed" medicineId targetId
            timestamp).1.guild medicineId
        = some medicine.inventory
      ∧ logTypes
          (handleTrackerVerification noFaults now s interaction "missed" medicineId targetId
            timestamp).1.guild
        = ("medicine_missed_confirmed" :: logTypes s.guild).take 1000) := by
  have hinv : inventoryOf s.guild medicineId = some medicine.inventory := by
    simp [inventoryOf, hstored]
  refine ⟨?_, ?_, ?_⟩
  · obtain ⟨h1, h2⟩ := handleTrackerVerification_decrement now s interaction "taken" medicineId
      targetId timestamp medicine hadmin hstored (Or.inl rfl)
    exact ⟨by rw [inventoryOf, h1]; rfl, h2⟩
  · obtain ⟨h1, h2⟩ := handleTrackerVerification_decrement now s interaction "late" medicineId
      targetId timestamp medicine hadmin hstored (Or.inr rfl)
    exact ⟨by rw [inventoryOf, h1]; rfl, h2⟩
  · have ho : verificationOutcome "missed" = ("medicine_missed_confirmed", 0) := by decide
    simp only [handleTrackerVerification, hadmin, Bool.not_true, Bool.false_eq_true, if_false,
      hstored, ho, ne_eq, not_true_eq_false]
    refine ⟨?_, ?_, ?_⟩
    · rw [messageEdit_medicines, logActivity_medicines]
    · rw [← hinv]
      exact inventoryOf_congr _ _ (by rw [messageEdit_medicines, logActivity_medicines]) _
    · rw [logTypes_congr _ _ (messageEdit_logs _ _ _), logTypes_logActivity]


theorem handleMedicineResponse_effects_witness :
    sampleTarget.user_id = "u1"
    ∧ getMedicineById noFaults sampleDelivered.guild "med_1" = some (sampleMedicine 30)
    ∧ inventoryOf sampleTakenOnce.1.guild "med_1" = some 29
    ∧ logTypes sampleTakenOnce.1.guild = ["medicine_taken", "medicine_updated", "reminder_sent"] :=
  ⟨rfl, by decide,
    by simpa using (handleMedicineResponse_effects 2000 sampleDelivered sampleTarget "med_1" "u1"
      (some sampleKey) (sampleMedicine 30) rfl (by decide)).1.1,
    by decide⟩

theorem handleTrackerVerification_effects_witness :
    sampleTracker.administrator = true
    ∧ getMedicineById noFaults sampleEscalated.guild "med_1" = some (sampleMedicine 30)
    ∧ inventoryOf
        (handleTrackerVerification noFaults 2400000 sampleEscalated sampleTracker "late" "med_1"
          "u1" "1801000").1.guild "med_1"
      = some (max 0 ((sampleMedicine 30).inventory - 1)) :=
  ⟨rfl, by decide,
    (handleTrackerVerification_effects 2400000 sampleEscalated sampleTracker "med_1" "u1"
      "1801000" (sampleMedicine 30) rfl (by decide)).2.1.1⟩

/-! ## Stale responses -/

theorem cancelMissedTimeout_idem (s s' : State) (reminderKey : Option String)
    (h : s'.reminderTimeouts = (cancelMissedTimeout s reminderKey).reminderTimeouts) :
    cancelMissedTimeout s' reminderKey = s' := by
  cases reminderKey with
  | none => rfl
  | some k =>
    by_cases hk : k = ""
    · simp [cancelMissedTimeout, hk]
    · apply cancelMissedTimeout_of_not_has
      rw [h]
      exact cancelMissedTimeout_has s k hk

/-- C5, counterexample: the reminder of `sampleDelivered` (30 doses) is answered
`taken` twice under the same reminder key; the first answer leaves 29 doses, the
second is applied as well: it leaves 28 doses, the log holds two
`medicine_taken` entries and the reply is the ordinary update. -/
theorem handleMedicineResponse_second_taken_applied :
    inventoryOf sampleTakenOnce.1.guild "med_1" = some 29
    ∧ inventoryOf sampleTakenTwice.1.guild "med_1" = some 28
    ∧ (logTypes sampleTakenOnce.1.guild).count "medicine_taken" = 1
    ∧ (logTypes sampleTakenTwice.1.guild).count "medicine_taken" = 2
    ∧ sampleTakenTwice.2 = Reply.update := by
  decide

/-- C5, amended: with a working store, when the target answers `taken` twice for
the same reminder key and a stored medicine with count `n`, the second answer
finds no timer to cancel (`reminderTimeouts` and the pending timers stay as the
first answer left them) and is applied in full: the count becomes
`max(0, max(0, n - 1) - 1)`, one more `medicine_taken` entry is logged and the
reply is the ordinary update. -/
theorem handleMedicineResponse_taken_twice (now now' : Nat) (s : State)
    (interaction : Interaction) (medicineId targetId : String) (reminderKey : Option String)
    (medicine : Medicine)
    (hcaller : interaction.user_id = targetId)
    (hstored : getMedicineById noFaults s.guild medicineId = some medicine) :
    inventoryOf
        (handleMedicineResponse noFaults now'
          (handleMedicineResponse noFaults now s interaction "taken" medicineId targetId
            reminderKey).1
          interaction "taken" medicineId targetId reminderKey).1.guild medicineId
      = some (max 0 (max 0 (medicine.inventory - 1) - 1))
    ∧ logTypes
        (handleMedicineResponse noFaults now'
          (handleMedicineResponse noFaults now s interaction "taken" medicineId targetId
            reminderKey).1
          interaction "taken" medicineId targetId reminderKey).1.guild
      = ("medicine_taken" :: inventoryLogTypes (max 0 (max 0 (medicine.inventory - 1) - 1))
          ++ logTypes
              (handleMedicineResponse noFaults now s interaction "taken" medicineId targetId
                reminderKey).1.guild).take 1000
    ∧ (handleMedicineResponse noFaults now'
          (handleMedicineResponse noFaults now s interaction "taken" medicineId targetId
            reminderKey).1
          interaction "taken" medicineId targetId reminderKey).1.reminderTimeouts
      = (handleMedicineResponse noFaults now s interaction "taken" medicineId targetId
          reminderKey).1.reminderTimeouts
    ∧ (handleMedicineResponse noFaults now'
          (handleMedicineResponse noFaults now s interaction "taken" medicineId targetId
            reminderKey).1
          interaction "taken" medicineId targetId reminderKey).1.timers
      = (handleMedicineResponse noFaults now s interaction "taken" medicineId targetId
          reminderKey).1.timers
    ∧ (handleMedicineResponse noFaults now'
          (handleMedicineResponse noFaults now s interaction "taken" medicineId targetId
            reminderKey).1
          interaction "taken" medicineId targetId reminderKey).2 = Reply.update := by
  obtain ⟨h1, _, h3, _, _⟩ := handleMedicineResponse_taken now s interaction medicineId targetId
    reminderKey medicine hcaller hstored
  obtain ⟨k1, k2, k3, k4, k5⟩ := handleMedicineResponse_taken now'
    (handleMedicineResponse noFaults now s interaction "taken" medicineId targetId reminderKey).1
    interaction medicineId targetId reminderKey _ hcaller h1
  have hidem := cancelMissedTimeout_idem s _ reminderKey h3
  rw [hidem] at k3 k4
  refine ⟨?_, k2, k3, k4, k5⟩
  rw [inventoryOf, k1]
  rfl

theorem handleMedicineResponse_taken_twice_witness :
    sampleTarget.user_id = "u1"
    ∧ getMedicineById noFaults sampleDelivered.guild "med_1" = some (sampleMedicine 30)
    ∧ inventoryOf sampleTakenTwice.1.guild "med_1"
      = some (max 0 (max 0 ((sampleMedicine 30).inventory - 1) - 1))
    ∧ sampleTakenTwice.1.reminderTimeouts = sampleTakenOnce.1.reminderTimeouts :=
  ⟨rfl, by decide,
    (handleMedicineResponse_taken_twice 2000 3000 sampleDelivered sampleTarget "med_1" "u1"
      (some sampleKey) (sampleMedicine 30) rfl (by decide)).1,
    (handleMedicineResponse_taken_twice 2000 3000 sampleDelivered sampleTarget "med_1" "u1"
      (some sampleKey) (sampleMedicine 30) rfl (by decide)).2.2.1⟩


/-! ## Escalation -/

theorem handleAutomaticMissedDose_guild (now : Nat) (s : State) (medicine : Medicine)
    (targetId reminderKey : String) :
    (handleAutomaticMissedDose noFaults now s medicine targetId reminderKey).guild.medicines
        = s.guild.medicines
    ∧ logTypes (handleAutomaticMissedDose noFaults now s medicine targetId reminderKey).guild
        = ("medicine_missed_auto" :: logTypes s.guild).take 1000
    ∧ (handleAutomaticMissedDose noFaults now s medicine targetId reminderKey).reminderTimeouts
        = s.reminderTimeouts
    ∧ (handleAutomaticMissedDose noFaults now s medicine targetId reminderKey).timers
        = s.timers := by
  refine ⟨?_, ?_, rfl, rfl⟩
  · simp only [handleAutomaticMissedDose]
    split
    · rw [messageEdit_medicines, notifyTrackersOfMissedDose_medicines, logActivity_medicines]
    · rw [notifyTrackersOfMissedDose_medicines, logActivity_medicines]
  · simp only [handleAutomaticMissedDose]
    split
    · rw [logTypes_congr _ _ (messageEdit_logs _ _ _),
        logTypes_congr _ _ (notifyTrackersOfMissedDose_logs _ _ _ _ _), logTypes_logActivity]
    · rw [logTypes_congr _ _ (notifyTrackersOfMissedDose_logs _ _ _ _ _), logTypes_logActivity]

/-- What the escalation callback does when the reminder key is still in
`reminderTimeouts`, with a working store. -/
theorem missedTimeoutCallback_fired (now : Nat) (s : State) (medicine : Medicine)
    (targetId reminderKey : String) (h : mapHas s.reminderTimeouts reminderKey = true) :
    (missedTimeoutCallback noFaults now s medicine targetId reminderKey).guild.medicines
        = s.guild.medicines
    ∧ logTypes (missedTimeoutCallback noFaults now s medicine targetId reminderKey).guild
        = ("medicine_missed_auto" :: logTypes s.guild).take 1000
    ∧ (missedTimeoutCallback noFaults now s medicine targetId reminderKey).reminderTimeouts
        = mapDelete s.reminderTimeouts reminderKey
    ∧ (missedTimeoutCallback noFaults now s medicine targetId reminderKey).timers
        = s.timers := by
  obtain ⟨h1, h2, h3, h4⟩ :=
    handleAutomaticMissedDose_guild now s medicine targetId reminderKey
  simp only [missedTimeoutCallback, h, Bool.not_true, Bool.false_eq_true, if_false]
  exact ⟨h1, h2, by rw [h3], h4⟩

/-- C6: when the escalation callback for a reminder key runs and the key is no
longer in `reminderTimeouts`, the state is left exactly as it was, whatever the
outcome of the external calls; when the key is still there, then with a working
store one `medicine_missed_auto` entry is logged, the key leaves
`reminderTimeouts` and the medicines document, hence every count, is
unchanged. -/
theorem missedTimeoutCallback_effects (now : Nat) (s : State) (medicine : Medicine)
    (targetId reminderKey : String) :
    (mapHas s.reminderTimeouts reminderKey = false →
      ∀ io : Faults, missedTimeoutCallback io now s medicine targetId reminderKey = s)
    ∧ (mapHas s.reminderTimeouts reminderKey = true →
      logTypes (missedTimeoutCallback noFaults now s medicine targetId reminderKey).guild
          = ("medicine_missed_auto" :: logTypes s.guild).take 1000
      ∧ mapHas (missedTimeoutCallback noFaults now s medicine targetId
          reminderKey).reminderTimeouts reminderKey = false
      ∧ (missedTimeoutCallback noFaults now s medicine targetId reminderKey).guild.medicines
          = s.guild.medicines) := by
  constructor
  · intro h io
    simp [missedTimeoutCallback, h]
  · intro h
    obtain ⟨h1, h2, h3, _⟩ := missedTimeoutCallback_fired now s medicine targetId reminderKey h
    exact ⟨h2, by rw [h3]; exact mapHas_mapDelete_self _ _, h1⟩

theorem missedTimeoutCallback_effects_witness :
    mapHas sampleDelivered.reminderTimeouts sampleKey = true
    ∧ mapHas sampleTakenOnce.1.reminderTimeouts sampleKey = false
    ∧ missedTimeoutCallback noFaults 1801000 sampleTakenOnce.1 (sampleMedicine 30) "u1" sampleKey
        = sampleTakenOnce.1
    ∧ logTypes
        (missedTimeoutCallback noFaults 1801000 sampleDelivered (sampleMedicine 30) "u1"
          sampleKey).guild
      = ("medicine_missed_auto" :: logTypes sampleDelivered.guild).take 1000 :=
  ⟨by decide, by decide,
    (missedTimeoutCallback_effects 1801000 sampleTakenOnce.1 (sampleMedicine 30) "u1"
      sampleKey).1 (by decide) noFaults,
    ((missedTimeoutCallback_effects 1801000 sampleDelivered (sampleMedicine 30) "u1"
      sampleKey).2 (by decide)).1⟩

/-- C8, counterexample: the reminder of `sampleDelivered` (30 doses) is left
unanswered and its escalation timer fires; the target then answers `taken` for
the same reminder key and the answer is applied (29 doses, a `medicine_taken`
entry on top of `medicine_missed_auto`); the tracker verification `late` that
follows is applied as well, so the one dose is deducted twice (28 doses). -/
theorem handleMedicineResponse_after_escalation_applied :
    mapHas sampleEscalated.reminderTimeouts sampleKey = false
    ∧ inventoryOf sampleEscalated.guild "med_1" = some 30
    ∧ inventoryOf sampleLateResponse.1.guild "med_1" = some 29
    ∧ logTypes sampleLateResponse.1.guild
        = ["medicine_taken", "medicine_updated", "medicine_missed_auto", "reminder_sent"]
    ∧ sampleLateResponse.2 = Reply.update
    ∧ inventoryOf sampleVerifiedLate.1.guild "med_1" = some 28 := by
  decide

/-- C8, amended: with a working store, after the escalation callback for a
reminder key has fired, a later `taken` answer of the target for that key finds
no timer to cancel and is applied: for a stored medicine with count `n` the
count becomes `max(0, n - 1)` and `medicine_taken` is logged on top of
`medicine_missed_auto`; a tracker verification `late` or `taken` after it
deducts once more, leaving `max(0, max(0, n - 1) - 1)`. -/
theorem handleMedicineResponse_after_escalation (now now' now'' : Nat) (s : State)
    (closureMedicine : Medicine) (closureTarget reminderKey : String)
    (interaction tracker : Interaction) (verifyAction medicineId targetId timestamp : String)
    (medicine : Medicine)
    (harmed : mapHas s.reminderTimeouts reminderKey = true)
    (hcaller : interaction.user_id = targetId)
    (hstored : getMedicineById noFaults s.guild medicineId = some medicine)
    (hadmin : tracker.administrator = true)
    (hverify : verifyAction = "taken" ∨ verifyAction = "late") :
    mapHas (missedTimeoutCallback noFaults now s closureMedicine closureTarget
        reminderKey).reminderTimeouts reminderKey = false
    ∧ inventoryOf
        (handleMedicineResponse noFaults now'
          (missedTimeoutCallback noFaults now s closureMedicine closureTarget reminderKey)
          interaction "taken" medicineId targetId (some reminderKey)).1.guild medicineId
      = some (max 0 (medicine.inventory - 1))
    ∧ logTypes
        (handleMedicineResponse noFaults now'
          (missedTimeoutCallback noFaults now s closureMedicine closureTarget reminderKey)
          interaction "taken" medicineId targetId (some reminderKey)).1.guild
      = ("medicine_taken" :: inventoryLogTypes (max 0 (medicine.inventory - 1))
          ++ "medicine_missed_auto" :: logTypes s.guild).take 1000
    ∧ (handleMedicineResponse noFaults now'
          (missedTimeoutCallback noFaults now s closureMedicine closureTarget reminderKey)
          interaction "taken" medicineId targetId (some reminderKey)).1.reminderTimeouts
      = (missedTimeoutCallback noFaults now s closureMedicine closureTarget
          reminderKey).reminderTimeouts
    ∧ (handleMedicineResponse noFaults now'
          (missedTimeoutCallback noFaults now s closureMedicine closureTarget reminderKey)
          interaction "taken" medicineId targetId (some reminderKey)).2 = Reply.update
    ∧ inventoryOf
        (handleTrackerVerification noFaults now''
          (handleMedicineResponse noFaults now'
            (missedTimeoutCallback noFaults now s closureMedicine closureTarget reminderKey)
            interaction "taken" medicineId targetId (some reminderKey)).1
          tracker verifyAction medicineId targetId timestamp).1.guild medicineId
      = some (max 0 (max 0 (medicine.inventory - 1) - 1)) := by
  obtain ⟨c1, c2, c3, _⟩ :=
    missedTimeoutCallback_fired now s closureMedicine closureTarget reminderKey harmed
  have hgone : mapHas (missedTimeoutCallback noFaults now s closureMedicine closureTarget
      reminderKey).reminderTimeouts reminderKey = false := by
    rw [c3]
    exact mapHas_mapDelete_self _ _
  have hstored' : getMedicineById noFaults
      (missedTimeoutCallback noFaults now s closureMedicine closureTarget reminderKey).guild
      medicineId = some medicine := by
    rw [getMedicineById_eq, c1, ← getMedicineById_eq]
    exact hstored
  obtain ⟨k1, k2, k3, _, k5⟩ := handleMedicineResponse_taken now'
    (missedTimeoutCallback noFaults now s closureMedicine closureTarget reminderKey)
    interaction medicineId targetId (some reminderKey) medicine hcaller hstored'
  obtain ⟨v1, _⟩ := handleTrackerVerification_decrement now''
    (handleMedicineResponse noFaults now'
      (missedTimeoutCallback noFaults now s closureMedicine closureTarget reminderKey)
      interaction "taken" medicineId targetId (some reminderKey)).1
    tracker verifyAction medicineId targetId timestamp _ hadmin k1 hverify
  rw [cancelMissedTimeout_of_not_has _ _ hgone] at k3
  refine ⟨hgone, ?_, ?_, k3, k5, ?_⟩
  · rw [inventoryOf, k1]
    rfl
  · rw [k2, c2]
    have := take_append_take
      ("medicine_taken" :: inventoryLogTypes (max 0 (medicine.inventory - 1)))
      ("medicine_missed_auto" :: logTypes s.guild) 1000
    simpa using this
  · rw [inventoryOf, v1]
    rfl

theorem handleMedicineResponse_after_escalation_witness :
    mapHas sampleDelivered.reminderTimeouts sampleKey = true
    ∧ sampleTarget.user_id = "u1"
    ∧ getMedicineById noFaults sampleDelivered.guild "med_1" = some (sampleMedicine 30)
    ∧ sampleTracker.administrator = true
    ∧ inventoryOf
        (handleMedicineResponse noFaults 1900000
          (missedTimeoutCallback noFaults 1801000 sampleDelivered (sampleMedicine 30) "u1"
            sampleKey)
          sampleTarget "taken" "med_1" "u1" (some sampleKey)).1.guild "med_1"
      = some (max 0 ((sampleMedicine 30).inventory - 1)) :=
  ⟨by decide, rfl, by decide, rfl,
    (handleMedicineResponse_after_escalation 1801000 1900000 2400000 sampleDelivered
      (sampleMedicine 30) "u1" sampleKey sampleTarget sampleTracker "late" "med_1" "u1"
      "1801000" (sampleMedicine 30) (by decide) rfl (by decide) rfl (Or.inr rfl)).2.1⟩


/-! ## Deduplication of reminders -/

theorem channelSend_id (io : Faults) (g g' : Guild) (m : Message) (i : Nat)
    (h : channelSend io g m = some (g', i)) : g'.id = g.id := by
  unfold channelSend at h
  split at h
  · simp at h
  · simp only [Option.some.injEq, Prod.mk.injEq] at h
    rw [← h.1]

theorem sendMedicineReminder_activeReminders (io : Faults) (now : Nat) (s : State)
    (schedule : Schedule) :
    (sendMedicineReminder io now s schedule).activeReminders = s.activeReminders := by
  unfold sendMedicineReminder
  split
  · rfl
  · dsimp only
    split
    · rfl
    · split <;> rfl

theorem sendMedicineReminder_guild_id (io : Faults) (now : Nat) (s : State)
    (schedule : Schedule) :
    (sendMedicineReminder io now s schedule).guild.id = s.guild.id := by
  unfold sendMedicineReminder
  split
  · rfl
  · dsimp only
    split
    · rfl
    · split
      · rfl
      · rename_i h
        simp only [logActivity_id]
        exact channelSend_id _ _ _ _ _ h

theorem dedupKey_eq_of_id (clk clk' : Clock) (guildId : String) (a b : Schedule)
    (hid : a.id = b.id) (hday : clk.localDay = clk'.localDay) :
    dedupKey clk guildId a = dedupKey clk' guildId b := by
  simp [dedupKey, hid, hday]

theorem dedupKey_inj (clk : Clock) (guildId : String) (a b : Schedule)
    (h : dedupKey clk guildId a = dedupKey clk guildId b) : a.id = b.id := by
  have hd := congrArg String.data h
  simp only [dedupKey, String.data_append, List.append_assoc, List.append_cancel_left_eq,
    List.append_cancel_right_eq] at hd
  exact String.ext hd

theorem processSchedule_guild_id (io : Faults) (clk : Clock) (acc : State × List Schedule)
    (schedule : Schedule) :
    (processSchedule io clk acc schedule).1.guild.id = acc.1.guild.id := by
  unfold processSchedule
  simp only
  split
  · rfl
  · exact sendMedicineReminder_guild_id _ _ _ _

theorem processSchedule_has (io : Faults) (clk : Clock) (acc : State × List Schedule)
    (schedule : Schedule) (k : String)
    (h : mapHas acc.1.activeReminders k = true ∨ dedupKey clk acc.1.guild.id schedule = k) :
    mapHas (processSchedule io clk acc schedule).1.activeReminders k = true := by
  unfold processSchedule
  simp only
  split
  · rename_i hk
    rcases h with h | h
    · exact h
    · rw [← h]
      exact hk
  · simp only [mapHas_mapSet, sendMedicineReminder_activeReminders, Bool.or_eq_true,
      decide_eq_true_eq]
    rcases h with h | h
    · exact Or.inr h
    · exact Or.inl h

theorem foldl_processSchedule_guild_id (io : Faults) (clk : Clock) (l : List Schedule)
    (acc : State × List Schedule) :
    (l.foldl (processSchedule io clk) acc).1.guild.id = acc.1.guild.id := by
  induction l generalizing acc with
  | nil => rfl
  | cons x xs ih => rw [List.foldl_cons, ih, processSchedule_guild_id]

theorem foldl_processSchedule_has (io : Faults) (clk : Clock) (l : List Schedule)
    (acc : State × List Schedule) (k : String)
    (h : mapHas acc.1.activeReminders k = true
      ∨ ∃ x ∈ l, dedupKey clk acc.1.guild.id x = k) :
    mapHas (l.foldl (processSchedule io clk) acc).1.activeReminders k = true := by
  induction l generalizing acc with
  | nil =>
    rcases h with h | ⟨x, hx, _⟩
    · exact h
    · simp at hx
  | cons y ys ih =>
    rw [List.foldl_cons]
    apply ih
    rcases h with h | ⟨x, hx, hk⟩
    · exact Or.inl (processSchedule_has io clk acc y k (Or.inl h))
    · rcases List.mem_cons.1 hx with rfl | hx'
      · exact Or.inl (processSchedule_has io clk acc x k (Or.inr hk))
      · exact Or.inr ⟨x, hx', by rw [processSchedule_guild_id]; exact hk⟩

/-- The loop invariant of the first run: the slot id was passed to
`sendMedicineReminder` once if its key is recorded and not at all otherwise, and
a recorded key carries the instant of this run. -/
theorem foldl_processSchedule_count (io : Faults) (clk : Clock) (slot : Schedule)
    (l : List Schedule) (acc : State × List Schedule)
    (hcount : acc.2.countP (fun x => x.id == slot.id)
      = if mapHas acc.1.activeReminders (dedupKey clk acc.1.guild.id slot) = true then 1 else 0)
    (hstamp : ∀ e ∈ acc.1.activeReminders,
      e.1 = dedupKey clk acc.1.guild.id slot → e.2 = clk.now) :
    (l.foldl (processSchedule io clk) acc).2.countP (fun x => x.id == slot.id)
      = (if mapHas (l.foldl (processSchedule io clk) acc).1.activeReminders
            (dedupKey clk acc.1.guild.id slot) = true then 1 else 0)
    ∧ ∀ e ∈ (l.foldl (processSchedule io clk) acc).1.activeReminders,
        e.1 = dedupKey clk acc.1.guild.id slot → e.2 = clk.now := by
  induction l generalizing acc with
  | nil => exact ⟨hcount, hstamp⟩
  | cons y ys ih =>
    rw [List.foldl_cons]
    have hid := processSchedule_guild_id io clk acc y
    rw [← hid]
    apply ih
    · rw [hid]
      unfold processSchedule
      simp only
      split
      · exact hcount
      · rename_i hy
        simp only [Bool.not_eq_true] at hy
        simp only [mapHas_mapSet, sendMedicineReminder_activeReminders, List.countP_append,
          List.countP_cons, List.countP_nil, hcount]
        by_cases hyid : y.id = slot.id
        · have hk := dedupKey_eq_of_id clk clk acc.1.guild.id y slot hyid rfl
          rw [hk] at hy
          simp [hyid, hk, hy]
        · have hk : dedupKey clk acc.1.guild.id y ≠ dedupKey clk acc.1.guild.id slot :=
            fun hk => hyid (dedupKey_inj _ _ _ _ hk)
          simp [hyid, hk]
    · rw [hid]
      unfold processSchedule
      simp only
      split
      · exact hstamp
      · intro e he hek
        simp only [sendMedicineReminder_activeReminders] at he
        rcases mem_mapSet _ _ _ _ he with he' | he'
        · exact hstamp e he' hek
        · rw [he']

/-- The loop invariant of a later run of the same date: while the key of the
slot is recorded, the slot id is never passed to `sendMedicineReminder`. -/
theorem foldl_processSchedule_skip (io : Faults) (clk : Clock) (slot : Schedule)
    (l : List Schedule) (acc : State × List Schedule)
    (hhas : mapHas acc.1.activeReminders (dedupKey clk acc.1.guild.id slot) = true)
    (hcount : acc.2.countP (fun x => x.id == slot.id) = 0) :
    (l.foldl (processSchedule io clk) acc).2.countP (fun x => x.id == slot.id) = 0 := by
  induction l generalizing acc with
  | nil => exact hcount
  | cons y ys ih =>
    rw [List.foldl_cons]
    apply ih
    · rw [processSchedule_guild_id]
      exact processSchedule_has io clk acc y _ (Or.inl hhas)
    · unfold processSchedule
      simp only
      split
      · exact hcount
      · rename_i hy
        have hyid : y.id ≠ slot.id := by
          intro hyid
          rw [dedupKey_eq_of_id clk clk acc.1.guild.id y slot hyid rfl] at hy
          exact hy hhas
        simp [List.countP_append, hcount, hyid]

theorem mapHas_cleanupOldReminders (now : Nat) (s : State) (k : String)
    (hhas : mapHas s.activeReminders k = true)
    (hstamp : ∀ e ∈ s.activeReminders, e.1 = k → e.2 = now) :
    mapHas (cleanupOldReminders now s).activeReminders k = true := by
  obtain ⟨e, he, hek⟩ := (mapHas_eq_true_iff _ _).1 hhas
  refine (mapHas_eq_true_iff _ _).2 ⟨e, ?_, hek⟩
  simp only [cleanupOldReminders, List.mem_filter, Bool.not_eq_true', decide_eq_false_iff_not,
    not_lt]
  refine ⟨he, ?_⟩
  rw [hstamp e he hek]
  omega


theorem processGuildReminders_eq (io : Faults) (clk : Clock) (s : State) :
    processGuildReminders io clk s
      = (cleanupOldReminders clk.now
          ((getTodaysSchedules io clk s.guild).foldl (processSchedule io clk) (s, [])).1,
         ((getTodaysSchedules io clk s.guild).foldl (processSchedule io clk) (s, [])).2) := rfl

/-- C3: when `processGuildReminders` runs for a guild with a slot due whose key
`<guildId>_<slotId>_<date>` is not yet in `activeReminders`, it calls
`sendMedicineReminder` for that slot id exactly once and records the key; a
second run for the same guild on the same calendar date calls it for that slot
id not at all, whatever the outcome of the external calls in either run. -/
theorem processGuildReminders_dedup (io₁ io₂ : Faults) (clk₁ clk₂ : Clock) (s : State)
    (slot : Schedule)
    (hdue : slot ∈ getTodaysSchedules io₁ clk₁ s.guild)
    (hdate : clk₂.localDay = clk₁.localDay)
    (hfresh : mapHas s.activeReminders (dedupKey clk₁ s.guild.id slot) = false) :
    (processGuildReminders io₁ clk₁ s).2.countP (fun x => x.id == slot.id) = 1
    ∧ mapHas (processGuildReminders io₁ clk₁ s).1.activeReminders
        (dedupKey clk₁ s.guild.id slot) = true
    ∧ (processGuildReminders io₂ clk₂ (processGuildReminders io₁ clk₁ s).1).2.countP
        (fun x => x.id == slot.id) = 0 := by
  have hloop := foldl_processSchedule_count io₁ clk₁ slot (getTodaysSchedules io₁ clk₁ s.guild)
    (s, []) (by simp [hfresh]) (by
      intro e he hek
      have : mapHas s.activeReminders (dedupKey clk₁ s.guild.id slot) = true :=
        (mapHas_eq_true_iff _ _).2 ⟨e, he, hek⟩
      rw [hfresh] at this
      exact absurd this (by decide))
  have hhas := foldl_processSchedule_has io₁ clk₁ (getTodaysSchedules io₁ clk₁ s.guild)
    (s, []) (dedupKey clk₁ s.guild.id slot) (Or.inr ⟨slot, hdue, rfl⟩)
  have hkept := mapHas_cleanupOldReminders clk₁.now _ _ hhas hloop.2
  have hid : (processGuildReminders io₁ clk₁ s).1.guild.id = s.guild.id := by
    rw [processGuildReminders_eq]
    exact foldl_processSchedule_guild_id io₁ clk₁ _ (s, [])
  refine ⟨?_, ?_, ?_⟩
  · rw [processGuildReminders_eq, hloop.1]
    simp only at hhas
    simp [hhas]
  · rw [processGuildReminders_eq]
    exact hkept
  · rw [processGuildReminders_eq io₂]
    apply foldl_processSchedule_skip
    · simp only [hid]
      rw [dedupKey_eq_of_id clk₂ clk₁ s.guild.id slot slot rfl hdate, processGuildReminders_eq]
      exact hkept
    · rfl

theorem processGuildReminders_dedup_witness :
    sampleSchedule ∈ getTodaysSchedules noFaults (sampleTick 4500000) sampleScheduled.guild
    ∧ (sampleTick 4560000).localDay = (sampleTick 4500000).localDay
    ∧ mapHas sampleScheduled.activeReminders
        (dedupKey (sampleTick 4500000) sampleScheduled.guild.id sampleSchedule) = false
    ∧ sampleSchedule ∈ getTodaysSchedules noFaults (sampleTick 4560000)
        (processGuildReminders noFaults (sampleTick 4500000) sampleScheduled).1.guild
    ∧ (processGuildReminders noFaults (sampleTick 4500000) sampleScheduled).2.countP
        (fun x => x.id == sampleSchedule.id) = 1
    ∧ mapHas (processGuildReminders noFaults (sampleTick 4500000) sampleScheduled).1.activeReminders
        (dedupKey (sampleTick 4500000) sampleScheduled.guild.id sampleSchedule) = true
    ∧ (processGuildReminders noFaults (sampleTick 4560000)
        (processGuildReminders noFaults (sampleTick 4500000) sampleScheduled).1).2.countP
        (fun x => x.id == sampleSchedule.id) = 0 :=
  ⟨by decide, by decide, by decide, by decide,
    processGuildReminders_dedup noFaults noFaults (sampleTick 4500000) (sampleTick 4560000)
      sampleScheduled sampleSchedule (by decide) (by decide) (by decide)⟩



/-! ## Button ids -/

/-- C11, at the failing input: the reminder of `sampleDelivered` is stored in
`reminderTimeouts` under the key `g1_med_1_u1_1000` and its first button has the
id `taken_med_1_u1_g1_med_1_u1_1000`; `handleButtonInteraction` splits that id
at every underscore and so hands `handleMedicineResponse` the medicine id `med`,
the target id `1` and the reminder key `u1`, and the press of the target `u1` is
rejected with the state unchanged.  The verification button
`verify_taken_med_1_u1_1801000` is read as medicine id `med`, target id `1` and
timestamp `u1`, and the tracker is told that the medicine is not found. -/
theorem handleButtonInteraction_misreads_ids :
    sampleDelivered.guild.messages.map (fun m => m.buttons)
      = [["taken_med_1_u1_g1_med_1_u1_1000", "missed_med_1_u1_g1_med_1_u1_1000",
          "snooze_med_1_u1_g1_med_1_u1_1000"]]
    ∧ mapHas sampleDelivered.reminderTimeouts "g1_med_1_u1_1000" = true
    ∧ jsSplit "taken_med_1_u1_g1_med_1_u1_1000" '_'
        = ["taken", "med", "1", "u1", "g1", "med", "1", "u1", "1000"]
    ∧ handleButtonInteraction noFaults 2000 sampleDelivered sampleTarget
          "taken_med_1_u1_g1_med_1_u1_1000"
        = ((handleMedicineResponse noFaults 2000 sampleDelivered sampleTarget "taken" "med" "1"
              (some "u1")).1,
           some (handleMedicineResponse noFaults 2000 sampleDelivered sampleTarget "taken" "med"
              "1" (some "u1")).2)
    ∧ handleButtonInteraction noFaults 2000 sampleDelivered sampleTarget
          "taken_med_1_u1_g1_med_1_u1_1000"
        = (sampleDelivered,
           some (Reply.reply "You can only respond to your own medicine reminders."))
    ∧ (sampleEscalated.guild.messages.map (fun m => m.buttons)).getLast?
        = some ["verify_taken_med_1_u1_1801000", "verify_missed_med_1_u1_1801000",
                "verify_late_med_1_u1_1801000"]
    ∧ handleButtonInteraction noFaults 2400000 sampleEscalated sampleTracker
          "verify_taken_med_1_u1_1801000"
        = ((handleTrackerVerification noFaults 2400000 sampleEscalated sampleTracker "taken"
              "med" "1" "u1").1,
           some (handleTrackerVerification noFaults 2400000 sampleEscalated sampleTracker "taken"
              "med" "1" "u1").2)
    ∧ handleButtonInteraction noFaults 2400000 sampleEscalated sampleTracker
          "verify_taken_med_1_u1_1801000"
        = (sampleEscalated, some (Reply.reply "Medicine not found.")) := by
  decide

/-! ## Responses of other users and snoozed reminders -/

/-- C12: `handleMedicineResponse` called by a user whose id differs from the
target id answers with the rejection and leaves the whole state as it was, so
the entry in `reminderTimeouts`, the pending timer, every count and the log are
unchanged, for every action and every outcome of the external calls. -/
theorem handleMedicineResponse_other_user (io : Faults) (now : Nat) (s : State)
    (interaction : Interaction) (action medicineId targetId : String)
    (reminderKey : Option String) (h : interaction.user_id ≠ targetId) :
    handleMedicineResponse io now s interaction action medicineId targetId reminderKey
      = (s, Reply.reply "You can only respond to your own medicine reminders.") := by
  simp [handleMedicineResponse, h]

theorem handleMedicineResponse_other_user_witness :
    sampleTracker.user_id ≠ "u1"
    ∧ handleMedicineResponse noFaults 2000 sampleDelivered sampleTracker "taken" "med_1" "u1"
        (some sampleKey)
      = (sampleDelivered, Reply.reply "You can only respond to your own medicine reminders.") :=
  ⟨by decide,
    handleMedicineResponse_other_user noFaults 2000 sampleDelivered sampleTracker "taken" "med_1"
      "u1" (some sampleKey) (by decide)⟩

/-- C13, counterexample: the target snoozes the reminder of `sampleDelivered`
and the snooze timer fires 15 minutes later; the reminder posted then has the
buttons `taken_med_1_u1`, `missed_med_1_u1` and `snooze_med_1_u1`, ids made of
the action, the medicine id and the target id that carry no reminder key,
`reminderTimeouts` is empty and no timer is pending: no escalation timer is
armed for the new reminder. -/
theorem snoozeReminder_has_no_key :
    sampleSnoozed.1.timers
      = [{ handle := 1, fireAt := 2000 + 15 * 60 * 1000,
           callback := TimerCallback.snoozeReminder (sampleMedicine 30) "u1" }]
    ∧ (sampleSnoozeFired.guild.messages.map (fun m => (m.kind, m.buttons))).getLast?
        = some (MessageKind.snoozeReminder,
            ["taken_med_1_u1", "missed_med_1_u1", "snooze_med_1_u1"])
    ∧ sampleSnoozeFired.reminderTimeouts = []
    ∧ sampleSnoozeFired.timers = [] := by
  decide

/-- C13, amended: with a working store, a snooze response of the target for a
stored medicine arms one timer, due 15 minutes later, and adds nothing to
`reminderTimeouts`; when that timer runs it posts a new reminder for the same
medicine and target whose three buttons have the ids
`<action>_<medicineId>_<targetId>`, without a reminder key, and it leaves
`reminderTimeouts` and the pending timers as they are: no escalation timer is
armed for the new reminder. -/
theorem handleMedicineResponse_snooze (now : Nat) (s : State) (interaction : Interaction)
    (medicineId targetId : String) (reminderKey : Option String) (medicine : Medicine)
    (hcaller : interaction.user_id = targetId)
    (hstored : getMedicineById noFaults s.guild medicineId = some medicine) :
    (handleMedicineResponse noFaults now s interaction "snooze" medicineId targetId
        reminderKey).1.timers
      = (cancelMissedTimeout s reminderKey).timers
          ++ [{ handle := (cancelMissedTimeout s reminderKey).nextTimer
                fireAt := now + 15 * 60 * 1000
                callback := TimerCallback.snoozeReminder medicine targetId }]
    ∧ (handleMedicineResponse noFaults now s interaction "snooze" medicineId targetId
        reminderKey).1.reminderTimeouts
      = (cancelMissedTimeout s reminderKey).reminderTimeouts
    ∧ ∀ s' : State,
        (snoozeCallback noFaults s' medicine targetId).guild.messages
          = s'.guild.messages
              ++ [{ channel := "medicine-reminders"
                    kind := MessageKind.snoozeReminder
                    buttons :=
                      ["taken_" ++ medicine.id ++ "_" ++ targetId,
                       "missed_" ++ medicine.id ++ "_" ++ targetId,
                       "snooze_" ++ medicine.id ++ "_" ++ targetId] }]
        ∧ (snoozeCallback noFaults s' medicine targetId).reminderTimeouts = s'.reminderTimeouts
        ∧ (snoozeCallback noFaults s' medicine targetId).timers = s'.timers := by
  have hg := cancelMissedTimeout_guild s reminderKey
  refine ⟨?_, ?_, ?_⟩
  · simp only [handleMedicineResponse, hcaller, ne_eq, not_true_eq_false, if_false, hg, hstored]
    simp only [show ("snooze" = "taken") = False by decide,
      show ("snooze" = "missed") = False by decide, if_false, if_true, scheduleSnoozeReminder]
  · simp only [handleMedicineResponse, hcaller, ne_eq, not_true_eq_false, if_false, hg, hstored]
    simp only [show ("snooze" = "taken") = False by decide,
      show ("snooze" = "missed") = False by decide, if_false, if_true, scheduleSnoozeReminder]
  · intro s'
    simp [snoozeCallback, channelSend, noFaults]

theorem handleMedicineResponse_snooze_witness :
    sampleTarget.user_id = "u1"
    ∧ getMedicineById noFaults sampleDelivered.guild "med_1" = some (sampleMedicine 30)
    ∧ sampleSnoozed.1.reminderTimeouts
        = (cancelMissedTimeout sampleDelivered (some sampleKey)).reminderTimeouts
    ∧ (snoozeCallback noFaults sampleSnoozed.1 (sampleMedicine 30) "u1").reminderTimeouts
        = sampleSnoozed.1.reminderTimeouts :=
  ⟨rfl, by decide,
    (handleMedicineResponse_snooze 2000 sampleDelivered sampleTarget "med_1" "u1"
      (some sampleKey) (sampleMedicine 30) rfl (by decide)).2.1,
    ((handleMedicineResponse_snooze 2000 sampleDelivered sampleTarget "med_1" "u1"
      (some sampleKey) (sampleMedicine 30) rfl (by decide)).2.2 sampleSnoozed.1).2.1⟩


/-! ## Compilation of the schedules -/

/-- The fields of a compiled slot that do not depend on the meal windows. -/
theorem createScheduleFromFrequency_fields (clk : Clock) (medicine : Medicine)
    (frequency : String) (settings : Settings) (slot : Schedule)
    (h : createScheduleFromFrequency clk medicine frequency settings = some slot) :
    slot.id = "sched_" ++ medicine.id ++ "_" ++ frequency
    ∧ slot.active = true ∧ slot.created_at = clk.now := by
  unfold createScheduleFromFrequency at h
  simp only at h
  split at h
  · simp at h
  · split at h
    · simp at h
    · simp only [Option.some.injEq] at h
      subst h
      exact ⟨rfl, rfl, rfl⟩

/-- Apart from `created_at` and the reminder time a compiled slot does not
depend on the clock reading. -/
theorem createScheduleFromFrequency_withoutTimes (clk clk' : Clock) (medicine : Medicine)
    (frequency : String) (settings : Settings) :
    (createScheduleFromFrequency clk medicine frequency settings).map withoutTimes
      = (createScheduleFromFrequency clk' medicine frequency settings).map withoutTimes := by
  unfold createScheduleFromFrequency
  simp only
  split
  · rfl
  · split <;> rfl

theorem subtractMinutesFormat_congr (clk clk' : Clock) (input : Option String) (zone : String)
    (minutes c c' : Int)
    (hfixed : (clk.zone zone).isFixed c) (hfixed' : (clk'.zone zone).isFixed c') :
    subtractMinutesFormat clk input zone minutes
      = subtractMinutesFormat clk' input zone minutes := by
  cases ht : momentHHmm input with
  | none => simp [subtractMinutesFormat, momentTz, ht]
  | some t =>
    rw [subtractMinutesFormat_fixed clk input zone c t minutes hfixed ht,
      subtractMinutesFormat_fixed clk' input zone c' t minutes hfixed' ht]

theorem createScheduleFromFrequency_withoutCreatedAt (clk clk' : Clock) (medicine : Medicine)
    (frequency : String) (settings : Settings) (c c' : Int)
    (hfixed : (clk.zone (strOr settings.timezone "Asia/Kolkata")).isFixed c)
    (hfixed' : (clk'.zone (strOr settings.timezone "Asia/Kolkata")).isFixed c') :
    (createScheduleFromFrequency clk medicine frequency settings).map withoutCreatedAt
      = (createScheduleFromFrequency clk' medicine frequency settings).map withoutCreatedAt := by
  unfold createScheduleFromFrequency
  simp only
  split
  · rfl
  · split
    · rfl
    · simp only [Option.map_some', withoutCreatedAt,
        subtractMinutesFormat_congr clk clk' _ _ _ c c' hfixed hfixed']

theorem compileSchedules_map_congr (f : Schedule → Schedule) (clk clk' : Clock)
    (medicines : List Medicine) (settings : Settings)
    (h : ∀ m freq, (createScheduleFromFrequency clk m freq settings).map f
      = (createScheduleFromFrequency clk' m freq settings).map f) :
    (compileSchedules clk medicines settings).map f
      = (compileSchedules clk' medicines settings).map f := by
  simp only [compileSchedules, List.map_flatten, List.map_map]
  congr 1
  apply List.map_congr_left
  intro m _
  simp only [Function.comp, List.map_filterMap]
  congr 1
  funext freq
  exact h m freq

theorem compileSchedules_withoutTimes (clk clk' : Clock) (medicines : List Medicine)
    (settings : Settings) :
    (compileSchedules clk medicines settings).map withoutTimes
      = (compileSchedules clk' medicines settings).map withoutTimes :=
  compileSchedules_map_congr withoutTimes clk clk' medicines settings
    (fun m freq => createScheduleFromFrequency_withoutTimes clk clk' m freq settings)

theorem compileSchedules_withoutCreatedAt (clk clk' : Clock) (medicines : List Medicine)
    (settings : Settings) (c c' : Int)
    (hfixed : (clk.zone (strOr settings.timezone "Asia/Kolkata")).isFixed c)
    (hfixed' : (clk'.zone (strOr settings.timezone "Asia/Kolkata")).isFixed c') :
    (compileSchedules clk medicines settings).map withoutCreatedAt
      = (compileSchedules clk' medicines settings).map withoutCreatedAt :=
  compileSchedules_map_congr withoutCreatedAt clk clk' medicines settings
    (fun m freq =>
      createScheduleFromFrequency_withoutCreatedAt clk clk' m freq settings c c' hfixed hfixed')

theorem mem_compileSchedules (clk : Clock) (medicines : List Medicine) (settings : Settings)
    (slot : Schedule) :
    slot ∈ compileSchedules clk medicines settings
      ↔ ∃ m ∈ medicines, ∃ f ∈ m.frequency,
          createScheduleFromFrequency clk m f settings = some slot := by
  simp only [compileSchedules, List.mem_flatten, List.mem_map]
  constructor
  · rintro ⟨l, ⟨m, hm, rfl⟩, hs⟩
    obtain ⟨f, hf, hc⟩ := List.mem_filterMap.1 hs
    exact ⟨m, hm, f, hf, hc⟩
  · rintro ⟨m, hm, f, hf, hc⟩
    exact ⟨_, ⟨m, hm, rfl⟩, List.mem_filterMap.2 ⟨f, hf, hc⟩⟩

/-- C14, counterexample: the same medicine and the same settings compiled at
the instants 0 and 1 give two slot lists that differ, in `created_at`; and for a
tenant in America/New_York whose breakfast starts at 03:10, compiled at noon UTC
of 2026-03-08, the day the clocks go from 02:00 to 03:00, and of the day after,
the slot of `before_breakfast` reminds at 01:55 and at 02:55. -/
theorem compileSchedules_differs_by_instant :
    compileSchedules (sampleTick 0) [sampleMedicine 30] defaultSettings
      ≠ compileSchedules (sampleTick 1) [sampleMedicine 30] defaultSettings
    ∧ (compileSchedules (sampleTick 0) [sampleMedicine 30] defaultSettings).map
        (fun s => s.created_at) = [0]
    ∧ (compileSchedules (sampleTick 1) [sampleMedicine 30] defaultSettings).map
        (fun s => s.created_at) = [1]
    ∧ (compileSchedules (zonedClock 1772971200000) [sampleMedicine 30] sampleNewYorkSettings).map
        (fun s => s.reminder_time) = [some "01:55"]
    ∧ (compileSchedules (zonedClock 1773057600000) [sampleMedicine 30] sampleNewYorkSettings).map
        (fun s => s.reminder_time) = [some "02:55"] := by
  decide

/-- C14, amended: compiling twice with the same medicines and the same settings,
at any two clock readings, yields the same slots in the same order with the
slot id and every other field of every slot equal except `created_at`, which
holds the instant of the compilation, and the reminder time; when the zone of
the settings has no clock change at either reading, the reminder times are
equal as well. -/
theorem compileSchedules_deterministic (clk clk' : Clock) (medicines : List Medicine)
    (settings : Settings) (c c' : Int)
    (hfixed : (clk.zone (strOr settings.timezone "Asia/Kolkata")).isFixed c)
    (hfixed' : (clk'.zone (strOr settings.timezone "Asia/Kolkata")).isFixed c') :
    (compileSchedules clk medicines settings).map withoutCreatedAt
      = (compileSchedules clk' medicines settings).map withoutCreatedAt
    ∧ (∀ clk'' : Clock, (compileSchedules clk medicines settings).map withoutTimes
        = (compileSchedules clk'' medicines settings).map withoutTimes)
    ∧ (∀ clk'' : Clock, (compileSchedules clk medicines settings).map (fun s => s.id)
        = (compileSchedules clk'' medicines settings).map (fun s => s.id))
    ∧ ∀ slot ∈ compileSchedules clk medicines settings, slot.created_at = clk.now := by
  refine ⟨compileSchedules_withoutCreatedAt clk clk' medicines settings c c' hfixed hfixed',
    fun clk'' => compileSchedules_withoutTimes clk clk'' medicines settings, ?_, ?_⟩
  · intro clk''
    have h := congrArg (List.map (fun s : Schedule => s.id))
      (compileSchedules_withoutTimes clk clk'' medicines settings)
    simpa [List.map_map, Function.comp, withoutTimes] using h
  · intro slot hs
    obtain ⟨m, _, f, _, hc⟩ := (mem_compileSchedules _ _ _ _).1 hs
    exact (createScheduleFromFrequency_fields clk m f settings slot hc).2.2

theorem compileSchedules_deterministic_witness :
    ((sampleTick 0).zone (strOr defaultSettings.timezone "Asia/Kolkata")).isFixed (-330)
    ∧ ((sampleTick 86400001).zone (strOr defaultSettings.timezone "Asia/Kolkata")).isFixed (-330)
    ∧ (compileSchedules (sampleTick 0) sampleTwoMedicines.medicines.medicines
          defaultSettings).map (fun s => s.reminder_time)
        = [some "06:45", some "14:00", some "06:45", some "21:00"]
    ∧ (compileSchedules (sampleTick 0) sampleTwoMedicines.medicines.medicines
          defaultSettings).map withoutCreatedAt
        = (compileSchedules (sampleTick 86400001) sampleTwoMedicines.medicines.medicines
          defaultSettings).map withoutCreatedAt :=
  ⟨fixedClock_isFixed _ _ _ _, fixedClock_isFixed _ _ _ _, by decide,
    (compileSchedules_deterministic (sampleTick 0) (sampleTick 86400001)
      sampleTwoMedicines.medicines.medicines defaultSettings (-330) (-330)
      (fixedClock_isFixed _ _ _ _) (fixedClock_isFixed _ _ _ _)).1⟩

theorem generateSchedules_written (clk : Clock) (g : Guild) :
    (generateSchedules noFaults clk g).1.schedules.schedules
      = compileSchedules clk g.medicines.medicines g.settings := by
  simp [generateSchedules, writeSchedules, readMedicines, getSettings, readSettings, noFaults]

/-- C18, counterexample: the guild of a tenant in America/New_York, with the
same medicines and settings documents, regenerated at noon UTC of 2026-03-08,
the day the clocks go from 02:00 to 03:00, and of the day after: the written
slot of `before_breakfast` reminds at 01:55 and at 02:55. -/
theorem generateSchedules_differs_by_date :
    (generateSchedules noFaults (zonedClock 1772971200000) sampleNewYorkGuild).1.schedules.schedules.map
        (fun s => (s.id, s.reminder_time))
      = [("sched_med_1_before_breakfast", some "01:55")]
    ∧ (generateSchedules noFaults (zonedClock 1773057600000) sampleNewYorkGuild).1.schedules.schedules.map
        (fun s => (s.id, s.reminder_time))
      = [("sched_med_1_before_breakfast", some "02:55")] := by
  decide

/-- C18, amended: with a working store, the slot list `generateSchedules`
writes is the compilation of the stored medicines and settings at the clock
reading: two guilds with the same medicines and settings documents get the same
slots at the same reading, whatever their stored schedules documents are, and
at any two readings the same slots up to `created_at` and the reminder time,
which are equal too, up to `created_at`, when the zone of the settings has no
clock change at either reading; every written slot is active. -/
theorem generateSchedules_full_recompute (clk clk' : Clock) (g g' : Guild)
    (hmed : g'.medicines = g.medicines) (hset : g'.settings = g.settings) :
    (generateSchedules noFaults clk g).1.schedules.schedules
      = compileSchedules clk g.medicines.medicines g.settings
    ∧ (generateSchedules noFaults clk g').1.schedules.schedules
      = (generateSchedules noFaults clk g).1.schedules.schedules
    ∧ ((generateSchedules noFaults clk g).1.schedules.schedules).map withoutTimes
      = ((generateSchedules noFaults clk' g').1.schedules.schedules).map withoutTimes
    ∧ (∀ c c' : Int,
        (clk.zone (strOr g.settings.timezone "Asia/Kolkata")).isFixed c →
        (clk'.zone (strOr g.settings.timezone "Asia/Kolkata")).isFixed c' →
        ((generateSchedules noFaults clk g).1.schedules.schedules).map withoutCreatedAt
          = ((generateSchedules noFaults clk' g').1.schedules.schedules).map withoutCreatedAt)
    ∧ (generateSchedules noFaults clk g).1.schedules.generated_at = some clk.now
    ∧ ∀ slot ∈ (generateSchedules noFaults clk g).1.schedules.schedules, slot.active = true := by
  refine ⟨generateSchedules_written clk g, ?_, ?_, ?_, ?_, ?_⟩
  · rw [generateSchedules_written, generateSchedules_written, hmed, hset]
  · rw [generateSchedules_written, generateSchedules_written, hmed, hset]
    exact compileSchedules_withoutTimes clk clk' _ _
  · intro c c' hfixed hfixed'
    rw [generateSchedules_written, generateSchedules_written, hmed, hset]
    exact compileSchedules_withoutCreatedAt clk clk' _ _ c c' hfixed hfixed'
  · simp [generateSchedules, writeSchedules, noFaults]
  · intro slot hs
    rw [generateSchedules_written] at hs
    obtain ⟨m, _, f, _, hc⟩ := (mem_compileSchedules _ _ _ _).1 hs
    exact (createScheduleFromFrequency_fields clk m f g.settings slot hc).2.1

theorem generateSchedules_full_recompute_witness :
    sampleInactive.medicines = (sampleGuild 30).medicines
    ∧ sampleInactive.settings = (sampleGuild 30).settings
    ∧ sampleInactive.schedules.schedules.map (fun s => s.active) = [false]
    ∧ (generateSchedules noFaults (sampleTick 5) sampleInactive).1.schedules.schedules
      = (generateSchedules noFaults (sampleTick 5) (sampleGuild 30)).1.schedules.schedules
    ∧ ((generateSchedules noFaults (sampleTick 5) (sampleGuild 30)).1.schedules.schedules).map
        withoutCreatedAt
      = ((generateSchedules noFaults (sampleTick 9) sampleInactive).1.schedules.schedules).map
        withoutCreatedAt
    ∧ (generateSchedules noFaults (sampleTick 9) sampleInactive).1.schedules.schedules.map
        (fun s => s.active) = [true] :=
  ⟨rfl, rfl, by decide,
    (generateSchedules_full_recompute (sampleTick 5) (sampleTick 9) (sampleGuild 30)
      sampleInactive rfl rfl).2.1,
    (generateSchedules_full_recompute (sampleTick 5) (sampleTick 9) (sampleGuild 30)
      sampleInactive rfl rfl).2.2.2.1 (-330) (-330) (fixedClock_isFixed _ _ _ _)
      (fixedClock_isFixed _ _ _ _),
    by decide⟩


/-- C16, counterexample: for a tenant in America/Nuuk whose breakfast starts at
00:10, with the advance of 15 minutes, compiled at noon UTC of 2026-03-29, the
day the clocks have gone from 23:00 to 00:00, the slot of `before_breakfast`
reminds at 22:55, whereas `1440 + 10 - 15` minutes past midnight is 23:55; the
day after it reminds at 23:55. -/
theorem createScheduleFromFrequency_before_clock_change :
    getProp sampleNuukSettings.meal_times "breakfast" = .own { start := "00:10", end_ := "01:00" }
    ∧ sampleNuukSettings.reminder_advance_minutes = 15
    ∧ (createScheduleFromFrequency (zonedClock 1774785600000) (sampleMedicine 30)
        "before_breakfast" sampleNuukSettings).map (fun slot => slot.reminder_time)
      = some (some "22:55")
    ∧ formatHHmm (1440 + 10 - 15) = "23:55"
    ∧ (createScheduleFromFrequency (zonedClock 1774872000000) (sampleMedicine 30)
        "before_breakfast" sampleNuukSettings).map (fun slot => slot.reminder_time)
      = some (some "23:55") := by
  decide

/-- C16, amended: for a `before_` tag whose meal is an entry of the settings
with the valid start time `s` minutes past midnight, the slot's reminder time
is always the text of a time of day from 00:00 to 23:59, and when the zone of
the settings has no clock change, for an advance `a` with `s < a <= 60` it is
the text of `1440 + s - a` minutes past midnight. -/
theorem createScheduleFromFrequency_before_wraps (clk : Clock) (medicine : Medicine)
    (mealName : String) (settings : Settings) (w : MealWindow) (s : Nat)
    (hw : getProp settings.meal_times mealName = .own w) (hs : s < 1440)
    (hstart : w.start = formatHHmm s) :
    ∃ slot, createScheduleFromFrequency clk medicine ("before_" ++ mealName) settings = some slot
      ∧ (∃ r, r < 1440 ∧ slot.reminder_time = some (formatHHmm r))
      ∧ (∀ c : Int, (clk.zone (strOr settings.timezone "Asia/Kolkata")).isFixed c
          → (s : Int) < settings.reminder_advance_minutes
          → settings.reminder_advance_minutes ≤ 60
          → slot.reminder_time
              = some (formatHHmm (1440 + (s : Int) - settings.reminder_advance_minutes).toNat)) := by
  have hm : momentHHmm (some w.start) = some s := by
    simp [momentHHmm, hstart, parseHHmm_formatHHmm s hs]
  obtain ⟨r, hr, hsub⟩ := subtractMinutesFormat_valid clk (some w.start)
    (strOr settings.timezone "Asia/Kolkata") s (numOr settings.reminder_advance_minutes 15) hm
  have hslot : ∃ slot,
      createScheduleFromFrequency clk medicine ("before_" ++ mealName) settings = some slot
      ∧ slot.reminder_time = some (subtractMinutesFormat clk (some w.start)
          (strOr settings.timezone "Asia/Kolkata")
          (numOr settings.reminder_advance_minutes 15)) := by
    simp [createScheduleFromFrequency, splitFrequency_before, hw, JsProp.start]
  obtain ⟨slot, hcreate, htime⟩ := hslot
  refine ⟨slot, hcreate, ⟨r, hr, by rw [htime, hsub]⟩, ?_⟩
  intro c hfixed ha hb
  have hne : settings.reminder_advance_minutes ≠ 0 := by omega
  rw [htime, subtractMinutesFormat_fixed clk (some w.start) _ c s _ hfixed hm]
  simp only [numOr, hne, if_false]
  congr 3
  omega

theorem createScheduleFromFrequency_before_wraps_witness :
    getProp sampleEarlySettings.meal_times "breakfast"
      = .own { start := "00:10", end_ := "01:00" }
    ∧ 10 < 1440
    ∧ (({ start := "00:10", end_ := "01:00" } : MealWindow).start = formatHHmm 10)
    ∧ ((sampleTick 0).zone (strOr sampleEarlySettings.timezone "Asia/Kolkata")).isFixed (-330)
    ∧ ((10 : Nat) : Int) < sampleEarlySettings.reminder_advance_minutes
    ∧ sampleEarlySettings.reminder_advance_minutes ≤ 60
    ∧ ∃ slot, createScheduleFromFrequency (sampleTick 0) (sampleMedicine 30)
          ("before_" ++ "breakfast") sampleEarlySettings = some slot
        ∧ slot.reminder_time = some "23:55" :=
  ⟨by decide, by decide, by decide, fixedClock_isFixed _ _ _ _, by decide, by decide,
    (createScheduleFromFrequency_before_wraps (sampleTick 0) (sampleMedicine 30) "breakfast"
      sampleEarlySettings { start := "00:10", end_ := "01:00" } 10 (by decide) (by decide)
      (by decide)).imp
      (fun _ h => ⟨h.1, h.2.2 (-330) (fixedClock_isFixed _ _ _ _) (by decide) (by decide)⟩)⟩

/-- A tag that starts with neither `before_` nor `after_` gives no slot. -/
theorem createScheduleFromFrequency_no_timing (clk : Clock) (medicine : Medicine)
    (frequency : String) (settings : Settings)
    (hb : startsWith frequency "before_" = false) (ha : startsWith frequency "after_" = false) :
    createScheduleFromFrequency clk medicine frequency settings = none := by
  simp [createScheduleFromFrequency, splitFrequency, hb, ha]

/-- A tag whose meal name is neither an own key of the meal windows nor a
property inherited from `Object.prototype` gives no slot. -/
theorem createScheduleFromFrequency_missing (clk : Clock) (medicine : Medicine)
    (mealName : String) (settings : Settings)
    (h : getProp settings.meal_times mealName = .missing) :
    createScheduleFromFrequency clk medicine ("before_" ++ mealName) settings = none
    ∧ createScheduleFromFrequency clk medicine ("after_" ++ mealName) settings = none := by
  simp [createScheduleFromFrequency, splitFrequency_before, splitFrequency_after, h]

/-- C17, at the failing input: `toString` and `constructor` are no keys of the
default meal windows (breakfast, lunch, dinner), yet for the tags
`before_toString` and `after_constructor` `createScheduleFromFrequency` returns
a slot, with the reminder time `Invalid date` and with no reminder time; so
`generateSchedules` emits two slots for a medicine with the tags
`before_toString` and `before_breakfast`, one more than it has tags whose meal
is a key of the meal windows. -/
theorem createScheduleFromFrequency_inherited_key (clk : Clock) (medicine : Medicine) :
    defaultSettings.meal_times.map (fun e => e.1) = ["breakfast", "lunch", "dinner"]
    ∧ (createScheduleFromFrequency clk medicine "before_toString" defaultSettings).map
        (fun slot => (slot.meal_time, slot.reminder_time))
      = some ("toString", some "Invalid date")
    ∧ (createScheduleFromFrequency clk medicine "after_constructor" defaultSettings).map
        (fun slot => (slot.meal_time, slot.reminder_time))
      = some ("constructor", none)
    ∧ (generateSchedules noFaults (sampleTick 0) sampleOddGuild).1.schedules.schedules.map
        (fun slot => (slot.frequency, slot.reminder_time))
      = [("before_toString", some "Invalid date"), ("before_breakfast", some "06:45")] := by
  refine ⟨by decide, ?_, ?_, by decide⟩ <;> rfl


/-! ## Slot ids -/

theorem invalidFreqs_eq_nil (frequencies : List String) :
    invalidFreqs frequencies = [] ↔ ∀ f ∈ frequencies, f ∈ validFrequencies := by
  simp [invalidFreqs, List.filter_eq_nil_iff]

/-- Two slot ids with tags from the valid list agree only when the medicine
ids agree and the tags agree. -/
theorem slotId_inj (a a' f f' : String) (hf : f ∈ validFrequencies)
    (hf' : f' ∈ validFrequencies)
    (h : "sched_" ++ a ++ "_" ++ f = "sched_" ++ a' ++ "_" ++ f') : a = a' ∧ f = f' := by
  have hd := congrArg (fun s : String => s.data.reverse) h
  simp only [String.data_append, List.reverse_append] at hd
  simp only [validFrequencies, List.mem_cons, List.mem_singleton, List.not_mem_nil, or_false]
    at hf hf'
  rcases hf with rfl | rfl | rfl | rfl | rfl | rfl <;>
    rcases hf' with rfl | rfl | rfl | rfl | rfl | rfl <;>
    simp at hd <;>
    exact ⟨String.ext hd, rfl⟩

theorem slotId_inj_tag (a f f' : String)
    (h : "sched_" ++ a ++ "_" ++ f = "sched_" ++ a ++ "_" ++ f') : f = f' := by
  have hd := congrArg String.data h
  simp only [String.data_append, List.append_assoc, List.append_cancel_left_eq] at hd
  exact String.ext hd

/-- C19, counterexample: the frequency list of `sampleTwiceDaily` names
`before_breakfast` twice and passes the validation of the add-medicine form;
`generateSchedules` writes two slots for it with the same slot id. -/
theorem generateSchedules_duplicate_slot_id :
    invalidFreqs sampleTwiceDaily.frequency = []
    ∧ (sampleTwiceGuild.medicines.medicines.map (fun m => m.id)).Nodup
    ∧ (generateSchedules noFaults (sampleTick 0) sampleTwiceGuild).1.schedules.schedules.map
        (fun s => s.id)
      = ["sched_med_1_before_breakfast", "sched_med_1_before_breakfast"] := by
  decide

/-- C19, amended: with a working store, for medicines with pairwise distinct
ids, each with a frequency list that the add-medicine validation accepts and
that names no tag twice, no two slots written by `generateSchedules` have the
same slot id. -/
theorem generateSchedules_slot_ids_nodup (clk : Clock) (g : Guild)
    (hids : (g.medicines.medicines.map (fun m => m.id)).Nodup)
    (hvalid : ∀ m ∈ g.medicines.medicines, invalidFreqs m.frequency = [])
    (htags : ∀ m ∈ g.medicines.medicines, m.frequency.Nodup) :
    ((generateSchedules noFaults clk g).1.schedules.schedules.map (fun s => s.id)).Nodup := by
  rw [generateSchedules_written]
  simp only [compileSchedules, List.map_flatten, List.map_map]
  rw [List.nodup_flatten]
  constructor
  · intro l hl
    obtain ⟨m, hm, rfl⟩ := List.mem_map.1 hl
    simp only [Function.comp, List.map_filterMap]
    apply List.Nodup.filterMap _ (htags m hm)
    intro f f' b hb hb'
    simp only [Option.mem_def, Option.map_eq_some'] at hb hb'
    obtain ⟨slot, hslot, rfl⟩ := hb
    obtain ⟨slot', hslot', he⟩ := hb'
    have h1 := (createScheduleFromFrequency_fields clk m f g.settings slot hslot).1
    have h2 := (createScheduleFromFrequency_fields clk m f' g.settings slot' hslot').1
    rw [h1, h2] at he
    exact (slotId_inj_tag m.id f' f he).symm
  · rw [List.pairwise_map]
    have hpair : List.Pairwise (fun m m' : Medicine => m.id ≠ m'.id) g.medicines.medicines :=
      List.pairwise_map.1 hids
    refine List.Pairwise.imp_of_mem ?_ hpair
    intro m m' hm hm' hne
    simp only [Function.comp, List.map_filterMap]
    intro b hb hb'
    obtain ⟨f, hf, hfb⟩ := List.mem_filterMap.1 hb
    obtain ⟨f', hf', hfb'⟩ := List.mem_filterMap.1 hb'
    simp only [Option.map_eq_some'] at hfb hfb'
    obtain ⟨slot, hslot, rfl⟩ := hfb
    obtain ⟨slot', hslot', he⟩ := hfb'
    have h1 := (createScheduleFromFrequency_fields clk m f g.settings slot hslot).1
    have h2 := (createScheduleFromFrequency_fields clk m' f' g.settings slot' hslot').1
    rw [h1, h2] at he
    have hv := (invalidFreqs_eq_nil _).1 (hvalid m hm) f hf
    have hv' := (invalidFreqs_eq_nil _).1 (hvalid m' hm') f' hf'
    exact hne (slotId_inj m'.id m.id f' f hv' hv he).1.symm

theorem generateSchedules_slot_ids_nodup_witness :
    (sampleTwoMedicines.medicines.medicines.map (fun m => m.id)).Nodup
    ∧ (∀ m ∈ sampleTwoMedicines.medicines.medicines, invalidFreqs m.frequency = [])
    ∧ (∀ m ∈ sampleTwoMedicines.medicines.medicines, m.frequency.Nodup)
    ∧ (generateSchedules noFaults (sampleTick 0) sampleTwoMedicines).1.schedules.schedules.map
        (fun s => s.id)
      = ["sched_med_1_before_breakfast", "sched_med_1_after_lunch",
         "sched_med_2_before_breakfast", "sched_med_2_after_dinner"]
    ∧ ((generateSchedules noFaults (sampleTick 0) sampleTwoMedicines).1.schedules.schedules.map
        (fun s => s.id)).Nodup :=
  ⟨by decide, by decide, by decide, by decide,
    generateSchedules_slot_ids_nodup (sampleTick 0) sampleTwoMedicines (by decide) (by decide)
      (by decide)⟩


/-! ## Selection of the due slots -/

theorem isDue_iff (clk : Clock) (timezone : String) (slot : Schedule) (c : Int)
    (hfixed : (clk.zone timezone).isFixed c)
    (hday : clk.parseDay timezone = clk.zoneDay timezone) :
    isDue clk timezone slot = true ↔ dueWithinOneMinute clk timezone slot := by
  unfold isDue dueWithinOneMinute
  cases hact : slot.active with
  | false => simp
  | true =>
    cases ht : momentHHmm slot.reminder_time with
    | none => simp [momentTz, ht]
    | some t =>
      rw [momentTz_fixed clk _ timezone c t hfixed ht, hday]
      simp only [Bool.not_true, Bool.false_eq_true, if_false, decide_eq_true_eq, true_and,
        Option.some.injEq, exists_eq_left', Clock.msOfDay, Clock.zoneDay, Clock.zoneOffset,
        (hfixed _).1]
      rw [Int.natAbs_tdiv, Int.abs_eq_natAbs]
      have h : (60000 : Int).natAbs = 60000 := rfl
      rw [h]
      have hdiv : ∀ n : Nat, n.div 60000 = n / 60000 := fun _ => rfl
      rw [hdiv]
      omega

/-- C15, counterexample: a tenant in Asia/Kolkata, which has no clock change,
with a `moment-timezone` below 0.6.4, at 00:30 local time (19:00 UTC of the day
before): the stored active slot reminds at 00:30, no minute away from now as a
time of the current day of the zone, and `getTodaysSchedules` returns no slot,
because the reminder time is put on the UTC date, a day earlier. -/
theorem getTodaysSchedules_misses_early_slot :
    sampleEarlySlot.schedules.schedules.map (fun s => (s.active, s.reminder_time))
      = [(true, some "00:30")]
    ∧ (sampleTick 68400000).msOfDay "Asia/Kolkata" = 30 * 60000
    ∧ (∀ slot ∈ sampleEarlySlot.schedules.schedules,
        dueWithinOneMinute (sampleTick 68400000) "Asia/Kolkata" slot)
    ∧ (sampleTick 68400000).parseDay "Asia/Kolkata" = 0
    ∧ (sampleTick 68400000).zoneDay "Asia/Kolkata" = 1
    ∧ getTodaysSchedules noFaults (sampleTick 68400000) sampleEarlySlot = [] := by
  refine ⟨by decide, by decide, ?_, by decide, by decide, by decide⟩
  intro slot hslot
  simp only [sampleEarlySlot, List.mem_singleton] at hslot
  subst hslot
  exact ⟨rfl, 30, by decide, by decide⟩

/-- C15, amended: with a working store, when the tenant's zone has no clock
change and `moment` puts a time-only text on the current date of the zone (with
a `moment-timezone` below 0.6.4: when the UTC date is the date of the zone),
`getTodaysSchedules` returns the stored slots filtered, in stored order, by the
condition that the slot is active and its reminder time, read as a time of today
in the tenant's zone, lies at most one whole minute from now in either
direction; every returned slot is active. -/
theorem getTodaysSchedules_selects (clk : Clock) (g : Guild) (c : Int)
    (hfixed : (clk.zone (strOr g.settings.timezone "Asia/Kolkata")).isFixed c)
    (hday : clk.parseDay (strOr g.settings.timezone "Asia/Kolkata")
      = clk.zoneDay (strOr g.settings.timezone "Asia/Kolkata")) :
    ∃ p : Schedule → Bool,
      (∀ slot, p slot = true
        ↔ dueWithinOneMinute clk (strOr g.settings.timezone "Asia/Kolkata") slot)
      ∧ getTodaysSchedules noFaults clk g = g.schedules.schedules.filter p
      ∧ (getTodaysSchedules noFaults clk g).Sublist g.schedules.schedules
      ∧ ∀ slot ∈ getTodaysSchedules noFaults clk g, slot.active = true := by
  have heq : getTodaysSchedules noFaults clk g
      = g.schedules.schedules.filter (isDue clk (strOr g.settings.timezone "Asia/Kolkata")) := by
    simp [getTodaysSchedules, getSchedules, getSettings, readSchedules, readSettings, noFaults]
  refine ⟨isDue clk (strOr g.settings.timezone "Asia/Kolkata"),
    fun slot => isDue_iff _ _ _ c hfixed hday, heq, ?_, ?_⟩
  · rw [heq]
    exact List.filter_sublist _
  · intro slot hs
    rw [heq] at hs
    exact ((isDue_iff _ _ _ c hfixed hday).1 (List.mem_filter.1 hs).2).1

theorem getTodaysSchedules_selects_witness :
    ((sampleTick 4619999).zone (strOr sampleScheduled.guild.settings.timezone "Asia/Kolkata")).isFixed
        (-330)
    ∧ (sampleTick 4619999).parseDay (strOr sampleScheduled.guild.settings.timezone "Asia/Kolkata")
      = (sampleTick 4619999).zoneDay (strOr sampleScheduled.guild.settings.timezone "Asia/Kolkata")
    ∧ getTodaysSchedules noFaults (sampleTick 4619999) sampleScheduled.guild = [sampleSchedule]
    ∧ getTodaysSchedules noFaults (sampleTick 4620000) sampleScheduled.guild = []
    ∧ ∀ slot ∈ getTodaysSchedules noFaults (sampleTick 4619999) sampleScheduled.guild,
        slot.active = true :=
  ⟨fixedClock_isFixed _ _ _ _, by decide, by decide, by decide,
    (getTodaysSchedules_selects (sampleTick 4619999) sampleScheduled.guild (-330)
      (fixedClock_isFixed _ _ _ _) (by decide)).elim (fun _ h => h.2.2.2)⟩


/-! ## Manual intake updates -/

theorem channelSend_noFaults (g : Guild) (m : Message) :
    channelSend noFaults g m
      = some ({ g with messages := g.messages ++ [m] }, g.messages.length) := by
  simp [channelSend, noFaults]

/-- The guild `updateIntake` leaves for a status that takes a dose, applied to
a stored medicine of the named target with a working store. -/
theorem updateIntake_decrement (now : Nat) (g : Guild) (interaction : Interaction)
    (medicineId targetUserId status notes : String) (medicine : Medicine)
    (hstored : getMedicineById noFaults g medicineId = some medicine)
    (htarget : medicine.target_id = targetUserId)
    (hstatus : (intakeOutcome status).2 = -1) :
    getMedicineById noFaults
        (updateIntake noFaults now g interaction medicineId targetUserId status notes).1
        medicineId
      = some { medicine with
               inventory := max 0 (medicine.inventory - 1)
               updated_by := some interaction.user_id
               updated_at := some now }
    ∧ logTypes (updateIntake noFaults now g interaction medicineId targetUserId status notes).1
      = ((intakeOutcome status).1
          :: inventoryLogTypes (max 0 (medicine.inventory - 1)) ++ logTypes g).take 1000 := by
  subst htarget
  obtain ⟨i, _, _, h2, _, _, _⟩ :=
    updateInventory_stored now g medicineId (-1) interaction.user_id medicine hstored
  have hpair : updateInventory noFaults now g medicineId (-1) interaction.user_id
      = ((updateInventory noFaults now g medicineId (-1) interaction.user_id).1, true) :=
    Prod.ext rfl h2
  have ht := taken_effects now g medicineId interaction.user_id medicine
    { type := (intakeOutcome status).1
      fields :=
        [("medicine_id", medicineId), ("medicine_name", medicine.name),
         ("target_id", medicine.target_id), ("updated_by", interaction.user_id),
         ("status", status), ("notes", notes), ("manual_entry", "true"),
         ("timestamp", toString now),
         ("message", "Manual intake update: " ++ status ++ " for " ++ medicine.name)] }
    hstored
  simp only [updateIntake, hstored, ne_eq, not_true_eq_false, if_false, hstatus,
    show ((-1 : Int) = 0) = False by decide, not_false_eq_true, if_true, channelSend_noFaults]
  rw [hpair]
  simp only [Bool.not_true, Bool.false_eq_true, if_false]
  constructor
  · have h1 := ht.1
    rw [getMedicineById_eq] at h1 ⊢
    exact h1
  · exact (logTypes_congr _ _ rfl).trans ht.2

/-- C20: with a working store, for a stored medicine with count `n` that is
assigned to the named target, the command `update-intake` stores the count
`max(0, n - 1)` for each of the statuses `taken`, `taken_late` and
`undo_missed` and leaves the medicines as they are for `missed`; a second
invocation is applied in full again and leaves `max(0, max(0, n - 1) - 1)`. -/
theorem updateIntake_effects (now now' : Nat) (g : Guild) (interaction : Interaction)
    (medicineId targetUserId notes : String) (medicine : Medicine)
    (hstored : getMedicineById noFaults g medicineId = some medicine)
    (htarget : medicine.target_id = targetUserId) :
    (∀ status, status = "taken" ∨ status = "taken_late" ∨ status = "undo_missed" →
      inventoryOf (updateIntake noFaults now g interaction medicineId targetUserId status
          notes).1 medicineId
        = some (max 0 (medicine.inventory - 1))
      ∧ ∀ status', status' = "taken" ∨ status' = "taken_late" ∨ status' = "undo_missed" →
          inventoryOf
              (updateIntake noFaults now'
                (updateIntake noFaults now g interaction medicineId targetUserId status notes).1
                interaction medicineId targetUserId status' notes).1 medicineId
            = some (max 0 (max 0 (medicine.inventory - 1) - 1)))
    ∧ (updateIntake noFaults now g interaction medicineId targetUserId "missed" notes).1.medicines
        = g.medicines
    ∧ inventoryOf (updateIntake noFaults now g interaction medicineId targetUserId "missed"
        notes).1 medicineId
      = some medicine.inventory := by
  have hdec : ∀ status, status = "taken" ∨ status = "taken_late" ∨ status = "undo_missed" →
      (intakeOutcome status).2 = -1 := by
    intro status h
    rcases h with rfl | rfl | rfl <;> decide
  have hmissed : (updateIntake noFaults now g interaction medicineId targetUserId "missed"
      notes).1.medicines = g.medicines := by
    have ho : intakeOutcome "missed" = ("medicine_missed_manual", 0) := by decide
    simp only [updateIntake, hstored, htarget, ne_eq, not_true_eq_false, if_false, ho,
      Bool.not_true, Bool.false_eq_true, channelSend_noFaults]
    exact logActivity_medicines _ _ _ _
  refine ⟨?_, hmissed, ?_⟩
  · intro status hs
    obtain ⟨h1, _⟩ := updateIntake_decrement now g interaction medicineId targetUserId status
      notes medicine hstored htarget (hdec status hs)
    refine ⟨by rw [inventoryOf, h1]; rfl, ?_⟩
    intro status' hs'
    obtain ⟨k1, _⟩ := updateIntake_decrement now'
      (updateIntake noFaults now g interaction medicineId targetUserId status notes).1
      interaction medicineId targetUserId status' notes _ h1 htarget (hdec status' hs')
    rw [inventoryOf, k1]
    rfl
  · rw [inventoryOf_congr _ _ hmissed]
    simp [inventoryOf, hstored]

theorem updateIntake_effects_witness :
    getMedicineById noFaults (sampleGuild 30) "med_1" = some (sampleMedicine 30)
    ∧ (sampleMedicine 30).target_id = "u1"
    ∧ inventoryOf (updateIntake noFaults 5 (sampleGuild 30) sampleTracker "med_1" "u1"
        "undo_missed" "").1 "med_1"
      = some (max 0 ((sampleMedicine 30).inventory - 1))
    ∧ inventoryOf (updateIntake noFaults 5 (sampleGuild 30) sampleTracker "med_1" "u1"
        "missed" "").1 "med_1"
      = some (sampleMedicine 30).inventory :=
  ⟨by decide, rfl,
    ((updateIntake_effects 5 6 (sampleGuild 30) sampleTracker "med_1" "u1" "" (sampleMedicine 30)
      (by decide) rfl).1 "undo_missed" (Or.inr (Or.inr rfl))).1,
    (updateIntake_effects 5 6 (sampleGuild 30) sampleTracker "med_1" "u1" "" (sampleMedicine 30)
      (by decide) rfl).2.2⟩



/-! ## The activity log -/

/-- C22: with working reads and writes, after `logActivity` the stored log is
the new entry followed by the first `min(|L|, 999)` entries of the log `L`
stored before, unchanged and in their order; its length is
`min(|L| + 1, 1000)` and the call returns `true`. -/
theorem logActivity_appends (now : Nat) (g : Guild) (a : Activity) :
    (logActivity noFaults now g a).1.logs.logs
      = { id := toString now, timestamp := now, guild_id := g.id, type := a.type,
          fields := a.fields }
        :: g.logs.logs.take (min g.logs.logs.length 999)
    ∧ (logActivity noFaults now g a).1.logs.logs.length = min (g.logs.logs.length + 1) 1000
    ∧ (logActivity noFaults now g a).2 = true := by
  have h := logActivity_logs now g a
  refine ⟨?_, ?_, rfl⟩
  · rw [h, List.take_succ_cons]
    congr 1
    rcases Nat.le_total g.logs.logs.length 999 with hl | hl
    · rw [Nat.min_eq_left hl, List.take_of_length_le hl, List.take_of_length_le (Nat.le_refl _)]
    · rw [Nat.min_eq_right hl]
  · rw [h, List.length_take, List.length_cons, Nat.min_comm]

/-- C30: when the read of `logs.json` fails inside `logActivity` and the write
works, the log written back holds the new entry alone, whatever was stored, and
the call returns `true`. -/
theorem logActivity_failed_read (io : Faults) (now : Nat) (g : Guild) (a : Activity)
    (hread : io.readFails "logs.json" = true) (hwrite : io.writeFails "logs.json" = false) :
    (logActivity io now g a).1.logs.logs
      = [{ id := toString now, timestamp := now, guild_id := g.id, type := a.type,
           fields := a.fields }]
    ∧ (logActivity io now g a).2 = true := by
  refine ⟨?_, rfl⟩
  simp only [logActivity, readLogs, hread, writeLogs, hwrite, if_true, Bool.false_eq_true,
    if_false]
  split_ifs <;> simp [sendToLogChannel_logs]

theorem logActivity_failed_read_witness :
    logsUnreadable.readFails "logs.json" = true
    ∧ logsUnreadable.writeFails "logs.json" = false
    ∧ logTypes sampleTakenOnce.1.guild = ["medicine_taken", "medicine_updated", "reminder_sent"]
    ∧ (logActivity logsUnreadable 9000 sampleTakenOnce.1.guild
          { type := "medicine_snoozed" }).1.logs.logs
      = [{ id := toString 9000, timestamp := 9000, guild_id := sampleTakenOnce.1.guild.id,
           type := "medicine_snoozed", fields := [] }] :=
  ⟨rfl, rfl, by decide,
    (logActivity_failed_read logsUnreadable 9000 sampleTakenOnce.1.guild
      { type := "medicine_snoozed" } rfl rfl).1⟩

/-! ## Failures of the store and unknown medicines -/

/-- C25, at the failing input: with the data channel down `writeData` returns
`false` for the schedules document and nothing is stored, yet
`generateSchedules` returns `true`. -/
theorem generateSchedules_ignores_write (clk : Clock) (g : Guild) (data : SchedulesDoc) :
    (writeSchedules storeDown g data).2 = false
    ∧ generateSchedules storeDown clk g = (g, true) := by
  constructor <;> rfl

/-- C24, counterexample: the target answers the reminder of `sampleDelivered`
with the id `med_9` of no stored medicine; the answer is `Medicine not found.`
and the guild is unchanged, but the entry of the reminder key has left
`reminderTimeouts` and its escalation timer is no longer pending. -/
theorem unknown_medicine_still_cancels_timer :
    getMedicineById noFaults sampleDelivered.guild "med_9" = none
    ∧ mapHas sampleDelivered.reminderTimeouts sampleKey = true
    ∧ sampleDelivered.timers.length = 1
    ∧ sampleUnknownMedicine.2 = Reply.reply "Medicine not found."
    ∧ sampleUnknownMedicine.1.guild = sampleDelivered.guild
    ∧ sampleUnknownMedicine.1.reminderTimeouts = []
    ∧ sampleUnknownMedicine.1.timers = [] := by
  decide

/-- C24, amended: `handleMedicineResponse` called by the target with a medicine
id that is not in the store answers `Medicine not found.` and leaves the guild,
hence the medicines document and the activity log, as it was; the cancellation
of the escalation timer has already been done: the state left is the one after
the cancellation and a non-empty reminder key is no longer in
`reminderTimeouts`. -/
theorem handleMedicineResponse_unknown_medicine (io : Faults) (now : Nat) (s : State)
    (interaction : Interaction) (action medicineId targetId : String)
    (reminderKey : Option String)
    (hcaller : interaction.user_id = targetId)
    (hmissing : getMedicineById io s.guild medicineId = none) :
    handleMedicineResponse io now s interaction action medicineId targetId reminderKey
      = (cancelMissedTimeout s reminderKey, Reply.reply "Medicine not found.")
    ∧ (handleMedicineResponse io now s interaction action medicineId targetId
        reminderKey).1.guild = s.guild
    ∧ ∀ k, reminderKey = some k → k ≠ "" →
        mapHas (handleMedicineResponse io now s interaction action medicineId targetId
          reminderKey).1.reminderTimeouts k = false := by
  have hg := cancelMissedTimeout_guild s reminderKey
  have heq : handleMedicineResponse io now s interaction action medicineId targetId reminderKey
      = (cancelMissedTimeout s reminderKey, Reply.reply "Medicine not found.") := by
    simp only [handleMedicineResponse, hcaller, ne_eq, not_true_eq_false, if_false, hg, hmissing]
  refine ⟨heq, by rw [heq]; exact hg, ?_⟩
  intro k hk hne
  rw [heq, hk]
  exact cancelMissedTimeout_has s k hne

theorem handleMedicineResponse_unknown_medicine_witness :
    sampleTarget.user_id = "u1"
    ∧ getMedicineById noFaults sampleDelivered.guild "med_9" = none
    ∧ sampleUnknownMedicine
      = (cancelMissedTimeout sampleDelivered (some sampleKey), Reply.reply "Medicine not found.") :=
  ⟨rfl, by decide,
    (handleMedicineResponse_unknown_medicine noFaults 2000 sampleDelivered sampleTarget "taken"
      "med_9" "u1" (some sampleKey) rfl (by decide)).1⟩


/-! ## The manual intake command, log types -/

/-- The newest log entry and the answer of `updateIntake` for a stored medicine
of the named target with a working store. -/
theorem updateIntake_logged (now : Nat) (g : Guild) (interaction : Interaction)
    (medicineId targetUserId status notes : String) (medicine : Medicine)
    (hstored : getMedicineById noFaults g medicineId = some medicine)
    (htarget : medicine.target_id = targetUserId) :
    (logTypes (updateIntake noFaults now g interaction medicineId targetUserId status
        notes).1).head? = some (intakeOutcome status).1
    ∧ (updateIntake noFaults now g interaction medicineId targetUserId status notes).2
      = Reply.reply "Manual Intake Update" := by
  subst htarget
  by_cases hc : (intakeOutcome status).2 = 0
  · simp only [updateIntake, hstored, ne_eq, not_true_eq_false, if_false, hc, Bool.not_true,
      Bool.false_eq_true, channelSend_noFaults]
    refine ⟨?_, trivial⟩
    refine (congrArg List.head?
      ((logTypes_congr _ _ rfl).trans (logTypes_logActivity _ _ _))).trans ?_
    simp
  · obtain ⟨i, _, _, h2, _, _, _⟩ :=
      updateInventory_stored now g medicineId (intakeOutcome status).2 interaction.user_id
        medicine hstored
    have hpair : updateInventory noFaults now g medicineId (intakeOutcome status).2
          interaction.user_id
        = ((updateInventory noFaults now g medicineId (intakeOutcome status).2
            interaction.user_id).1, true) :=
      Prod.ext rfl h2
    simp only [updateIntake, hstored, ne_eq, not_true_eq_false, if_false, hc, not_false_eq_true,
      if_true, channelSend_noFaults]
    rw [hpair]
    simp only [Bool.not_true, Bool.false_eq_true, if_false]
    refine ⟨?_, trivial⟩
    refine (congrArg List.head?
      ((logTypes_congr _ _ rfl).trans (logTypes_logActivity _ _ _))).trans ?_
    simp

/-- C21, counterexample: a tracker runs the command with the status
`undo_missed` for the stored `sampleMedicine`; the command succeeds and the
entry it logs has the type `medicine_missed_corrected`, and no entry of the log
has a type that ends in `_manual`. -/
theorem updateIntake_undo_missed_type :
    (updateIntake noFaults 5 (sampleGuild 30) sampleTracker "med_1" "u1" "undo_missed" "").2
      = Reply.reply "Manual Intake Update"
    ∧ logTypes (updateIntake noFaults 5 (sampleGuild 30) sampleTracker "med_1" "u1"
        "undo_missed" "").1 = ["medicine_missed_corrected", "medicine_updated"]
    ∧ endsWith "medicine_missed_corrected" "_manual" = false
    ∧ endsWith "medicine_updated" "_manual" = false := by
  decide

/-- C21, amended: with a working store, for a stored medicine of the named
target the command succeeds for each of its four statuses and the newest log
entry is the one it logs: of type `medicine_taken_manual` for `taken`,
`medicine_taken_late_manual` for `taken_late` and `medicine_missed_manual` for
`missed`, which end in `_manual`, and of type `medicine_missed_corrected` for
`undo_missed`, which does not. -/
theorem updateIntake_log_types (now : Nat) (g : Guild) (interaction : Interaction)
    (medicineId targetUserId notes : String) (medicine : Medicine)
    (hstored : getMedicineById noFaults g medicineId = some medicine)
    (htarget : medicine.target_id = targetUserId) :
    (∀ status, status = "taken" ∨ status = "taken_late" ∨ status = "missed"
        ∨ status = "undo_missed" →
      (updateIntake noFaults now g interaction medicineId targetUserId status notes).2
        = Reply.reply "Manual Intake Update")
    ∧ (logTypes (updateIntake noFaults now g interaction medicineId targetUserId "taken"
        notes).1).head? = some "medicine_taken_manual"
    ∧ (logTypes (updateIntake noFaults now g interaction medicineId targetUserId "taken_late"
        notes).1).head? = some "medicine_taken_late_manual"
    ∧ (logTypes (updateIntake noFaults now g interaction medicineId targetUserId "missed"
        notes).1).head? = some "medicine_missed_manual"
    ∧ (logTypes (updateIntake noFaults now g interaction medicineId targetUserId "undo_missed"
        notes).1).head? = some "medicine_missed_corrected"
    ∧ endsWith "medicine_taken_manual" "_manual" = true
    ∧ endsWith "medicine_taken_late_manual" "_manual" = true
    ∧ endsWith "medicine_missed_manual" "_manual" = true
    ∧ endsWith "medicine_missed_corrected" "_manual" = false := by
  have h := fun status =>
    updateIntake_logged now g interaction medicineId targetUserId status notes medicine hstored
      htarget
  exact ⟨fun status _ => (h status).2, (h "taken").1, (h "taken_late").1, (h "missed").1,
    (h "undo_missed").1, by decide, by decide, by decide, by decide⟩

theorem updateIntake_log_types_witness :
    getMedicineById noFaults (sampleGuild 30) "med_1" = some (sampleMedicine 30)
    ∧ (sampleMedicine 30).target_id = "u1"
    ∧ (logTypes (updateIntake noFaults 5 (sampleGuild 30) sampleTracker "med_1" "u1" "missed"
        "").1).head? = some "medicine_missed_manual" :=
  ⟨by decide, rfl,
    (updateIntake_log_types 5 (sampleGuild 30) sampleTracker "med_1" "u1" "" (sampleMedicine 30)
      (by decide) rfl).2.2.2.1⟩

/-! ## The settings form -/

/-- A text that fails the test of the regular expression is no part of an
accepted range. -/
theorem parseTimeRange_matches (timeRange : String) (w : MealWindow)
    (h : parseTimeRange timeRange = some w) :
    matchesHHMM w.start = true ∧ matchesHHMM w.end_ = true := by
  unfold parseTimeRange at h
  simp only at h
  split at h
  · split_ifs at h with h1 h2
    simp only [Option.some.injEq] at h
    subst h
    simpa using h2
  · exact absurd h (by simp)

/-- C23, at the failing input: the form is submitted with the breakfast range
`99:99-10:00`, whose start is no time of day; the submission is accepted, the
settings store the text `99:99` and the recompiled slot of the medicine carries
the reminder time `Invalid date`.  A range whose end precedes its start is
accepted as well. -/
theorem handleMealTimesModal_accepts_invalid_time :
    parseHHmm "99:99" = none
    ∧ sampleBadRange.2 = Reply.reply "Meal Times Updated Successfully"
    ∧ getProp sampleBadRange.1.settings.meal_times "breakfast"
      = JsProp.own { start := "99:99", end_ := "10:00" }
    ∧ sampleScheduled.guild.schedules.schedules.map (fun slot => slot.reminder_time)
      = [some "06:45"]
    ∧ sampleBadRange.1.schedules.schedules.map (fun slot => slot.reminder_time)
      = [some "Invalid date"]
    ∧ sampleReversedRange.2 = Reply.reply "Meal Times Updated Successfully"
    ∧ getProp sampleReversedRange.1.settings.meal_times "breakfast"
      = JsProp.own { start := "10:00", end_ := "07:00" } := by
  decide

/-! ## Adding a medicine -/

/-- C27, at the failing input: the form is submitted with the inventory text
`-5`, which fits the field; the medicine is stored with the inventory `-5`. -/
theorem handleAddMedicineModal_negative_inventory :
    "-5".length ≤ 10
    ∧ parseInt "-5" = some (-5)
    ∧ sampleNegativeStock.2 = Reply.reply "Medicine Added Successfully"
    ∧ sampleNegativeStock.1.medicines.medicines.map (fun m => (m.id, m.inventory))
      = [("med_1", 30), ("med_5", -5)]
    ∧ inventoryOf sampleNegativeStock.1 "med_5" = some (-5) := by
  decide

/-- One `addMedicine` call keeps the ids distinct when the new id is fresh. -/
theorem addMedicine_ids_nodup (io : Faults) (now : Nat) (g : Guild) (data : MedicineData)
    (hnodup : (medicineIds g).Nodup)
    (hfresh : g.medicines.medicines.all
      (fun m => m.id != (newMedicine now data).id) = true) :
    (medicineIds (addMedicine io now g data).1).Nodup := by
  by_cases hw : io.writeFails "medicines.json" = true
  · simpa [addMedicine, writeMedicines, hw] using hnodup
  · simp only [addMedicine, writeMedicines, hw, Bool.false_eq_true, if_false, if_true,
      medicineIds, logActivity_medicines]
    by_cases hr : io.readFails "medicines.json" = true
    · simp [readMedicines, hr]
    · simp only [readMedicines, hr, Bool.false_eq_true, if_false, List.map_append, List.map_cons,
        List.map_nil]
      rw [List.nodup_append]
      refine ⟨hnodup, List.nodup_singleton _, ?_⟩
      intro a ha hb
      simp only [List.mem_singleton] at hb
      subst hb
      obtain ⟨m, hm, hid⟩ := List.mem_map.1 ha
      have := List.all_eq_true.1 hfresh m hm
      simp [hid] at this

/-- C26, counterexample: two `addMedicine` calls at the same clock reading 5
on a store with the single id `med_1` both store a medicine with the id
`med_5`. -/
theorem addMedicine_same_instant_same_id :
    (medicineIds (sampleGuild 30)).Nodup
    ∧ medicineIds sampleAddedTwice = ["med_1", "med_5", "med_5"]
    ∧ ¬ (medicineIds sampleAddedTwice).Nodup := by
  decide

/-- C26, amended: after any sequence of `addMedicine` calls on a store whose
medicine ids are pairwise distinct, the ids of the stored medicines are still
pairwise distinct provided that, at each call, the id of the new medicine (its
own `id` when `medicineData` carries one, `med_` followed by the clock reading
otherwise) is the id of no medicine stored at that moment; reads and writes may
fail. -/
theorem applyAddCalls_ids_nodup (g : Guild) (calls : List AddCall)
    (hnodup : (medicineIds g).Nodup) (hfresh : freshIds g calls = true) :
    (medicineIds (applyAddCalls g calls)).Nodup := by
  induction calls generalizing g with
  | nil => exact hnodup
  | cons c cs ih =>
    simp only [freshIds, Bool.and_eq_true] at hfresh
    exact ih _ (addMedicine_ids_nodup c.io c.now g c.medicineData hnodup hfresh.1) hfresh.2

theorem applyAddCalls_ids_nodup_witness :
    (medicineIds (sampleGuild 30)).Nodup
    ∧ freshIds (sampleGuild 30)
        [{ io := noFaults, now := 5, medicineData := sampleData },
         { io := storeDown, now := 7, medicineData := sampleData },
         { io := noFaults, now := 6, medicineData := sampleData }] = true
    ∧ (medicineIds (applyAddCalls (sampleGuild 30)
        [{ io := noFaults, now := 5, medicineData := sampleData },
         { io := storeDown, now := 7, medicineData := sampleData },
         { io := noFaults, now := 6, medicineData := sampleData }])).Nodup :=
  ⟨by decide, by decide,
    applyAddCalls_ids_nodup (sampleGuild 30)
      [{ io := noFaults, now := 5, medicineData := sampleData },
       { io := storeDown, now := 7, medicineData := sampleData },
       { io := noFaults, now := 6, medicineData := sampleData }] (by decide) (by decide)⟩


/-! ## Reminders that are not delivered -/

theorem sendMedicineReminder_undelivered (io : Faults) (now : Nat) (st : State)
    (schedule : Schedule)
    (h : getMedicineById io st.guild schedule.medicine_id = none
      ∨ io.sendFails "medicine-reminders" = true) :
    sendMedicineReminder io now st schedule = st := by
  unfold sendMedicineReminder
  split
  · rfl
  · rename_i medicine hmed
    rcases h with h | h
    · rw [h] at hmed
      exact absurd hmed (by simp)
    · dsimp only
      split
      · rfl
      · simp [channelSend, h]

theorem getMedicineById_congr (io : Faults) (g g' : Guild) (h : g'.medicines = g.medicines)
    (id : String) : getMedicineById io g' id = getMedicineById io g id := by
  simp [getMedicineById, getMedicines, readMedicines, h]

theorem processSchedule_stamp (io : Faults) (clk : Clock) (acc : State × List Schedule)
    (y : Schedule) (k : String) (n : Nat)
    (hhas : mapHas acc.1.activeReminders k = true)
    (hstamp : ∀ e ∈ acc.1.activeReminders, e.1 = k → e.2 = n) :
    ∀ e ∈ (processSchedule io clk acc y).1.activeReminders, e.1 = k → e.2 = n := by
  unfold processSchedule
  simp only
  split
  · exact hstamp
  · rename_i hy
    intro e he hek
    simp only [sendMedicineReminder_activeReminders] at he
    rcases mem_mapSet _ _ _ _ he with he' | he'
    · exact hstamp e he' hek
    · exfalso
      apply hy
      rw [he'] at hek
      simp only at hek
      rw [hek]
      exact hhas

theorem foldl_processSchedule_stamp (io : Faults) (clk : Clock) (l : List Schedule)
    (acc : State × List Schedule) (k : String) (n : Nat)
    (hhas : mapHas acc.1.activeReminders k = true)
    (hstamp : ∀ e ∈ acc.1.activeReminders, e.1 = k → e.2 = n) :
    ∀ e ∈ (l.foldl (processSchedule io clk) acc).1.activeReminders, e.1 = k → e.2 = n := by
  induction l generalizing acc with
  | nil => exact hstamp
  | cons y ys ih =>
    rw [List.foldl_cons]
    exact ih _ (processSchedule_has io clk acc y k (Or.inl hhas))
      (processSchedule_stamp io clk acc y k n hhas hstamp)

theorem mapHas_cleanupOldReminders_recent (now n : Nat) (s : State) (k : String)
    (hhas : mapHas s.activeReminders k = true)
    (hstamp : ∀ e ∈ s.activeReminders, e.1 = k → e.2 = n)
    (hrecent : now ≤ n + 86400000) :
    mapHas (cleanupOldReminders now s).activeReminders k = true := by
  obtain ⟨e, he, hek⟩ := (mapHas_eq_true_iff _ _).1 hhas
  refine (mapHas_eq_true_iff _ _).2 ⟨e, ?_, hek⟩
  simp only [cleanupOldReminders, List.mem_filter, Bool.not_eq_true', decide_eq_false_iff_not,
    not_lt]
  refine ⟨he, ?_⟩
  rw [hstamp e he hek]
  omega

theorem cleanupOldReminders_stamp (now n : Nat) (s : State) (k : String)
    (hstamp : ∀ e ∈ s.activeReminders, e.1 = k → e.2 = n) :
    ∀ e ∈ (cleanupOldReminders now s).activeReminders, e.1 = k → e.2 = n := by
  intro e he hek
  simp only [cleanupOldReminders, List.mem_filter] at he
  exact hstamp e he.1 hek

theorem localDay_recent (clk clk' : Clock) (hoffset : clk'.localOffset = clk.localOffset)
    (hday : clk'.localDay = clk.localDay) : clk'.now ≤ clk.now + 86400000 := by
  simp only [Clock.localDay, hoffset] at hday
  omega

/-- The invariant of the ticks of one date: the key of the slot stays recorded
with the stamp of the tick that recorded it, and no tick passes the slot id to
`sendMedicineReminder`. -/
theorem processGuildReminders_keeps (io : Faults) (clk₁ clk : Clock) (st : State)
    (guildId : String) (slot : Schedule)
    (hoffset : clk.localOffset = clk₁.localOffset) (hday : clk.localDay = clk₁.localDay)
    (hid : st.guild.id = guildId)
    (hhas : mapHas st.activeReminders (dedupKey clk₁ guildId slot) = true)
    (hstamp : ∀ e ∈ st.activeReminders, e.1 = dedupKey clk₁ guildId slot → e.2 = clk₁.now) :
    (processGuildReminders io clk st).1.guild.id = guildId
    ∧ mapHas (processGuildReminders io clk st).1.activeReminders (dedupKey clk₁ guildId slot)
        = true
    ∧ (∀ e ∈ (processGuildReminders io clk st).1.activeReminders,
        e.1 = dedupKey clk₁ guildId slot → e.2 = clk₁.now)
    ∧ (processGuildReminders io clk st).2.countP (fun x => x.id == slot.id) = 0 := by
  have hkey : dedupKey clk st.guild.id slot = dedupKey clk₁ guildId slot := by
    rw [hid]
    exact dedupKey_eq_of_id clk clk₁ guildId slot slot rfl hday
  rw [processGuildReminders_eq]
  have h1 := foldl_processSchedule_has io clk (getTodaysSchedules io clk st.guild) (st, [])
    (dedupKey clk₁ guildId slot) (Or.inl hhas)
  have h2 := foldl_processSchedule_stamp io clk (getTodaysSchedules io clk st.guild) (st, [])
    (dedupKey clk₁ guildId slot) clk₁.now hhas hstamp
  refine ⟨?_, ?_, ?_, ?_⟩
  · exact (foldl_processSchedule_guild_id io clk _ (st, [])).trans hid
  · exact mapHas_cleanupOldReminders_recent clk.now clk₁.now _ _ h1 h2
      (localDay_recent clk₁ clk hoffset hday)
  · exact cleanupOldReminders_stamp clk.now clk₁.now _ _ h2
  · exact foldl_processSchedule_skip io clk slot _ (st, []) (by rw [hkey]; exact hhas) rfl

theorem runTicks_keeps (clk₁ : Clock) (guildId : String) (slot : Schedule)
    (ticks : List (Faults × Clock)) (st : State)
    (hticks : ∀ t ∈ ticks, t.2.localOffset = clk₁.localOffset ∧ t.2.localDay = clk₁.localDay)
    (hid : st.guild.id = guildId)
    (hhas : mapHas st.activeReminders (dedupKey clk₁ guildId slot) = true)
    (hstamp : ∀ e ∈ st.activeReminders, e.1 = dedupKey clk₁ guildId slot → e.2 = clk₁.now) :
    (runTicks st ticks).guild.id = guildId
    ∧ mapHas (runTicks st ticks).activeReminders (dedupKey clk₁ guildId slot) = true
    ∧ ∀ e ∈ (runTicks st ticks).activeReminders,
        e.1 = dedupKey clk₁ guildId slot → e.2 = clk₁.now := by
  induction ticks generalizing st with
  | nil => exact ⟨hid, hhas, hstamp⟩
  | cons t ts ih =>
    obtain ⟨ho, hd⟩ := hticks t (List.mem_cons_self _ _)
    obtain ⟨k1, k2, k3, _⟩ :=
      processGuildReminders_keeps t.1 clk₁ t.2 st guildId slot ho hd hid hhas hstamp
    exact ih _ (fun u hu => hticks u (List.mem_cons_of_mem _ hu)) k1 k2 k3

theorem foldl_processSchedule_undelivered (io : Faults) (clk : Clock) (l : List Schedule)
    (acc : State × List Schedule) (hfails : io.sendFails "medicine-reminders" = true) :
    (l.foldl (processSchedule io clk) acc).1.guild = acc.1.guild
    ∧ (l.foldl (processSchedule io clk) acc).1.timers = acc.1.timers
    ∧ (l.foldl (processSchedule io clk) acc).1.reminderTimeouts = acc.1.reminderTimeouts := by
  induction l generalizing acc with
  | nil => exact ⟨rfl, rfl, rfl⟩
  | cons y ys ih =>
    rw [List.foldl_cons]
    obtain ⟨h1, h2, h3⟩ := ih (processSchedule io clk acc y)
    have hstep : (processSchedule io clk acc y).1.guild = acc.1.guild
        ∧ (processSchedule io clk acc y).1.timers = acc.1.timers
        ∧ (processSchedule io clk acc y).1.reminderTimeouts = acc.1.reminderTimeouts := by
      unfold processSchedule
      simp only
      split
      · exact ⟨rfl, rfl, rfl⟩
      · rw [sendMedicineReminder_undelivered io clk.now acc.1 y (Or.inr hfails)]
        exact ⟨rfl, rfl, rfl⟩
    exact ⟨h1.trans hstep.1, h2.trans hstep.2.1, h3.trans hstep.2.2⟩

/-- C29: let a slot be due with its key `<guildId>_<slotId>_<date>` not yet in
`activeReminders`, and let `sendMedicineReminder` deliver nothing for it: the
medicine of the slot is not in the store, or the send to the reminder channel
throws.  Then `sendMedicineReminder` leaves every state with these medicines as
it was, the turn of the loop for the slot changes nothing but `activeReminders`,
where it puts the key, the key is recorded after the tick (and when the send
throws the tick leaves the guild, the timers and `reminderTimeouts` untouched),
and after any sequence of further ticks of the same date of the server, the
next tick of that date passes the slot id to `sendMedicineReminder` not at
all. -/
theorem processGuildReminders_records_undelivered (io₁ : Faults) (clk₁ : Clock) (s : State)
    (slot : Schedule)
    (hdue : slot ∈ getTodaysSchedules io₁ clk₁ s.guild)
    (hfresh : mapHas s.activeReminders (dedupKey clk₁ s.guild.id slot) = false)
    (hnothing : getMedicineById io₁ s.guild slot.medicine_id = none
      ∨ io₁.sendFails "medicine-reminders" = true) :
    (∀ st : State, st.guild.medicines = s.guild.medicines →
      sendMedicineReminder io₁ clk₁.now st slot = st)
    ∧ processSchedule io₁ clk₁ (s, []) slot
      = ({ s with
           activeReminders :=
             s.activeReminders ++ [(dedupKey clk₁ s.guild.id slot, clk₁.now)] }, [slot])
    ∧ mapHas (processGuildReminders io₁ clk₁ s).1.activeReminders
        (dedupKey clk₁ s.guild.id slot) = true
    ∧ (io₁.sendFails "medicine-reminders" = true →
        (processGuildReminders io₁ clk₁ s).1.guild = s.guild
        ∧ (processGuildReminders io₁ clk₁ s).1.timers = s.timers
        ∧ (processGuildReminders io₁ clk₁ s).1.reminderTimeouts = s.reminderTimeouts)
    ∧ ∀ (ticks : List (Faults × Clock)) (io : Faults) (clk : Clock),
        (∀ t ∈ (io, clk) :: ticks,
          t.2.localOffset = clk₁.localOffset ∧ t.2.localDay = clk₁.localDay) →
        (processGuildReminders io clk
          (runTicks (processGuildReminders io₁ clk₁ s).1 ticks)).2.countP
            (fun x => x.id == slot.id) = 0 := by
  have hsend : ∀ st : State, st.guild.medicines = s.guild.medicines →
      sendMedicineReminder io₁ clk₁.now st slot = st := by
    intro st hst
    apply sendMedicineReminder_undelivered
    rcases hnothing with h | h
    · exact Or.inl ((getMedicineById_congr io₁ s.guild st.guild hst _).trans h)
    · exact Or.inr h
  have hloop := foldl_processSchedule_count io₁ clk₁ slot (getTodaysSchedules io₁ clk₁ s.guild)
    (s, []) (by simp [hfresh]) (by
      intro e he hek
      have : mapHas s.activeReminders (dedupKey clk₁ s.guild.id slot) = true :=
        (mapHas_eq_true_iff _ _).2 ⟨e, he, hek⟩
      rw [hfresh] at this
      exact absurd this (by decide))
  have hhas := foldl_processSchedule_has io₁ clk₁ (getTodaysSchedules io₁ clk₁ s.guild)
    (s, []) (dedupKey clk₁ s.guild.id slot) (Or.inr ⟨slot, hdue, rfl⟩)
  have hkept := mapHas_cleanupOldReminders clk₁.now _ _ hhas hloop.2
  have hstamp := cleanupOldReminders_stamp clk₁.now clk₁.now _ _ hloop.2
  have hid : (processGuildReminders io₁ clk₁ s).1.guild.id = s.guild.id := by
    rw [processGuildReminders_eq]
    exact foldl_processSchedule_guild_id io₁ clk₁ _ (s, [])
  refine ⟨hsend, ?_, ?_, ?_, ?_⟩
  · simp only [processSchedule, hfresh, Bool.false_eq_true, if_false, hsend s rfl, mapSet,
      List.nil_append]
  · rw [processGuildReminders_eq]
    exact hkept
  · intro hfails
    rw [processGuildReminders_eq]
    exact foldl_processSchedule_undelivered io₁ clk₁ _ (s, []) hfails
  · intro ticks io clk hticks
    obtain ⟨ho, hd⟩ := hticks (io, clk) (List.mem_cons_self _ _)
    obtain ⟨k1, k2, k3⟩ := runTicks_keeps clk₁ s.guild.id slot ticks
      (processGuildReminders io₁ clk₁ s).1
      (fun u hu => hticks u (List.mem_cons_of_mem _ hu)) hid
      (by rw [processGuildReminders_eq]; exact hkept)
      (by rw [processGuildReminders_eq]; exact hstamp)
    exact (processGuildReminders_keeps io clk₁ clk _ s.guild.id slot ho hd k1 k2 k3).2.2.2

theorem processGuildReminders_records_undelivered_witness :
    sampleSchedule ∈ getTodaysSchedules noFaults (sampleTick 4500000) sampleOrphanSlot.guild
    ∧ mapHas sampleOrphanSlot.activeReminders
        (dedupKey (sampleTick 4500000) sampleOrphanSlot.guild.id sampleSchedule) = false
    ∧ getMedicineById noFaults sampleOrphanSlot.guild sampleSchedule.medicine_id = none
    ∧ sampleSchedule ∈ getTodaysSchedules noFaults (sampleTick 4560000)
        (processGuildReminders noFaults (sampleTick 4500000) sampleOrphanSlot).1.guild
    ∧ (processGuildReminders noFaults (sampleTick 4500000) sampleOrphanSlot).1.guild.messages = []
    ∧ mapHas (processGuildReminders noFaults (sampleTick 4500000) sampleOrphanSlot).1.activeReminders
        (dedupKey (sampleTick 4500000) sampleOrphanSlot.guild.id sampleSchedule) = true
    ∧ (processGuildReminders noFaults (sampleTick 4560000)
        (runTicks (processGuildReminders noFaults (sampleTick 4500000) sampleOrphanSlot).1
          [(noFaults, sampleTick 4530000)])).2.countP
            (fun x => x.id == sampleSchedule.id) = 0 :=
  ⟨by decide, by decide, by decide, by decide, by decide,
    (processGuildReminders_records_undelivered noFaults (sampleTick 4500000) sampleOrphanSlot
      sampleSchedule (by decide) (by decide) (Or.inl (by decide))).2.2.1,
    (processGuildReminders_records_undelivered noFaults (sampleTick 4500000) sampleOrphanSlot
      sampleSchedule (by decide) (by decide) (Or.inl (by decide))).2.2.2.2
      [(noFaults, sampleTick 4530000)] noFaults (sampleTick 4560000) (by decide)⟩


/-! ## The arithmetic of the compliance percentage -/

theorem roundHalfEven_bounds (N D : Nat) (hD : 0 < D) :
    2 * N ≤ 2 * D * roundHalfEven N D + D ∧ 2 * D * roundHalfEven N D ≤ 2 * N + D := by
  have hN : D * (N / D) + N % D = N := Nat.div_add_mod N D
  have hr : N % D < D := Nat.mod_lt N hD
  unfold roundHalfEven
  simp only
  generalize N / D = q at hN ⊢
  generalize N % D = r at hN hr ⊢
  subst hN
  split_ifs <;> constructor <;> ring_nf <;> omega

theorem roundHalfEven_le (N D : Nat) : roundHalfEven N D ≤ N / D + 1 := by
  unfold roundHalfEven
  simp only
  split_ifs <;> omega

theorem binaryExponent_ge (n d fuel e : Nat) : e ≤ binaryExponent n d fuel e := by
  induction fuel generalizing e with
  | zero => exact Nat.le_refl _
  | succ f ih =>
    unfold binaryExponent
    split_ifs
    · exact Nat.le_refl _
    · exact Nat.le_trans (Nat.le_succ e) (ih (e + 1))

theorem binaryExponent_test (n d fuel e : Nat) :
    2 ^ 52 * d ≤ n * 2 ^ binaryExponent n d fuel e ∨ binaryExponent n d fuel e = e + fuel := by
  induction fuel generalizing e with
  | zero => exact Or.inr rfl
  | succ f ih =>
    unfold binaryExponent
    split_ifs with h
    · exact Or.inl h
    · rcases ih (e + 1) with h' | h'
      · exact Or.inl h'
      · exact Or.inr (by rw [h']; omega)

theorem binaryExponent_least (n d fuel e k : Nat) (h1 : e ≤ k)
    (h2 : k < binaryExponent n d fuel e) : n * 2 ^ k < 2 ^ 52 * d := by
  induction fuel generalizing e with
  | zero =>
    unfold binaryExponent at h2
    omega
  | succ f ih =>
    unfold binaryExponent at h2
    split_ifs at h2 with h
    · omega
    · rcases Nat.eq_or_lt_of_le h1 with rfl | hlt
      · exact Nat.lt_of_not_le h
      · exact ih (e + 1) hlt h2

/-- A ratio that fails the test at `k` gets an exponent above `k`. -/
theorem nearestDouble_exponent_gt (n d k : Nat) (hk : k < 1100)
    (hfail : n * 2 ^ k < 2 ^ 52 * d) : k < (nearestDouble n d).2 := by
  show k < binaryExponent n d 1100 0
  rcases binaryExponent_test n d 1100 0 with h | h
  · by_contra hle
    have hle' : binaryExponent n d 1100 0 ≤ k := Nat.le_of_not_lt hle
    have : n * 2 ^ binaryExponent n d 1100 0 ≤ n * 2 ^ k :=
      Nat.mul_le_mul_left n (Nat.pow_le_pow_right (by decide) hle')
    omega
  · omega

/-- The significand of a double with a positive exponent is at most `2^53`. -/
theorem nearestDouble_significand_le (n d : Nat) (hd : 0 < d)
    (hpos : 0 < (nearestDouble n d).2) : (nearestDouble n d).1 ≤ 2 ^ 53 := by
  have hleast := binaryExponent_least n d 1100 0 ((nearestDouble n d).2 - 1) (Nat.zero_le _)
    (by show _ < (nearestDouble n d).2; omega)
  have hpow : (2 : Nat) ^ (nearestDouble n d).2 = 2 * 2 ^ ((nearestDouble n d).2 - 1) := by
    rw [← Nat.pow_succ']
    congr 1
    omega
  have hlt : n * 2 ^ (nearestDouble n d).2 < 2 ^ 53 * d := by
    rw [hpow]
    have : n * (2 * 2 ^ ((nearestDouble n d).2 - 1)) = 2 * (n * 2 ^ ((nearestDouble n d).2 - 1)) := by
      ring
    rw [this]
    omega
  have hdiv : n * 2 ^ (nearestDouble n d).2 / d < 2 ^ 53 := (Nat.div_lt_iff_lt_mul hd).2 hlt
  show roundHalfEven (n * 2 ^ binaryExponent n d 1100 0) d ≤ 2 ^ 53
  have h' : roundHalfEven (n * 2 ^ binaryExponent n d 1100 0) d
      ≤ n * 2 ^ binaryExponent n d 1100 0 / d + 1 := roundHalfEven_le _ _
  have hdiv' : n * 2 ^ binaryExponent n d 1100 0 / d < 2 ^ 53 := hdiv
  omega

/-- The double nearest to `n / d` is within half a unit of its last place. -/
theorem nearestDouble_close (n d : Nat) (hd : 0 < d) :
    |((nearestDouble n d).1 : ℚ) / 2 ^ (nearestDouble n d).2 - (n : ℚ) / d|
      ≤ 1 / (2 * 2 ^ (nearestDouble n d).2) := by
  obtain ⟨h1, h2⟩ := roundHalfEven_bounds (n * 2 ^ (nearestDouble n d).2) d hd
  have hm : (nearestDouble n d).1 = roundHalfEven (n * 2 ^ (nearestDouble n d).2) d := rfl
  rw [← hm] at h1 h2
  generalize (nearestDouble n d).1 = m at h1 h2
  generalize (nearestDouble n d).2 = e at h1 h2
  have hA : (0 : ℚ) < 2 ^ e := by positivity
  have hdq : (0 : ℚ) < d := by exact_mod_cast hd
  have h1q : (2 : ℚ) * (n * 2 ^ e) ≤ 2 * d * m + d := by exact_mod_cast h1
  have h2q : (2 : ℚ) * d * m ≤ 2 * (n * 2 ^ e) + d := by exact_mod_cast h2
  rw [abs_le]
  constructor
  · rw [neg_le_sub_iff_le_add, div_le_iff₀ hdq, ← sub_nonneg]
    have : ((m : ℚ) / 2 ^ e + 1 / (2 * 2 ^ e)) * d - n
        = (2 * d * m + d - 2 * (n * 2 ^ e)) / (2 * 2 ^ e) := by
      field_simp
      ring
    rw [this]
    apply div_nonneg
    · linarith
    · positivity
  · rw [sub_le_iff_le_add, div_le_iff₀ hA, ← sub_nonneg]
    have : (1 / (2 * 2 ^ e) + (n : ℚ) / d) * 2 ^ e - m
        = (2 * (n * 2 ^ e) + d - 2 * d * m) / (2 * d) := by
      field_simp
      ring
    rw [this]
    apply div_nonneg
    · linarith
    · positivity

/-- The double product `(taken / total) * 100` is within `2^-46 + 100 * 2^-53`
of the exact percentage. -/
theorem product_close (n d : Nat) (hn : 0 < n) (hnd : n ≤ d) :
    |((nearestDouble (100 * (nearestDouble n d).1) (2 ^ (nearestDouble n d).2)).1 : ℚ)
        / 2 ^ (nearestDouble (100 * (nearestDouble n d).1) (2 ^ (nearestDouble n d).2)).2
      - 100 * (n : ℚ) / d| ≤ 1 / 2 ^ 46 + 100 / 2 ^ 53 := by
  have hd : 0 < d := Nat.lt_of_lt_of_le hn hnd
  have he1 : 51 < (nearestDouble n d).2 :=
    nearestDouble_exponent_gt n d 51 (by decide) (by omega)
  have hm1 : (nearestDouble n d).1 ≤ 2 ^ 53 :=
    nearestDouble_significand_le n d hd (by omega)
  have hc1 := nearestDouble_close n d hd
  have hpow1 : (2 : Nat) ^ 52 ≤ 2 ^ (nearestDouble n d).2 :=
    Nat.pow_le_pow_right (by decide) he1
  have he2 : 44 < (nearestDouble (100 * (nearestDouble n d).1) (2 ^ (nearestDouble n d).2)).2 := by
    apply nearestDouble_exponent_gt _ _ 44 (by decide)
    calc 100 * (nearestDouble n d).1 * 2 ^ 44 ≤ 100 * 2 ^ 53 * 2 ^ 44 :=
          Nat.mul_le_mul_right _ (Nat.mul_le_mul_left _ hm1)
      _ < 2 ^ 52 * 2 ^ 52 := by norm_num
      _ ≤ 2 ^ 52 * 2 ^ (nearestDouble n d).2 := Nat.mul_le_mul_left _ hpow1
  have hc2 := nearestDouble_close (100 * (nearestDouble n d).1) (2 ^ (nearestDouble n d).2)
    (by positivity)
  have hpow2 : (2 : Nat) ^ 45
      ≤ 2 ^ (nearestDouble (100 * (nearestDouble n d).1) (2 ^ (nearestDouble n d).2)).2 :=
    Nat.pow_le_pow_right (by decide) he2
  generalize (nearestDouble (100 * (nearestDouble n d).1) (2 ^ (nearestDouble n d).2)).1 = m2
    at hc2 ⊢
  generalize (nearestDouble (100 * (nearestDouble n d).1) (2 ^ (nearestDouble n d).2)).2 = e2
    at hc2 hpow2 ⊢
  generalize (nearestDouble n d).1 = m1 at hc1 hc2
  generalize (nearestDouble n d).2 = e1 at hc1 hc2 hpow1
  have hA : (2 : ℚ) ^ 52 ≤ 2 ^ e1 := by exact_mod_cast hpow1
  have hB : (2 : ℚ) ^ 45 ≤ 2 ^ e2 := by exact_mod_cast hpow2
  have hu : (1 : ℚ) / (2 * 2 ^ e1) ≤ 1 / 2 ^ 53 := by
    apply one_div_le_one_div_of_le (by positivity)
    linarith
  have hv : (1 : ℚ) / (2 * 2 ^ e2) ≤ 1 / 2 ^ 46 := by
    apply one_div_le_one_div_of_le (by positivity)
    linarith
  push_cast at hc2
  rw [abs_le] at hc1 hc2 ⊢
  have hq : (100 : ℚ) * m1 / 2 ^ e1 = 100 * ((m1 : ℚ) / 2 ^ e1) := by ring
  have hx : (100 : ℚ) * n / d = 100 * ((n : ℚ) / d) := by ring
  rw [hq] at hc2
  rw [hx]
  constructor <;> linarith [hc1.1, hc1.2, hc2.1, hc2.2]

/-- The spec's rounded percentage and the exact percentage. -/
theorem roundedPercent_bounds (n d : Nat) (hd : 0 < d) :
    (roundedPercent n d : ℚ) ≤ 100 * (n : ℚ) / d + 1 / 2
    ∧ 100 * (n : ℚ) / d + 1 / 2 + 1 / (2 * d) ≤ (roundedPercent n d : ℚ) + 1
    ∧ ((200 * n + d) % (2 * d) ≠ 0 →
        (roundedPercent n d : ℚ) + 1 / (2 * d) ≤ 100 * (n : ℚ) / d + 1 / 2) := by
  have hdq : (0 : ℚ) < d := by exact_mod_cast hd
  have hmod : 2 * d * roundedPercent n d + (200 * n + d) % (2 * d) = 200 * n + d :=
    Nat.div_add_mod (200 * n + d) (2 * d)
  have hlt : (200 * n + d) % (2 * d) < 2 * d := Nat.mod_lt _ (by omega)
  generalize roundedPercent n d = R at hmod
  generalize (200 * n + d) % (2 * d) = r at hmod hlt
  have hx : 100 * (n : ℚ) / d + 1 / 2 = (200 * n + d) / (2 * d) := by
    field_simp
    ring
  have hcast : (2 : ℚ) * d * R + r = 200 * n + d := by exact_mod_cast hmod
  have hr : (r : ℚ) + 1 ≤ 2 * d := by exact_mod_cast hlt
  rw [hx]
  refine ⟨?_, ?_, ?_⟩
  · rw [le_div_iff₀ (by positivity)]
    have : (0 : ℚ) ≤ r := by positivity
    linarith
  · rw [div_add_div_same, div_le_iff₀ (by positivity)]
    linarith
  · intro hne
    have hr1 : (1 : ℚ) ≤ r := by exact_mod_cast Nat.one_le_iff_ne_zero.2 hne
    rw [le_div_iff₀ (by positivity)]
    have : ((R : ℚ) + 1 / (2 * d)) * (2 * d) = 2 * d * R + 1 := by
      field_simp
      ring
    rw [this]
    linarith

/-- JavaScript `Math.round` of a double between two integers. -/
theorem mathRound_bounds (x : Nat × Nat) (R : Nat) :
    ((R : ℚ) ≤ (x.1 : ℚ) / 2 ^ x.2 + 1 / 2 → R ≤ mathRound x)
    ∧ ((x.1 : ℚ) / 2 ^ x.2 + 1 / 2 < (R : ℚ) + 1 → mathRound x ≤ R) := by
  have hB : (0 : ℚ) < 2 ^ x.2 := by positivity
  have hsum : (x.1 : ℚ) / 2 ^ x.2 + 1 / 2 = (2 * x.1 + 2 ^ x.2) / (2 ^ (x.2 + 1)) := by
    rw [pow_succ]
    field_simp
    ring
  unfold mathRound
  constructor
  · intro h
    rw [hsum, le_div_iff₀ (by positivity)] at h
    rw [Nat.le_div_iff_mul_le (by positivity)]
    exact_mod_cast h
  · intro h
    rw [hsum, div_lt_iff₀ (by positivity)] at h
    apply Nat.le_of_lt_succ
    rw [Nat.div_lt_iff_lt_mul (by positivity)]
    exact_mod_cast h

/-- The percentage of the daily summary against the spec's rounding, for the
counts a capped log can give. -/
theorem compliancePercent_rounded (n d : Nat) (hnd : n ≤ d) (hd : d ≤ 1000) (hpos : 0 < d) :
    compliancePercent n d ≤ roundedPercent n d
    ∧ roundedPercent n d ≤ compliancePercent n d + 1
    ∧ ((200 * n + d) % (2 * d) ≠ 0 → compliancePercent n d = roundedPercent n d) := by
  by_cases hn : n = 0
  · subst hn
    have h0 : roundedPercent 0 d = 0 := by
      unfold roundedPercent
      rw [Nat.div_eq_zero_iff (by omega)]
      omega
    simp [compliancePercent, h0]
  · have hn' : 0 < n := Nat.pos_of_ne_zero hn
    have hclose := product_close n d hn' hnd
    obtain ⟨hb1, hb2, hb3⟩ := roundedPercent_bounds n d hpos
    have hcp : compliancePercent n d
        = mathRound (nearestDouble (100 * (nearestDouble n d).1) (2 ^ (nearestDouble n d).2)) := by
      simp [compliancePercent, hn]
    rw [hcp]
    generalize nearestDouble (100 * (nearestDouble n d).1) (2 ^ (nearestDouble n d).2) = p
      at hclose ⊢
    have hdq : (0 : ℚ) < d := by exact_mod_cast hpos
    have hdelta : (1 : ℚ) / 2000 ≤ 1 / (2 * d) := by
      apply one_div_le_one_div_of_le (by positivity)
      have : (d : ℚ) ≤ 1000 := by exact_mod_cast hd
      linarith
    have herr : (1 : ℚ) / 2 ^ 46 + 100 / 2 ^ 53 < 1 / 2000 := by norm_num
    rw [abs_le] at hclose
    have hup : mathRound p ≤ roundedPercent n d :=
      (mathRound_bounds p (roundedPercent n d)).2 (by linarith [hclose.2])
    refine ⟨hup, ?_, ?_⟩
    · rcases Nat.eq_zero_or_pos (roundedPercent n d) with h0 | h0
      · omega
      · have hlow : roundedPercent n d - 1 ≤ mathRound p := by
          apply (mathRound_bounds p (roundedPercent n d - 1)).1
          have : ((roundedPercent n d - 1 : Nat) : ℚ) = (roundedPercent n d : ℚ) - 1 := by
            rw [Nat.cast_sub h0]
            simp
          rw [this]
          linarith [hclose.1]
        omega
    · intro hne
      have hlow : roundedPercent n d ≤ mathRound p :=
        (mathRound_bounds p (roundedPercent n d)).1 (by linarith [hclose.1, hb3 hne])
      omega


/-! ## The daily summary -/

theorem countToday_cons (clk : Clock) (e : LogEntry) (logs : List LogEntry) (type : String) :
    countToday clk (e :: logs) type
      = countToday clk logs type + (if isTodaysLog clk e = true ∧ e.type = type then 1 else 0) := by
  unfold countToday
  by_cases h1 : isTodaysLog clk e = true
  · by_cases h2 : e.type = type
    · simp [List.filter_cons, h1, h2]
    · simp [List.filter_cons, h1, h2]
  · simp [List.filter_cons, h1]

theorem countToday_add_le (clk : Clock) (logs : List LogEntry) :
    countToday clk logs "medicine_taken" + countToday clk logs "medicine_missed"
      ≤ logs.length := by
  induction logs with
  | nil => simp [countToday]
  | cons e es ih =>
    rw [countToday_cons, countToday_cons, List.length_cons]
    by_cases h : e.type = "medicine_taken"
    · have h' : e.type ≠ "medicine_missed" := by rw [h]; decide
      have hm : (if isTodaysLog clk e = true ∧ e.type = "medicine_missed" then 1 else 0) = 0 :=
        if_neg (fun hc => h' hc.2)
      rw [hm]
      split_ifs <;> omega
    · have ht : (if isTodaysLog clk e = true ∧ e.type = "medicine_taken" then 1 else 0) = 0 :=
        if_neg (fun hc => h hc.2)
      rw [ht]
      split_ifs <;> omega

/-- C28, counterexample: on a day whose log holds 23 entries `medicine_taken`
and 17 entries `medicine_missed` the summary reports the compliance `57%`, while
`100 * 23 / 40` is 57.5, which rounds to 58. -/
theorem dailySummary_of_23_and_17 :
    countToday (sampleTick 4560000) sampleDayLog.logs.logs "medicine_taken" = 23
    ∧ countToday (sampleTick 4560000) sampleDayLog.logs.logs "medicine_missed" = 17
    ∧ (sendDailySummary noFaults (sampleTick 4560000) sampleDayLog).messages
      = [{ channel := "medicine-logs", kind := MessageKind.dailySummary 23 17 "57%" }]
    ∧ 2 * (100 * 23) = (2 * 57 + 1) * (23 + 17)
    ∧ roundedPercent 23 (23 + 17) = 58 := by
  decide

/-- C28, amended: with working reads and sends, `sendDailySummary` posts in the
log channel one summary that reports as taken the number of the stored entries
whose timestamp starts with the date of the server and whose type is exactly
`medicine_taken`, and as missed the number of those whose type is exactly
`medicine_missed`; an entry of any other type counts for neither.  The
compliance is `N/A` when taken + missed = 0; otherwise it is
`Math.round((taken / total) * 100)` computed in doubles, followed by `%`, which
for a log within the cap of 1000 entries is `round(100 * taken / total)` unless
`100 * taken / total` lies exactly halfway between two integers, where it is
that value or one less. -/
theorem sendDailySummary_report (clk : Clock) (g : Guild)
    (hcap : g.logs.logs.length ≤ 1000) :
    sendDailySummary noFaults clk g
      = { g with
          messages := g.messages ++
            [{ channel := "medicine-logs"
               kind := MessageKind.dailySummary
                 (countToday clk g.logs.logs "medicine_taken")
                 (countToday clk g.logs.logs "medicine_missed")
                 (if countToday clk g.logs.logs "medicine_taken"
                      + countToday clk g.logs.logs "medicine_missed" = 0 then "N/A"
                  else toString (compliancePercent (countToday clk g.logs.logs "medicine_taken")
                      (countToday clk g.logs.logs "medicine_taken"
                        + countToday clk g.logs.logs "medicine_missed")) ++ "%") }] }
    ∧ (∀ (e : LogEntry) (logs : List LogEntry),
        e.type ≠ "medicine_taken" → e.type ≠ "medicine_missed" →
        countToday clk (e :: logs) "medicine_taken" = countToday clk logs "medicine_taken"
        ∧ countToday clk (e :: logs) "medicine_missed" = countToday clk logs "medicine_missed")
    ∧ compliancePercent (countToday clk g.logs.logs "medicine_taken")
          (countToday clk g.logs.logs "medicine_taken"
            + countToday clk g.logs.logs "medicine_missed")
        ≤ roundedPercent (countToday clk g.logs.logs "medicine_taken")
          (countToday clk g.logs.logs "medicine_taken"
            + countToday clk g.logs.logs "medicine_missed")
    ∧ roundedPercent (countToday clk g.logs.logs "medicine_taken")
          (countToday clk g.logs.logs "medicine_taken"
            + countToday clk g.logs.logs "medicine_missed")
        ≤ compliancePercent (countToday clk g.logs.logs "medicine_taken")
          (countToday clk g.logs.logs "medicine_taken"
            + countToday clk g.logs.logs "medicine_missed") + 1
    ∧ ((200 * countToday clk g.logs.logs "medicine_taken"
          + (countToday clk g.logs.logs "medicine_taken"
            + countToday clk g.logs.logs "medicine_missed"))
        % (2 * (countToday clk g.logs.logs "medicine_taken"
            + countToday clk g.logs.logs "medicine_missed")) ≠ 0 →
       compliancePercent (countToday clk g.logs.logs "medicine_taken")
          (countToday clk g.logs.logs "medicine_taken"
            + countToday clk g.logs.logs "medicine_missed")
        = roundedPercent (countToday clk g.logs.logs "medicine_taken")
          (countToday clk g.logs.logs "medicine_taken"
            + countToday clk g.logs.logs "medicine_missed")) := by
  have hle := countToday_add_le clk g.logs.logs
  have hpost : sendDailySummary noFaults clk g
      = { g with
          messages := g.messages ++
            [{ channel := "medicine-logs"
               kind := MessageKind.dailySummary
                 (countToday clk g.logs.logs "medicine_taken")
                 (countToday clk g.logs.logs "medicine_missed")
                 (if countToday clk g.logs.logs "medicine_taken"
                      + countToday clk g.logs.logs "medicine_missed" = 0 then "N/A"
                  else toString (compliancePercent (countToday clk g.logs.logs "medicine_taken")
                      (countToday clk g.logs.logs "medicine_taken"
                        + countToday clk g.logs.logs "medicine_missed")) ++ "%") }] } := by
    simp only [sendDailySummary, channelSend_noFaults, countToday]
    have hread : readLogs noFaults g = g.logs := rfl
    rw [hread]
    by_cases h0 : ((g.logs.logs.filter (isTodaysLog clk)).filter
          (fun log => log.type == "medicine_taken")).length
        + ((g.logs.logs.filter (isTodaysLog clk)).filter
          (fun log => log.type == "medicine_missed")).length = 0
    · simp only [h0, gt_iff_lt, Nat.lt_irrefl, if_false, if_true]
    · simp only [h0, gt_iff_lt, Nat.pos_of_ne_zero h0, if_false, if_true]
  refine ⟨hpost, ?_, ?_⟩
  · intro e logs h1 h2
    rw [countToday_cons, countToday_cons]
    simp [h1, h2]
  · rcases Nat.eq_zero_or_pos (countToday clk g.logs.logs "medicine_taken"
        + countToday clk g.logs.logs "medicine_missed") with h0 | h0
    · have ht : countToday clk g.logs.logs "medicine_taken" = 0 := by omega
      rw [h0, ht]
      simp [compliancePercent, roundedPercent]
    · exact compliancePercent_rounded _ _ (Nat.le_add_right _ _) (Nat.le_trans hle hcap) h0

theorem sendDailySummary_report_witness :
    sampleDayLog.logs.logs.length ≤ 1000
    ∧ sendDailySummary noFaults (sampleTick 4560000) sampleDayLog
      = { sampleDayLog with
          messages :=
            [{ channel := "medicine-logs", kind := MessageKind.dailySummary 23 17 "57%" }] }
    ∧ roundedPercent 23 40 ≤ compliancePercent 23 40 + 1 :=
  ⟨by decide,
    (sendDailySummary_report (sampleTick 4560000) sampleDayLog (by decide)).1.trans (by decide),
    (sendDailySummary_report (sampleTick 4560000) sampleDayLog (by decide)).2.2.2.1.trans
      (by decide)⟩


/-! ## Custom ids of the reminder buttons -/

/-- With ids of the size Discord gives, the custom ids of the reminder buttons
hold more than 100 characters, `setCustomId` throws and `sendMedicineReminder`
leaves the state as it was: nothing is sent and no timer is armed. -/
theorem sendMedicineReminder_long_custom_id :
    getMedicineById noFaults sampleDiscordIds.guild sampleDiscordSlot.medicine_id ≠ none
    ∧ jsLength ("taken_" ++ sampleDiscordSlot.medicine_id ++ "_" ++ sampleDiscordSlot.target_id
        ++ "_" ++ (sampleDiscordIds.guild.id ++ "_" ++ sampleDiscordSlot.medicine_id ++ "_"
          ++ sampleDiscordSlot.target_id ++ "_" ++ toString 1772971200000)) = 112
    ∧ sendMedicineReminder noFaults 1772971200000 sampleDiscordIds sampleDiscordSlot
      = sampleDiscordIds := by
  decide


end MedGuardian
